import Mathlib

/-!
# Auth-system: login state machine, tokens and session tracking

A shallow embedding of the backend of the authentication service
(`backend/utils/jwtUtils.js`, `backend/utils/sessionManager.js`,
`backend/models/*.js`, `backend/middleware/auth.js`,
`backend/controllers/userController.js`, `backend/routes/adminRoutes.js`).

Conventions of the embedding.

* Every handler is a pure function of the server state and of what the
  handler observes from outside: the request body, the values returned by
  `Date.now()` (milliseconds, `Nat`), the integer drawn by `Math.random()`,
  and whether the mail transport accepted a message.
* The credential store and the activity log are lists.  A store operation
  rejects only where the schema makes it reject (a value that does not cast
  to an ObjectId, an action outside the enum); otherwise it succeeds.
  Console and file logging (`logAuth`, `logUserActivity`, `logError`,
  `console.log`) have no effect on the state and are omitted.
* A JavaScript string that may be missing is a `String` whose empty value
  stands for every falsy value (`undefined`, `null`, `''`).
* Response bodies keep the fields that carry credentials or state
  (`status`, `message`, tokens, `requiresOTP`, `isLocked`,
  `attemptsRemaining`, `emailSent`); the echoed user summary is omitted.
-/

namespace AuthSystem

/-! ## Identifiers as JavaScript values -/

/-- A value used as a user identifier at run time: either a string, or an
`ObjectId` instance.  An `ObjectId` is a heap object: `ref` is its identity
(one per hydrated document) and `hex` its 24-digit rendering. -/
inductive JsId where
  | str (s : String)
  | oid (ref : Nat) (hex : String)
deriving DecidableEq, Repr

/-- JavaScript `a === b` on identifiers: strings compare by content, objects
by identity, and a string is never `===` to an object. -/
def JsId.strictEq : JsId → JsId → Bool
  | .str a, .str b => a == b
  | .oid r _, .oid r2 _ => r == r2
  | _, _ => false

/-- The result of `id.toString()`, which is also what a template literal and
JSON serialisation produce. -/
def JsId.toStr : JsId → String
  | .str s => s
  | .oid _ hex => hex

/-- JavaScript `a || b` on strings. -/
def jsOr (a b : String) : String := if a = "" then b else a

/-- JavaScript `a || b` where `a` may be `undefined`. -/
def jsOrOpt (a : Option String) (b : Option String) : Option String :=
  match a with
  | some x => if x = "" then b else some x
  | none => b

/-! ## Configuration -/

/-- The process environment and the external collaborators of the backend:
`adminConfig` (`config/adminConfig.js`), the JWT settings read from
`process.env` by `utils/jwtUtils.js` (both secrets are taken to be set;
lifetimes are in seconds), `bcrypt.compare` and the reCAPTCHA verifier.
`bcryptMatches password hash` tells whether `bcrypt` finds that `password`
matches the stored `hash`. -/
structure Env where
  adminEmail : String
  adminPassword : String
  adminName : String
  jwtSecret : String
  jwtRefreshSecret : String
  jwtExpire : Nat
  jwtRefreshExpire : Nat
  bcryptMatches : String → String → Bool
  verifyRecaptcha : String → Bool

/-- The call `bcrypt.compare(password, hash)` on a submitted (non-empty)
password: the value that the promise resolves to, and `none` when the promise
rejects (`data and hash arguments required`), as it does when the record has
no stored hash; the empty string stands for a missing `password` path. -/
def bcryptCompare (env : Env) (password hash : String) : Option Bool :=
  if hash = "" then none else some (env.bcryptMatches password hash)

/-! ## Tokens (`utils/jwtUtils.js`) -/

/-- The claim set placed in a token by the issuers of `jwtUtils.js`. -/
structure Payload where
  userId : String
  type : String
  role : Option String := none
  email : Option String := none
  isSystemAdmin : Option Bool := none
deriving DecidableEq, Repr

/-- A signed token, symbolically: the claims, the secret under which its
signature verifies, and the `iat`/`exp` claims in seconds. -/
structure Jwt where
  payload : Payload
  key : String
  iat : Nat
  exp : Nat
deriving DecidableEq, Repr

/-- The call `jwt.sign(payload, secret, { expiresIn })` of the `jsonwebtoken`
library at clock value `now` (ms): `iat` is the current second. -/
def jwtSign (payload : Payload) (secret : String) (expiresIn : Nat) (now : Nat) : Jwt :=
  { payload := payload, key := secret, iat := now / 1000, exp := now / 1000 + expiresIn }

/-- The call `jwt.verify(token, secret)` of the `jsonwebtoken` library at
clock value `now` (ms): it throws when the signature does not verify under
`secret` or when the current second has reached `exp`. -/
def jwtVerify (token : Jwt) (secret : String) (now : Nat) : Except String Payload :=
  if token.key ≠ secret then .error "invalid signature"
  else if token.exp ≤ now / 1000 then .error "jwt expired"
  else .ok token.payload

/-- The `length` of a JavaScript string: the number of UTF-16 code units, two
for each character outside the Basic Multilingual Plane. -/
def jsLength (s : String) : Nat :=
  s.toList.foldl (fun n c => n + (if 65536 ≤ c.toNat then 2 else 1)) 0

/-- The optional third argument of `generateAccessToken`. -/
structure AdditionalData where
  email : Option String := none
  isSystemAdmin : Option Bool := none
deriving DecidableEq, Repr

/-- A credential record (`models/users.js`), fields used by the login,
token and session logic.  `_id` is the hex form of the record's ObjectId;
dates are milliseconds. -/
structure User where
  _id : String
  email : String
  username : String
  name : String := ""
  password : String
  refreshToken : Option Jwt := none
  resetPasswordToken : Option String := none
  resetPasswordExpires : Option Nat := none
  isVerified : Bool := false
  loginOTP : Option String := none
  loginOTPExpires : Option Nat := none
  lastLogin : Option Nat := none
  loginAttempts : Nat := 0
  lockUntil : Option Nat := none
  isLocked : Bool := false
  failedLoginAttempts : Nat := 0
  unlockToken : Option Jwt := none
  unlockTokenExpires : Option Nat := none
  role : String := "user"
  isDeregistered : Bool := false
  isActive : Bool := true
deriving DecidableEq, Repr

/-- The query `User.findById(id)`: the record whose `_id` renders as `id`.
Ids are taken in the canonical lower-case hexadecimal form in which the
handlers produce them. -/
def findById (users : List User) (id : JsId) : Option User :=
  users.find? (fun u => u._id == id.toStr)

/-- `generateAccessToken(userId, role, additionalData)`.  For the sentinel id
the claims are fixed; otherwise the role and email are read from the
credential store (a failed lookup falls back to the caller's role, in the
`catch` as in the `else`). -/
def generateAccessToken (env : Env) (users : List User) (now : Nat)
    (userId : JsId) (role : String) (additionalData : AdditionalData) : Jwt :=
  let payload : Payload :=
    if userId.strictEq (.str "admin-system-user") then
      { userId := userId.toStr, type := "access", role := some "admin",
        isSystemAdmin := some true,
        email := jsOrOpt additionalData.email (some "admin@yourdomain.com") }
    else
      let p1 : Payload :=
        match findById users userId with
        | some user =>
          { userId := userId.toStr, type := "access", role := some (jsOr user.role role),
            email := jsOrOpt (some user.email) additionalData.email }
        | none => { userId := userId.toStr, type := "access", role := some role }
      let p2 : Payload :=
        if (jsOrOpt additionalData.email none).isSome ∧ (jsOrOpt p1.email none).isNone then
          { p1 with email := additionalData.email }
        else p1
      match additionalData.isSystemAdmin with
      | some b => { p2 with isSystemAdmin := some b }
      | none => p2
  jwtSign payload env.jwtSecret env.jwtExpire now

/-- `generateRefreshToken(userId)`. -/
def generateRefreshToken (env : Env) (now : Nat) (userId : JsId) : Jwt :=
  jwtSign { userId := userId.toStr, type := "refresh" } env.jwtRefreshSecret env.jwtRefreshExpire now

/-- `generateEmailVerificationToken(email, userId)`, valid for 24 hours. -/
def generateEmailVerificationToken (env : Env) (now : Nat) (email : String) (userId : JsId) : Jwt :=
  jwtSign { userId := userId.toStr, type := "email_verification", email := some email }
    env.jwtSecret 86400 now

/-- `generatePasswordResetToken(email, userId)`, valid for one hour. -/
def generatePasswordResetToken (env : Env) (now : Nat) (email : String) (userId : JsId) : Jwt :=
  jwtSign { userId := userId.toStr, type := "password_reset", email := some email }
    env.jwtSecret 3600 now

/-- The common body of the four verifiers: `jwt.verify` under `secret`, then
the `decoded.type !== expected` test; whatever is thrown inside the `try` is
replaced in the `catch` by the verifier's own message. -/
def verifyTyped (secret : String) (expected : String) (message : String)
    (now : Nat) (token : Jwt) : Except String Payload :=
  match jwtVerify token secret now with
  | .error _ => .error message
  | .ok decoded => if decoded.type ≠ expected then .error message else .ok decoded

/-- `verifyAccessToken(token)`. -/
def verifyAccessToken (env : Env) (now : Nat) (token : Jwt) : Except String Payload :=
  verifyTyped env.jwtSecret "access" "Invalid or expired token" now token

/-- `verifyRefreshToken(token)`. -/
def verifyRefreshToken (env : Env) (now : Nat) (token : Jwt) : Except String Payload :=
  verifyTyped env.jwtRefreshSecret "refresh" "Invalid or expired refresh token" now token

/-- `verifyEmailVerificationToken(token)`. -/
def verifyEmailVerificationToken (env : Env) (now : Nat) (token : Jwt) : Except String Payload :=
  verifyTyped env.jwtSecret "email_verification" "Invalid or expired verification token" now token

/-- `verifyPasswordResetToken(token)`. -/
def verifyPasswordResetToken (env : Env) (now : Nat) (token : Jwt) : Except String Payload :=
  verifyTyped env.jwtSecret "password_reset" "Invalid or expired reset token" now token

/-- The pair returned by `generateTokens`. -/
structure Tokens where
  accessToken : Jwt
  refreshToken : Jwt
deriving DecidableEq, Repr

/-- `generateTokens(userId, role, additionalData)`. -/
def generateTokens (env : Env) (users : List User) (now : Nat)
    (userId : JsId) (role : String) (additionalData : AdditionalData) : Tokens :=
  { accessToken := generateAccessToken env users now userId role additionalData
    refreshToken := generateRefreshToken env now userId }

/-! ## Activity log (`models/userActivity.js`) -/

/-- The free-form `details` of an activity, fields read back by the code. -/
structure Details where
  reason : Option String := none
  sessionId : Option String := none
  targetUserId : Option String := none
deriving DecidableEq, Repr

/-- An activity-log document. `user` is the hex form of the referenced
ObjectId; `timestamp` is in milliseconds. -/
structure Activity where
  user : String
  action : String
  details : Details := {}
  success : Bool := true
  timestamp : Nat
  ipAddress : String := ""
  userAgent : String := ""
deriving DecidableEq, Repr

/-- The closed `enum` of the `action` path of `userActivitySchema`. -/
def actionEnum : List String :=
  ["LOGIN_ATTEMPT", "LOGIN_SUCCESS", "LOGIN_FAILED", "LOGOUT", "REGISTER",
   "EMAIL_VERIFIED", "PASSWORD_CHANGED", "PASSWORD_RESET_REQUEST",
   "PASSWORD_RESET_SUCCESS", "ACCOUNT_DELETED",
   "GOOGLE_LOGIN", "GOOGLE_REGISTER", "GOOGLE_LINK",
   "PROFILE_CREATED", "PROFILE_UPDATED", "PROFILE_VIEWED", "PROFILE_PICTURE_UPDATED",
   "OTP_GENERATED", "OTP_VERIFIED", "OTP_FAILED", "ACCOUNT_LOCKED", "ACCOUNT_UNLOCKED",
   "ADMIN_SESSION_TERMINATE",
   "TOKEN_REFRESHED", "TOKEN_REVOKED"]

/-- Whether a string is 24 hexadecimal digits, the string form that casts to
an ObjectId. -/
def isObjectIdHex (s : String) : Bool :=
  s.length == 24 && s.toList.all (fun c => c.isDigit || ('a' ≤ c && c ≤ 'f') || ('A' ≤ c && c ≤ 'F'))

/-- Casting a value to the ObjectId-typed `user` path. -/
def castObjectId : JsId → Option String
  | .oid _ hex => some hex
  | .str s => if isObjectIdHex s then some s else none

/-- What the request contributes to a log entry or a session record. -/
structure ReqMeta where
  ip : String := ""
  userAgent : String := ""
deriving DecidableEq, Repr

/-- The static `UserActivity.logActivity(userId, action, req, details)`:
returns the log after the call.  The sentinel id is skipped; a document that
fails schema validation (missing or uncastable `user`, `action` outside the
enum) makes `save()` reject, which the method catches, so nothing is
appended.  `timestamp` defaults to `Date.now()` when the document is built;
`success` defaults to `true` when the details carry none. -/
def logActivity (log : List Activity) (now : Nat) (userId : Option JsId) (action : String)
    (req : ReqMeta) (details : Details) (success : Option Bool) : List Activity :=
  match userId with
  | none => log
  | some uid =>
    if uid.strictEq (.str "admin-system-user") then log
    else
      match castObjectId uid with
      | none => log
      | some hex =>
        if action ∈ actionEnum then
          log ++ [{ user := hex, action := action, details := details,
                    success := success.getD true, timestamp := now,
                    ipAddress := req.ip, userAgent := req.userAgent }]
        else log

/-! ## Session tracker (`utils/sessionManager.js`) -/

/-- The embedded user summary of a session record. -/
structure SessionUser where
  _id : JsId
  email : String
  name : String
  username : String
  role : Option String := none
deriving DecidableEq, Repr

/-- The `sessionData` argument of `addSession`. -/
structure SessionData where
  userId : JsId
  user : Option SessionUser
  ipAddress : String
  loginTime : Nat
  lastActivity : Nat
  status : String
  userAgent : String
deriving DecidableEq, Repr

/-- A record held by the session manager. -/
structure Session where
  _id : String
  userId : JsId
  user : Option SessionUser
  ipAddress : String
  loginTime : Nat
  lastActivity : Nat
  status : String
  userAgent : String
  createdAt : Nat
deriving DecidableEq, Repr

/-- The `Map` of the session manager, in insertion order. -/
abbrev SessionMap := List (String × Session)

/-- `Map.prototype.set`: an existing key keeps its position. -/
def mapSet (m : SessionMap) (k : String) (v : Session) : SessionMap :=
  if m.any (fun e => e.1 == k) then m.map (fun e => if e.1 == k then (k, v) else e)
  else m ++ [(k, v)]

/-- `addSession(sessionId, sessionData)` at clock value `now`: `createdAt` is
the login time (a `Date` object, always truthy) and `lastActivity` is
overwritten by `new Date()`. -/
def addSession (m : SessionMap) (now : Nat) (sessionId : String) (d : SessionData) : SessionMap :=
  mapSet m sessionId
    { _id := sessionId, userId := d.userId, user := d.user, ipAddress := d.ipAddress,
      loginTime := d.loginTime, lastActivity := now, status := d.status,
      userAgent := d.userAgent, createdAt := d.loginTime }

/-- `getSession(sessionId)`. -/
def getSession (m : SessionMap) (sessionId : String) : Option Session :=
  (m.find? (fun e => e.1 == sessionId)).map Prod.snd

/-- `removeSession(sessionId)`: the result of `Map.prototype.delete` and the
map afterwards. -/
def removeSession (m : SessionMap) (sessionId : String) : Bool × SessionMap :=
  (m.any (fun e => e.1 == sessionId), m.filter (fun e => !(e.1 == sessionId)))

/-- `findSessionsByUserId(userId)`: the records with
`session.userId === userId || (session.user && session.user._id === userId)`. -/
def findSessionsByUserId (m : SessionMap) (userId : JsId) : List Session :=
  (m.map Prod.snd).filter (fun session =>
    session.userId.strictEq userId ||
      (match session.user with
       | some u => u._id.strictEq userId
       | none => false))

/-- `getSessionCount()`. -/
def getSessionCount (m : SessionMap) : Nat := m.length

/-- `clearAllSessions()`. -/
def clearAllSessions (_m : SessionMap) : SessionMap := []

/-- The test `new Date(session.lastActivity) < expirationTime` of
`removeExpiredSessions`, where `expirationTime` is the current time moved back
by `hoursToExpire` hours with `setHours` (an hour is 3600000 ms: the local
time zone is taken to have a fixed offset).  Dates compare by their
millisecond values, which may lie before the epoch. -/
def sessionExpired (now hoursToExpire : Nat) (session : Session) : Bool :=
  decide ((session.lastActivity : Int) < (now : Int) - (hoursToExpire : Int) * 3600000)

/-- `removeExpiredSessions(hoursToExpire)` at clock value `now`: the loop
visits the entries of the `Map` in insertion order, deletes the key of each
expired entry from the map and pushes it on `expiredSessions`; the result is
that array and the map afterwards. -/
def removeExpiredSessions (m : SessionMap) (now hoursToExpire : Nat) : List String × SessionMap :=
  m.foldl
    (fun (acc : List String × SessionMap) (e : String × Session) =>
      if sessionExpired now hoursToExpire e.2 then
        (acc.1 ++ [e.1], acc.2.filter (fun x => !(x.1 == e.1)))
      else acc)
    ([], m)

/-! ## Server state -/

/-- The state shared by the handlers: the credential store, the activity
log, the session manager singleton, and the allocator of object identities
(each document hydrated by a controller query gets an `ObjectId` instance of
its own). -/
structure Server where
  users : List User := []
  activities : List Activity := []
  sessions : SessionMap := []
  nextRef : Nat := 0
deriving DecidableEq, Repr

/-- `user.save()`: the stored record with the same `_id` is replaced. -/
def saveUser (users : List User) (u : User) : List User :=
  users.map (fun v => if v._id == u._id then u else v)

/-- The `_id` object of a document hydrated in state `s`. -/
def Server.freshId (s : Server) (u : User) : JsId := .oid s.nextRef u._id

/-- The state after a controller query has hydrated one document. -/
def Server.hydrated (s : Server) : Server := { s with nextRef := s.nextRef + 1 }

/-- A JSON response: HTTP status and the body fields that carry credentials
or account state. -/
structure Response where
  status : Nat
  message : String
  success : Option Bool := none
  accessToken : Option Jwt := none
  refreshToken : Option Jwt := none
  requiresOTP : Bool := false
  isLocked : Option Bool := none
  attemptsRemaining : Option Nat := none
  emailSent : Option Bool := none
deriving DecidableEq, Repr

/-- The session identifier built by the template literal
`session_${id}_${millis}`. -/
def sessionIdOf (id : String) (millis : Nat) : String :=
  "session_" ++ id ++ "_" ++ toString millis

/-! ## `login` (`controllers/userController.js`) -/

/-- What one run of `login` observes from outside: the clock at the lock
test (`tCheck`), at the writes to the record and the signing of tokens
(`tStamp`), at the registration of a session (`tSession`) and at the writes
to the activity log (`tLog`); the integer `⌊Math.random() * 900000⌋`;
whether `transporter.sendMail` resolved; and the string form of the error it
throws when it does not. -/
structure LoginIO where
  tCheck : Nat
  tStamp : Nat
  tSession : Nat
  tLog : Nat
  rand : Nat
  mailOk : Bool
  mailError : String := "Error: connect ECONNREFUSED"
deriving DecidableEq, Repr

/-- `generateOTP()`, given `k = ⌊Math.random() * 900000⌋`. -/
def generateOTP (k : Nat) : String := toString (100000 + k)

/-- `generateOTP()` as written,
`Math.floor(100000 + Math.random() * 900000).toString()`, for the value `r`
returned by `Math.random()`; the product and the sum are taken exactly. -/
def generateOTPFrom (r : ℚ) : String := toString ⌊100000 + r * 900000⌋₊

/-- The number that a string of decimal digits denotes. -/
def decimalValue (s : String) : Nat :=
  s.toList.foldl (fun n c => n * 10 + (c.toNat - '0'.toNat)) 0

/-- The lock test `user.isLocked || (user.lockUntil && user.lockUntil > Date.now())`. -/
def lockedAt (user : User) (now : Nat) : Bool :=
  user.isLocked ||
    (match user.lockUntil with
     | some t => decide (now < t)
     | none => false)

/-- The system-admin branch of `login` (lines 86-150): the password is
compared with the configured secret; on success tokens are issued for the
sentinel id and a session is registered. -/
def loginSystemAdmin (env : Env) (io : LoginIO) (m : ReqMeta) (password : String)
    (s : Server) : Response × Server :=
  if password ≠ env.adminPassword then
    ({ status := 401, message := "Invalid credentials", success := some false }, s)
  else
    let tokens := generateTokens env s.users io.tStamp (.str "admin-system-user") "admin"
      { email := some env.adminEmail, isSystemAdmin := some true }
    let sessionId := sessionIdOf "admin-system-user" io.tSession
    let sessions := addSession s.sessions io.tSession sessionId
      { userId := .str "admin-system-user",
        user := some { _id := .str "admin-system-user", email := env.adminEmail,
                       name := env.adminName, username := env.adminEmail },
        ipAddress := jsOr m.ip "Unknown", loginTime := io.tSession,
        lastActivity := io.tSession, status := "active",
        userAgent := jsOr m.userAgent "Unknown" }
    ({ status := 200, message := "Admin login successful", success := some true,
       accessToken := some tokens.accessToken, refreshToken := some tokens.refreshToken },
     { s with sessions := sessions })

/-- The role-admin branch of `login` (lines 153-246), entered with the
stored record whose email equals the submitted username and whose role is
`admin`: password first, then the lock test, then tokens are issued
directly.  When `bcrypt.compare` rejects, the `catch` of the branch answers
500. -/
def loginAdminUser (env : Env) (io : LoginIO) (m : ReqMeta) (password : String)
    (s : Server) (adminUser : User) : Response × Server :=
  let uid := s.freshId adminUser
  let s1 := s.hydrated
  match bcryptCompare env password adminUser.password with
  | none =>
    ({ status := 500, message := "Admin login error: data and hash arguments required" }, s1)
  | some false =>
    ({ status := 401, message := "Invalid credentials", success := some false },
     { s1 with activities := logActivity s1.activities io.tLog (some uid) "LOGIN_FAILED" m
                 { reason := some "Invalid password" } (some false) })
  | some true =>
    let adminUser := if !adminUser.isVerified then { adminUser with isVerified := true } else adminUser
    if lockedAt adminUser io.tCheck then
      ({ status := 423, message := "Account is locked due to multiple failed attempts.",
         isLocked := some true },
       { s1 with activities := logActivity s1.activities io.tLog (some uid) "LOGIN_FAILED" m
                   { reason := some "Account locked" } (some false) })
    else
      let tokens := generateTokens env s1.users io.tStamp (.str uid.toStr) "admin"
        { email := some adminUser.email, isSystemAdmin := some false }
      let saved : User :=
        { adminUser with refreshToken := some tokens.refreshToken, lastLogin := some io.tStamp,
                         loginAttempts := 0, failedLoginAttempts := 0 }
      let sessionId := sessionIdOf uid.toStr io.tSession
      let sessions := addSession s1.sessions io.tSession sessionId
        { userId := .str uid.toStr,
          user := some { _id := uid, email := adminUser.email,
                         name := jsOr adminUser.name (jsOr adminUser.username "Admin"),
                         username := adminUser.username },
          ipAddress := jsOr m.ip "Unknown", loginTime := io.tSession,
          lastActivity := io.tSession, status := "active",
          userAgent := jsOr m.userAgent "Unknown" }
      ({ status := 200, message := "Admin login successful", success := some true,
         accessToken := some tokens.accessToken, refreshToken := some tokens.refreshToken },
       { s1 with users := saveUser s1.users saved, sessions := sessions,
                 activities := logActivity s1.activities io.tLog (some uid) "ADMIN_LOGIN_SUCCESS" m
                   {} (some true) })

/-- The regular branch of `login` (lines 262-436), entered with the record
found by username: verified test, lock test, password comparison, then
either OTP issuance or the failed-attempt counter.  Whatever is thrown (a
rejected `bcrypt.compare`, a refused mail) is answered by the `catch` with 500
and the message `"Something went wrong" + e`. -/
def loginRegular (env : Env) (io : LoginIO) (m : ReqMeta) (password : String)
    (s : Server) (user : User) : Response × Server :=
  let uid := s.freshId user
  let s1 := s.hydrated
  if !user.isVerified then
    let s2 := { s1 with activities := logActivity s1.activities io.tLog (some uid) "LOGIN_FAILED" m
                          { reason := some "Email not verified" } (some false) }
    if io.mailOk then
      ({ status := 401,
         message := "Please verify your email before logging in. A new verification email has been sent.",
         emailSent := some true }, s2)
    else
      ({ status := 401,
         message := "Please verify your email before logging in. Contact support if you need a new verification email.",
         emailSent := some false }, s2)
  else if lockedAt user io.tCheck then
    ({ status := 423,
       message := "Account is locked due to multiple failed attempts. Please check your email for unlock instructions.",
       isLocked := some true },
     { s1 with activities := logActivity s1.activities io.tLog (some uid) "LOGIN_FAILED" m
                 { reason := some "Account locked" } (some false) })
  else
    match bcryptCompare env password user.password with
    | none =>
      ({ status := 500,
         message := "Something went wrongError: data and hash arguments required" }, s1)
    | some true =>
      let saved : User :=
        { user with loginAttempts := 0, failedLoginAttempts := 0, lockUntil := none, isLocked := false,
                    loginOTP := some (generateOTP io.rand),
                    loginOTPExpires := some (io.tStamp + 600000) }
      let s2 := { s1 with users := saveUser s1.users saved,
                          activities := logActivity s1.activities io.tLog (some uid) "OTP_GENERATED" m
                            {} (some true) }
      if io.mailOk then
        ({ status := 200, message := "OTP sent to your email", requiresOTP := true }, s2)
      else
        ({ status := 500, message := "Something went wrong" ++ io.mailError }, s2)
    | some false =>
      let failed := user.failedLoginAttempts + 1
      let counted : User := { user with loginAttempts := user.loginAttempts + 1,
                                        failedLoginAttempts := failed }
      if 3 ≤ failed then
        let unlockToken := generateEmailVerificationToken env io.tStamp user.email uid
        let locked : User :=
          { counted with isLocked := true, lockUntil := some (io.tStamp + 30 * 60 * 1000),
                         unlockToken := some unlockToken,
                         unlockTokenExpires := some (io.tStamp + 24 * 60 * 60 * 1000) }
        let s2 := { s1 with activities := logActivity s1.activities io.tLog (some uid) "ACCOUNT_LOCKED" m
                              { reason := some "Too many failed login attempts" } none }
        if io.mailOk then
          ({ status := 401,
             message := "Account locked due to too many failed attempts. Please check your email for unlock instructions.",
             attemptsRemaining := some (3 - failed), isLocked := some true },
           { s2 with users := saveUser s2.users locked,
                     activities := logActivity s2.activities io.tLog (some uid) "LOGIN_FAILED" m
                       { reason := some "Invalid password" } (some false) })
        else
          ({ status := 500, message := "Something went wrong" ++ io.mailError }, s2)
      else
        ({ status := 401,
           message := if counted.isLocked then
               "Account locked due to too many failed attempts. Please check your email for unlock instructions."
             else if 3 - failed > 1 then
               "Invalid username or password. " ++ toString (3 - failed) ++ " attempts remaining."
             else
               "Invalid username or password. " ++ toString (3 - failed) ++ " attempt remaining.",
           attemptsRemaining := some (3 - failed), isLocked := some counted.isLocked },
         { s1 with users := saveUser s1.users counted,
                   activities := logActivity s1.activities io.tLog (some uid) "LOGIN_FAILED" m
                     { reason := some "Invalid password" } (some false) })

/-- The query `User.findOne({ email: username, role: 'admin', isDeregistered: { $ne: true } })`. -/
def findAdminByEmail (users : List User) (username : String) : Option User :=
  users.find? (fun u => u.email == username && u.role == "admin" && !u.isDeregistered)

/-- The query `User.findOne({ username, isDeregistered: { $ne: true } })`. -/
def findByUsername (users : List User) (username : String) : Option User :=
  users.find? (fun u => u.username == username && !u.isDeregistered)

/-- The controller `login`: input validation, the captcha gate (skipped for
the system-admin email and for the `admin-bypass` token), then the
system-admin, role-admin and regular branches in this order. -/
def login (env : Env) (io : LoginIO) (m : ReqMeta) (username password captchaToken : String)
    (s : Server) : Response × Server :=
  if username = "" ∨ password = "" then
    ({ status := 400, message := "Please enter the username and password" }, s)
  else if username ≠ env.adminEmail ∧ captchaToken ≠ "admin-bypass" ∧ captchaToken = "" then
    ({ status := 400, message := "Please complete the captcha verification" }, s)
  else if username ≠ env.adminEmail ∧ captchaToken ≠ "admin-bypass" ∧
      env.verifyRecaptcha captchaToken = false then
    ({ status := 400, message := "Invalid captcha verification" }, s)
  else if username = env.adminEmail then
    loginSystemAdmin env io m password s
  else
    match findAdminByEmail s.users username with
    | some adminUser => loginAdminUser env io m password s adminUser
    | none =>
      match findByUsername s.users username with
      | none =>
        ({ status := 404, message := "No user exist with the username " ++ username },
         { s with activities := logActivity s.activities io.tLog none "LOGIN_FAILED" m
                    { reason := some "User not found" } (some false) })
      | some user => loginRegular env io m password s user

/-- The captcha gate of `login` for a username other than the system-admin
email: the token is the designated bypass value, or it is present and the
external verifier accepts it. -/
def passesChallenge (env : Env) (captchaToken : String) : Bool :=
  captchaToken == "admin-bypass" || (captchaToken != "" && env.verifyRecaptcha captchaToken)

/-! ## `verifyLoginOTP` -/

/-- What one run of `verifyLoginOTP` observes from the clock: at the expiry
test (`tCheck`), at the write of `lastLogin` and the signing of tokens
(`tStamp`), at the template literal that builds the session id
(`tSession`), at the `new Date()` calls that fill the session record
(`tRecord`), and at the first and second call of `logActivity` (`tLog1`,
`tLog2`). -/
structure OtpIO where
  tCheck : Nat
  tStamp : Nat
  tSession : Nat
  tRecord : Nat
  tLog1 : Nat
  tLog2 : Nat
deriving DecidableEq, Repr

/-- The test `user.loginOTPExpires < Date.now()`; a `null` expiry converts
to `0`. -/
def otpExpired (expires : Option Nat) (now : Nat) : Bool :=
  match expires with
  | some e => decide (e < now)
  | none => decide (0 < now)

/-- The controller `verifyLoginOTP`.  The submitted `otp` is a string; the
comparison `user.loginOTP !== otp` fails for a stored `null` as for a
different string. -/
def verifyLoginOTP (env : Env) (io : OtpIO) (m : ReqMeta) (username otp : String)
    (s : Server) : Response × Server :=
  if username = "" ∨ otp = "" then
    ({ status := 400, message := "Username and OTP are required" }, s)
  else
    match findByUsername s.users username with
    | none =>
      ({ status := 404, message := "Invalid username" },
       { s with activities := logActivity s.activities io.tLog1 none "OTP_FAILED" m
                  { reason := some "Invalid username" } (some false) })
    | some user =>
      let uid := s.freshId user
      let s1 := s.hydrated
      if user.loginOTP ≠ some otp then
        ({ status := 401, message := "Invalid OTP" },
         { s1 with activities := logActivity s1.activities io.tLog1 (some uid) "OTP_FAILED" m
                     { reason := some "Invalid OTP" } (some false) })
      else if otpExpired user.loginOTPExpires io.tCheck then
        ({ status := 401, message := "OTP has expired. Please login again" },
         { s1 with activities := logActivity s1.activities io.tLog1 (some uid) "OTP_FAILED" m
                     { reason := some "OTP expired" } (some false) })
      else
        let cleared : User :=
          { user with loginOTP := none, loginOTPExpires := none, lastLogin := some io.tStamp,
                      failedLoginAttempts := 0, isLocked := false }
        let tokens := generateTokens env s1.users io.tStamp uid (jsOr user.role "user")
          { email := some user.email, isSystemAdmin := some false }
        let saved : User := { cleared with refreshToken := some tokens.refreshToken }
        let sessionId := sessionIdOf uid.toStr io.tSession
        let sessions := addSession s1.sessions io.tRecord sessionId
          { userId := .str uid.toStr,
            user := some { _id := uid, email := user.email,
                           name := jsOr user.name (jsOr user.username "Unknown"),
                           username := user.username },
            ipAddress := jsOr m.ip "Unknown", loginTime := io.tRecord,
            lastActivity := io.tRecord, status := "active",
            userAgent := jsOr m.userAgent "Unknown" }
        let log1 := logActivity s1.activities io.tLog1 (some uid) "LOGIN_SUCCESS" m {} (some true)
        let log2 := logActivity log1 io.tLog2 (some uid) "OTP_VERIFIED" m {} (some true)
        ({ status := 200, message := "Login successful",
           accessToken := some tokens.accessToken, refreshToken := some tokens.refreshToken },
         { s1 with users := saveUser s1.users saved, sessions := sessions, activities := log2 })

/-! ## `authenticateJWT` (`middleware/auth.js`) and `logout` -/

/-- The middleware `authenticateJWT`: either a response that ends the
request, or the value it leaves in `req.userId`.  For a stored user this is
the `_id` object of the document hydrated by `User.findById`. -/
def authenticateJWT (env : Env) (now : Nat) (token : Option Jwt) (s : Server) :
    Except Response JsId × Server :=
  match token with
  | none => (.error { status := 401, message := "Access token required", success := some false }, s)
  | some tok =>
    match verifyAccessToken env now tok with
    | .error _ =>
      (.error { status := 401, message := "Invalid or expired token", success := some false }, s)
    | .ok decoded =>
      if decoded.userId = "admin-system-user" ∧ decoded.isSystemAdmin = some true then
        (.ok (.str "admin-system-user"), s)
      else if isObjectIdHex decoded.userId = false then
        (.error { status := 401, message := "Invalid or expired token", success := some false }, s)
      else
        match findById s.users (.str decoded.userId) with
        | none => (.error { status := 401, message := "Invalid token", success := some false }, s)
        | some user => (.ok (s.freshId user), s.hydrated)

/-- `User.findByIdAndUpdate(userId, { refreshToken: null })` on a castable
id: the first record with that `_id` loses its refresh token. -/
def clearRefreshToken : List User → String → List User
  | [], _ => []
  | u :: rest, hex =>
    if u._id == hex then { u with refreshToken := none } :: rest
    else u :: clearRefreshToken rest hex

/-- The controller `logout`, given the `req.userId` left by the middleware.
An id that does not cast to an ObjectId makes `findByIdAndUpdate` reject,
which skips to the `catch`; both paths answer 200. -/
def logout (now : Nat) (m : ReqMeta) (userId : Option JsId) (s : Server) : Response × Server :=
  let ok : Response := { status := 200, message := "Logged out successfully", success := some true }
  match userId with
  | none => (ok, s)
  | some uid =>
    match castObjectId uid with
    | none => (ok, s)
    | some hex =>
      let users := clearRefreshToken s.users hex
      let userSessions := findSessionsByUserId s.sessions uid
      let sessions := userSessions.foldl (fun acc session => (removeSession acc session._id).2) s.sessions
      (ok, { s with users := users, sessions := sessions,
                    activities := logActivity s.activities now (some uid) "LOGOUT" m {} (some true) })

/-! ## `refreshToken` -/

/-- The bindings that `controllers/userController.js` imports from
`../utils/jwtUtils.js` (its import list, lines 8-14). -/
def userControllerImports : List String :=
  ["generateTokens", "generateEmailVerificationToken", "generatePasswordResetToken",
   "verifyEmailVerificationToken", "verifyPasswordResetToken"]

/-- What the identifier `verifyRefreshToken` denotes inside the controller
module: the function of `jwtUtils.js` if the module imports it, and nothing
otherwise (evaluating the identifier then throws a `ReferenceError`). -/
def controllerVerifyRefreshToken : Option (Env → Nat → Jwt → Except String Payload) :=
  if "verifyRefreshToken" ∈ userControllerImports then some verifyRefreshToken else none

/-- The controller `refreshToken`, given the submitted token (`none` for a
missing one).  Everything thrown inside the `try` is answered by the `catch`
with 401. -/
def refreshToken (env : Env) (now : Nat) (m : ReqMeta) (token : Option Jwt) (s : Server) :
    Response × Server :=
  match token with
  | none => ({ status := 400, message := "Refresh token required" }, s)
  | some tok =>
    let caught : Response := { status := 401, message := "Invalid or expired refresh token" }
    match controllerVerifyRefreshToken with
    | none => (caught, s)
    | some verify =>
      match verify env now tok with
      | .error _ => (caught, s)
      | .ok decoded =>
        if isObjectIdHex decoded.userId = false then (caught, s)
        else
        match s.users.find? (fun u => u._id == decoded.userId && u.refreshToken == some tok) with
        | none =>
          ({ status := 401, message := "Invalid refresh token" },
           { s with activities := logActivity s.activities now (some (.str decoded.userId))
                      "TOKEN_REFRESHED" m { reason := some "Invalid refresh token" } (some false) })
        | some user =>
          let uid := s.freshId user
          let s1 := s.hydrated
          let tokens := generateTokens env s1.users now uid "user" {}
          ({ status := 200, message := "",
             accessToken := some tokens.accessToken, refreshToken := some tokens.refreshToken },
           { s1 with users := saveUser s1.users { user with refreshToken := some tokens.refreshToken },
                     activities := logActivity s1.activities now (some uid) "TOKEN_REFRESHED" m
                       {} (some true) })

/-! ## Admin session routes (`routes/adminRoutes.js`) -/

/-- The login-class actions queried by `GET /sessions`. -/
def loginActions : List String :=
  ["LOGIN_SUCCESS", "OTP_VERIFIED", "ADMIN_LOGIN_SUCCESS", "GOOGLE_LOGIN"]

/-- The logout-class actions queried by `GET /sessions`. -/
def logoutActions : List String :=
  ["LOGOUT", "FORCE_LOGOUT", "ADMIN_SESSION_TERMINATE"]

/-- The first query of `GET /sessions`: login-class events not older than
`cutoff`, newest first (ties keep log order). -/
def loginActivities (log : List Activity) (cutoff : Nat) : List Activity :=
  (log.filter (fun a => decide (a.action ∈ loginActions) && decide (cutoff ≤ a.timestamp))).insertionSort
    (fun a b => b.timestamp ≤ a.timestamp)

/-- The second query of `GET /sessions`: logout-class events not older than
`cutoff`. -/
def logoutActivities (log : List Activity) (cutoff : Nat) : List Activity :=
  log.filter (fun a => decide (a.action ∈ logoutActions) && decide (cutoff ≤ a.timestamp))

/-- The set `terminatedSessionIds`: the `details.sessionId` of every
`ADMIN_SESSION_TERMINATE` event that carries a non-empty one. -/
def terminatedSessionIds (logouts : List Activity) : List String :=
  logouts.filterMap (fun l =>
    if l.action = "ADMIN_SESSION_TERMINATE" then
      (match l.details.sessionId with
       | some sid => if sid = "" then none else some sid
       | none => none)
    else none)

/-- The entry of `userTerminationMap` for `userId`: the session ids of the
termination events recorded under that user
(`details.targetUserId || logout.user.toString()`). -/
def userTerminations (logouts : List Activity) (userId : String) : List String :=
  logouts.filterMap (fun l =>
    if l.action = "ADMIN_SESSION_TERMINATE" then
      (match l.details.sessionId with
       | some sid =>
         if sid = "" then none
         else if jsOr (l.details.targetUserId.getD "") l.user = userId then some sid else none
       | none => none)
    else none)

/-- The entry of `userLogoutMap` for `userId`: the timestamp of the latest
logout of that user that is not an admin termination. -/
def userLogout (logouts : List Activity) (userId : String) : Option Nat :=
  logouts.foldl (fun existing l =>
    if l.user = userId ∧ l.action ≠ "ADMIN_SESSION_TERMINATE" then
      (match existing with
       | none => some l.timestamp
       | some t => if t < l.timestamp then some l.timestamp else some t)
    else existing) none

/-- The session id that `GET /sessions` derives from a login event (lines
107-109). -/
def derivedSessionId (activity : Activity) : String :=
  sessionIdOf activity.user activity.timestamp

/-- One iteration of the `loginActivities.forEach` loop of `GET /sessions`:
`acc` is `userSessionMap`, `ref` the identity of the populated user's `_id`. -/
def reconcileStep (users : List User) (logouts : List Activity) (now : Nat)
    (acc : SessionMap) (ref : Nat) (activity : Activity) : SessionMap :=
  match findById users (.str activity.user) with
  | none => acc
  | some user =>
    let userId := activity.user
    let loginTime := activity.timestamp
    let sessionId := derivedSessionId activity
    if sessionId ∈ terminatedSessionIds logouts then acc
    else if sessionId ∈ userTerminations logouts userId then acc
    else if (match userLogout logouts userId with
             | some t => decide (loginTime < t)
             | none => false) then acc
    else if 2 * 60 * 60 * 1000 < now - loginTime then acc
    else if (match getSession acc userId with
             | some existing => decide (loginTime < existing.loginTime)
             | none => false) then acc
    else
      mapSet acc userId
        { _id := sessionId, userId := .str userId,
          user := some { _id := .oid ref user._id, email := user.email,
                         name := jsOr user.name (jsOr user.username "Unknown"),
                         username := user.username, role := some (jsOr user.role "user") },
          ipAddress := jsOr activity.ipAddress "Unknown", loginTime := loginTime,
          lastActivity := loginTime, status := "active",
          userAgent := jsOr activity.userAgent "Unknown", createdAt := loginTime }

/-- The tests by which the loop of `GET /sessions` discards a login event
whatever sessions it has kept so far: the user no longer populates, the
derived id is in the terminated set or among the user's terminations, a
logout of the user is later than the login, or the login is older than the
two-hour timeout.  An event that passes them all survives. -/
def survives (users : List User) (logouts : List Activity) (now : Nat)
    (activity : Activity) : Bool :=
  (findById users (.str activity.user)).isSome &&
  !decide (derivedSessionId activity ∈ terminatedSessionIds logouts) &&
  !decide (derivedSessionId activity ∈ userTerminations logouts activity.user) &&
  !(match userLogout logouts activity.user with
    | some t => decide (activity.timestamp < t)
    | none => false) &&
  !decide (2 * 60 * 60 * 1000 < now - activity.timestamp)

/-- The session object that the loop of `GET /sessions` builds for a login
event whose user populates as `user`; `ref` is the identity of the populated
`_id`. -/
def sessionOfLogin (ref : Nat) (user : User) (activity : Activity) : Session :=
  { _id := derivedSessionId activity, userId := .str activity.user,
    user := some { _id := .oid ref user._id, email := user.email,
                   name := jsOr user.name (jsOr user.username "Unknown"),
                   username := user.username, role := some (jsOr user.role "user") },
    ipAddress := jsOr activity.ipAddress "Unknown", loginTime := activity.timestamp,
    lastActivity := activity.timestamp, status := "active",
    userAgent := jsOr activity.userAgent "Unknown", createdAt := activity.timestamp }

/-- The test `existingSession && existingSession.loginTime > loginTime` of the
loop of `GET /sessions`. -/
def newerKept (acc : SessionMap) (activity : Activity) : Bool :=
  match getSession acc activity.user with
  | some existing => decide (activity.timestamp < existing.loginTime)
  | none => false

/-- What the loop of `GET /sessions` guarantees of an entry it keeps: it was
built from a login event of the source list that survives the discards. -/
def DerivedFrom (users : List User) (logouts : List Activity) (now : Nat)
    (source : Activity → Prop) (e : String × Session) : Prop :=
  ∃ a, source a ∧ survives users logouts now a = true ∧ e.1 = a.user ∧
    e.2._id = derivedSessionId a ∧ e.2.userId = .str a.user ∧
    e.2.loginTime = a.timestamp ∧ e.2.lastActivity = a.timestamp

/-- A user has an entry whose login time is at least `t`. -/
def Covered (acc : SessionMap) (userId : String) (t : Nat) : Prop :=
  ∃ sess, getSession acc userId = some sess ∧ t ≤ sess.loginTime

/-- The clock values read by `GET /sessions`: for the lookback window, for
the timeout test inside the loop, and by `addSession`. -/
structure SessionsIO where
  tQuery : Nat
  tLoop : Nat
  tAdd : Nat
deriving DecidableEq, Repr

/-- The list `activeSessions` computed by `GET /sessions`, sorted by
`lastActivity`, newest first. -/
def activeSessions (io : SessionsIO) (s : Server) : List Session :=
  let cutoff := io.tQuery - 24 * 60 * 60 * 1000
  let logins := loginActivities s.activities cutoff
  let logouts := logoutActivities s.activities cutoff
  let userSessionMap := logins.enum.foldl
    (fun acc e => reconcileStep s.users logouts io.tLoop acc (s.nextRef + e.1) e.2) []
  (userSessionMap.map Prod.snd).insertionSort (fun a b => b.lastActivity ≤ a.lastActivity)

/-- The body of a successful `GET /sessions` response. -/
structure SessionsResponse where
  success : Bool
  count : Nat
  sessions : List Session
deriving DecidableEq, Repr

/-- The handler `GET /sessions` (listActiveSessions): recompute the active
sessions from the activity log, replace the contents of the session manager
by them, and return them. -/
def getSessions (io : SessionsIO) (s : Server) : SessionsResponse × Server :=
  let cutoff := io.tQuery - 24 * 60 * 60 * 1000
  let logouts := logoutActivities s.activities cutoff
  let active := activeSessions io s
  let tracked := active.foldl (fun acc session =>
      if session._id ∈ terminatedSessionIds logouts then acc
      else addSession acc io.tAdd session._id
        { userId := session.userId, user := session.user, ipAddress := session.ipAddress,
          loginTime := session.loginTime, lastActivity := session.lastActivity,
          status := session.status, userAgent := session.userAgent })
    (clearAllSessions s.sessions)
  ({ success := true, count := active.length, sessions := active },
   { s with sessions := tracked,
            nextRef := s.nextRef + (loginActivities s.activities cutoff).length })

/-- `str.split('_')` on the characters of a string. -/
def splitUnderscore : List Char → List (List Char)
  | [] => [[]]
  | c :: cs =>
    match splitUnderscore cs with
    | [] => [[c]]
    | p :: ps => if c = '_' then [] :: p :: ps else (c :: p) :: ps

/-- The handler `DELETE /sessions/:sessionId` (terminateSession), with
`terminatedBy` the `req.userId` of the admin.  The session is removed from
the manager first; the termination event is written only for an id of the
form `session_<24 characters>_...`, and a rejected write is answered with
200 as well. -/
def terminateSession (now : Nat) (m : ReqMeta) (sessionId : String) (s : Server) :
    Response × Server :=
  let removed := removeSession s.sessions sessionId
  let s1 := { s with sessions := removed.2 }
  let parts := splitUnderscore sessionId.toList
  if parts.length < 3 ∨ parts.head? ≠ some "session".toList then
    ({ status := 400, message := "Invalid session ID format", success := some false }, s1)
  else
    let userId := String.mk (parts.getD 1 [])
    if userId.length ≠ 24 then
      if removed.1 then
        ({ status := 200, message := "Session terminated successfully", success := some true }, s1)
      else
        ({ status := 400, message := "Invalid user ID in session", success := some false }, s1)
    else if isObjectIdHex userId = false then
      ({ status := 200, message := "Session terminated (some logging may have failed)",
         success := some true }, s1)
    else
      ({ status := 200, message := "Session terminated successfully", success := some true },
       { s1 with activities := s1.activities ++
           [{ user := userId, action := "ADMIN_SESSION_TERMINATE", timestamp := now,
              ipAddress := jsOr m.ip "Unknown", userAgent := jsOr m.userAgent "Unknown",
              details := { targetUserId := some userId, sessionId := some sessionId } }] })

/-! ## `unlockAccount` and `resetPassword` -/

/-- What one run of `unlockAccount` or `resetPassword` observes from
outside: the clock when the token is verified (`tVerify`), at the expiry
test of the unlock token (`tCheck`), at the signing of new tokens and the
write of `lastLogin` (`tStamp`) and at the write to the activity log
(`tLog`); the string returned by `bcrypt.hash`; and whether
`transporter.sendMail` resolved. -/
structure RedeemIO where
  tVerify : Nat
  tCheck : Nat
  tStamp : Nat
  tLog : Nat
  hashedPassword : String
  mailOk : Bool
deriving DecidableEq, Repr

/-- The test `user.unlockTokenExpires < Date.now()`.  The path has no schema
default, so a missing expiry is `undefined`, which converts to `NaN` and makes
the comparison false. -/
def unlockExpired (expires : Option Nat) (now : Nat) : Bool :=
  match expires with
  | some e => decide (e < now)
  | none => false

/-- The query `User.findOne({ _id: userId, email, isLocked: true, unlockToken: token })`
of `unlockAccount`, on a castable id. -/
def findLockedByToken (users : List User) (userId : String) (email : Option String)
    (token : Jwt) : Option User :=
  users.find? (fun u => u._id == userId && some u.email == email && u.isLocked &&
    u.unlockToken == some token)

/-- The controller `unlockAccount`, given the submitted token (`none` for a
missing one) and the new password.  The token is checked with
`verifyEmailVerificationToken`; whatever is thrown inside the `try` (a
rejected token, an id that does not cast, a refused mail) is answered by the
`catch` with 500.  The failure entries use the action
`ACCOUNT_UNLOCK_FAILED`. -/
def unlockAccount (env : Env) (io : RedeemIO) (m : ReqMeta) (token : Option Jwt)
    (newPassword : String) (s : Server) : Response × Server :=
  match token with
  | none => ({ status := 400, message := "Please provide unlock token and new password" }, s)
  | some tok =>
    if newPassword = "" then
      ({ status := 400, message := "Please provide unlock token and new password" }, s)
    else
      match verifyEmailVerificationToken env io.tVerify tok with
      | .error msg => ({ status := 500, message := msg }, s)
      | .ok decoded =>
        if isObjectIdHex decoded.userId = false then
          ({ status := 500, message := "Cast to ObjectId failed" }, s)
        else
          match findLockedByToken s.users decoded.userId decoded.email tok with
          | none =>
            ({ status := 400, message := "Invalid or expired unlock token" },
             { s with activities := logActivity s.activities io.tLog (some (.str decoded.userId))
                        "ACCOUNT_UNLOCK_FAILED" m { reason := some "Invalid unlock token" }
                        (some false) })
          | some user =>
            let uid := s.freshId user
            let s1 := s.hydrated
            if unlockExpired user.unlockTokenExpires io.tCheck then
              ({ status := 400, message := "Unlock token has expired. Please contact support." },
               { s1 with activities := logActivity s1.activities io.tLog (some uid)
                           "ACCOUNT_UNLOCK_FAILED" m { reason := some "Token expired" }
                           (some false) })
            else if jsLength newPassword < 6 then
              ({ status := 400, message := "Password must be at least 6 characters long" }, s1)
            else
              let tokens := generateTokens env s1.users io.tStamp uid "user" {}
              let saved : User :=
                { user with
                  password := io.hashedPassword, isLocked := false, failedLoginAttempts := 0,
                  loginAttempts := 0, lockUntil := none, unlockToken := none,
                  unlockTokenExpires := none, refreshToken := some tokens.refreshToken,
                  lastLogin := some io.tStamp }
              let s2 := { s1 with users := saveUser s1.users saved,
                                  activities := logActivity s1.activities io.tLog (some uid)
                                    "ACCOUNT_UNLOCKED" m {} (some true) }
              if io.mailOk then
                ({ status := 200,
                   message := "Account unlocked successfully. You can now login with your new password.",
                   accessToken := some tokens.accessToken,
                   refreshToken := some tokens.refreshToken }, s2)
              else
                ({ status := 500, message := "Error unlocking account" }, s2)

/-- The query `User.findOne({ _id: userId, email })` of `resetPassword`, on a
castable id. -/
def findByIdAndEmail (users : List User) (userId : String) (email : Option String) :
    Option User :=
  users.find? (fun u => u._id == userId && some u.email == email)

/-- The controller `resetPassword`, given the submitted token (`none` for a
missing one) and the new password.  The token is checked with
`verifyPasswordResetToken`; whatever is thrown inside the `try` is answered
by the `catch` with 500. -/
def resetPassword (env : Env) (io : RedeemIO) (m : ReqMeta) (token : Option Jwt)
    (newPassword : String) (s : Server) : Response × Server :=
  match token with
  | none => ({ status := 400, message := "Please provide token and new password" }, s)
  | some tok =>
    if newPassword = "" then
      ({ status := 400, message := "Please provide token and new password" }, s)
    else
      match verifyPasswordResetToken env io.tVerify tok with
      | .error msg => ({ status := 500, message := msg }, s)
      | .ok decoded =>
        if isObjectIdHex decoded.userId = false then
          ({ status := 500, message := "Cast to ObjectId failed" }, s)
        else
          match findByIdAndEmail s.users decoded.userId decoded.email with
          | none =>
            ({ status := 400, message := "Invalid reset token" },
             { s with activities := logActivity s.activities io.tLog (some (.str decoded.userId))
                        "PASSWORD_RESET_SUCCESS" m { reason := some "User not found" }
                        (some false) })
          | some user =>
            let uid := s.freshId user
            let s1 := s.hydrated
            if jsLength newPassword < 6 then
              ({ status := 400, message := "Password must be at least 6 characters long" }, s1)
            else
              let saved : User :=
                { user with
                  password := io.hashedPassword, resetPasswordToken := none,
                  resetPasswordExpires := none, loginAttempts := 0, failedLoginAttempts := 0,
                  lockUntil := none, isLocked := false, unlockToken := none,
                  unlockTokenExpires := none }
              let s2 := { s1 with users := saveUser s1.users saved,
                                  activities := logActivity s1.activities io.tLog (some uid)
                                    "PASSWORD_RESET_SUCCESS" m {} (some true) }
              if io.mailOk then
                ({ status := 200, message := "Password reset successful" }, s2)
              else
                ({ status := 500, message := "Error resetting password" }, s2)

/-! ## `googleCallback`, `forgotPassword` and `deregisterAccount` -/

/-- The controller `googleCallback`, given `req.user` as passport left it (the
document that the Google strategy loaded or created; `none` when it is
missing), the clock at the signing of the tokens and the write of `lastLogin`
(`tStamp`) and at the write to the activity log (`tLog`).  Tokens are issued
for `user._id` with the default role, the refresh token and `lastLogin` are
saved and a `GOOGLE_LOGIN` entry is written; the response is a redirect whose
query string carries both tokens.  The body contains no call to the session
manager.  The profile document that the controller creates is outside the
state. -/
def googleCallback (env : Env) (tStamp tLog : Nat) (m : ReqMeta) (user : Option User)
    (s : Server) : Response × Server :=
  match user with
  | none => ({ status := 302, message := "/login?error=auth_failed" }, s)
  | some user =>
    let uid := s.freshId user
    let s1 := s.hydrated
    let tokens := generateTokens env s1.users tStamp uid "user" {}
    let saved : User :=
      { user with refreshToken := some tokens.refreshToken, lastLogin := some tStamp }
    ({ status := 302, message := "/auth/callback",
       accessToken := some tokens.accessToken, refreshToken := some tokens.refreshToken },
     { s1 with users := saveUser s1.users saved,
               activities := logActivity s1.activities tLog (some uid) "GOOGLE_LOGIN" m
                 {} (some true) })

/-- The query `User.findOne({ email })` of `forgotPassword`. -/
def findByEmail (users : List User) (email : String) : Option User :=
  users.find? (fun u => u.email == email)

/-- What one run of `forgotPassword` produces: the JSON response, the reset
token placed in the link of the mail handed to the transporter (if the run got
that far), and the state afterwards. -/
structure ForgotOutcome where
  response : Response
  mailed : Option Jwt := none
  state : Server
deriving DecidableEq, Repr

/-- The controller `forgotPassword`, given the submitted email, the clock at
the signing of the reset token (`tStamp`) and at the write to the activity log
(`tLog`), and whether `transporter.sendMail` resolved.  A refused mail is
answered by the `catch` with 500. -/
def forgotPassword (env : Env) (tStamp tLog : Nat) (mailOk : Bool) (m : ReqMeta)
    (email : String) (s : Server) : ForgotOutcome :=
  if email = "" then
    { response := { status := 400, message := "Please provide an email address" }, state := s }
  else
    match findByEmail s.users email with
    | none =>
      { response :=
          { status := 200,
            message := "If an account exists with this email, you will receive a password reset link" },
        state := s }
    | some user =>
      let uid := s.freshId user
      let s1 := s.hydrated
      if !user.isVerified then
        { response :=
            { status := 400,
              message := "Please verify your email first before resetting password" },
          state := s1 }
      else
        let resetToken := generatePasswordResetToken env tStamp email uid
        if mailOk then
          { response :=
              { status := 200,
                message := "If an account exists with this email, you will receive a password reset link" },
            mailed := some resetToken,
            state := { s1 with activities := logActivity s1.activities tLog (some uid)
                                 "PASSWORD_RESET_REQUEST" m {} (some true) } }
        else
          { response := { status := 500, message := "Error processing password reset request" },
            mailed := some resetToken, state := s1 }

/-- The controller `deregisterAccount`, given `req.userId` as
`authenticateJWT` left it, the submitted password, and the clock at the
anonymisation (`tStamp`) and at the write to the activity log (`tLog`).  An id
that does not cast makes `User.findById` throw, and a record without a stored
hash makes `bcrypt.compare` reject; the `catch` answers both with 500.  The
confirmation mail is not awaited.  The log entries use the actions
`DEREGISTER_FAILED` and `ACCOUNT_DEREGISTERED`. -/
def deregisterAccount (env : Env) (tStamp tLog : Nat) (m : ReqMeta) (userId : JsId)
    (password : String) (s : Server) : Response × Server :=
  if password = "" then
    ({ status := 400, message := "Please provide your password to confirm deregistration" }, s)
  else
    match castObjectId userId with
    | none => ({ status := 500, message := "Error deregistering account" }, s)
    | some _ =>
      match findById s.users userId with
      | none => ({ status := 401, message := "User not found" }, s)
      | some user =>
        let uid := s.freshId user
        let s1 := s.hydrated
        if user.isDeregistered then
          ({ status := 400, message := "Account is already deregistered" }, s1)
        else
          match bcryptCompare env password user.password with
          | none => ({ status := 500, message := "Error deregistering account" }, s1)
          | some false =>
            ({ status := 401, message := "Incorrect password" },
             { s1 with activities := logActivity s1.activities tLog (some uid) "DEREGISTER_FAILED" m
                         { reason := some "Incorrect password" } (some false) })
          | some true =>
            let saved : User :=
              { user with
                isDeregistered := true, refreshToken := none, loginOTP := none,
                loginOTPExpires := none, resetPasswordToken := none,
                resetPasswordExpires := none, unlockToken := none, unlockTokenExpires := none,
                email := "deregistered_" ++ toString tStamp ++ "@deleted.com",
                username := "deleted_user_" ++ toString tStamp }
            ({ status := 200,
               message := "Account deregistered successfully. All your data has been anonymized.",
               success := some true },
             { s1 with users := saveUser s1.users saved,
                       activities := logActivity s1.activities tLog (some uid)
                         "ACCOUNT_DEREGISTERED" m { reason := some "User requested" } (some true) })

/-! ## `adminAuth` (`middleware/adminAuth.js`) -/

/-- What `adminAuth` leaves on the request when it calls `next()`. -/
structure AdminRequest where
  userId : String
  isSystemAdmin : Bool
  userRole : String
deriving DecidableEq, Repr

/-- The middleware `adminAuth`, given the bearer token (`none` for a missing
one): either a response that ends the request, or what it leaves on the
request.  Whatever is thrown inside the `try` (a rejected token, an id that
does not cast in `User.findById`) is answered by the `catch` with 401.  A
token without `userId` makes the query return `null`. -/
def adminAuth (env : Env) (now : Nat) (token : Option Jwt) (users : List User) :
    Except Response AdminRequest :=
  match token with
  | none => .error { status := 401, message := "No token, authorization denied",
                     success := some false }
  | some tok =>
    match verifyAccessToken env now tok with
    | .error _ => .error { status := 401, message := "Token is not valid", success := some false }
    | .ok decoded =>
      if decoded.userId = "admin-system-user" ∧ decoded.isSystemAdmin = some true then
        .ok { userId := "admin-system-user", isSystemAdmin := true, userRole := "admin" }
      else if decoded.userId = "" then
        .error { status := 403, message := "User not found or inactive", success := some false }
      else if isObjectIdHex decoded.userId = false then
        .error { status := 401, message := "Token is not valid", success := some false }
      else
        match findById users (.str decoded.userId) with
        | none =>
          .error { status := 403, message := "User not found or inactive", success := some false }
        | some user =>
          if !user.isActive then
            .error { status := 403, message := "User not found or inactive",
                     success := some false }
          else if decoded.isSystemAdmin = some true ∨ decoded.role = some "admin" ∨
              user.role = "admin" then
            .ok { userId := decoded.userId, isSystemAdmin := decoded.isSystemAdmin == some true,
                  userRole := user.role }
          else
            .error { status := 403, message := "Access denied. Admin privileges required.",
                     success := some false }

/-! ## Sequences of requests -/

/-- The record that `register` saves: the submitted email and username, the
hash of the submitted password, `isVerified: false`, every other path at its
schema default. -/
def registered (id email username hashedPassword : String) : User :=
  { _id := id, email := email, username := username, password := hashedPassword,
    isVerified := false }

/-- One request to a handler that writes credential records, with everything
the handler observes from outside. -/
inductive CredentialOp where
  | login (io : LoginIO) (m : ReqMeta) (username password captchaToken : String)
  | verifyLoginOTP (io : OtpIO) (m : ReqMeta) (username otp : String)
  | resetPassword (io : RedeemIO) (m : ReqMeta) (token : Option Jwt) (newPassword : String)
  | unlockAccount (io : RedeemIO) (m : ReqMeta) (token : Option Jwt) (newPassword : String)
  | deregisterAccount (tStamp tLog : Nat) (m : ReqMeta) (userId : JsId) (password : String)

/-- The state after one request. -/
def CredentialOp.run (env : Env) : CredentialOp → Server → Server
  | .login io m username password captchaToken, s =>
    (AuthSystem.login env io m username password captchaToken s).2
  | .verifyLoginOTP io m username otp, s => (AuthSystem.verifyLoginOTP env io m username otp s).2
  | .resetPassword io m token newPassword, s =>
    (AuthSystem.resetPassword env io m token newPassword s).2
  | .unlockAccount io m token newPassword, s =>
    (AuthSystem.unlockAccount env io m token newPassword s).2
  | .deregisterAccount tStamp tLog m userId password, s =>
    (AuthSystem.deregisterAccount env tStamp tLog m userId password s).2

/-- The state after a sequence of requests, handled one after the other. -/
def runOps (env : Env) (ops : List CredentialOp) (s : Server) : Server :=
  ops.foldl (fun st op => op.run env st) s

/-- The OTP pair test on one record: `loginOTP` is set exactly when
`loginOTPExpires` is. -/
def otpPaired (u : User) : Bool := u.loginOTP.isSome == u.loginOTPExpires.isSome

/-! ## Concrete configuration and records used to evaluate the handlers -/

/-- A configuration with the default admin identity of `adminConfig.js`, two
different signing secrets and the default lifetimes (7 and 30 days); the
password hash of `p` is written `hash:p`, and the captcha verifier accepts
the token `valid-captcha`. -/
def sampleEnv : Env :=
  { adminEmail := "admin@yourdomain.com", adminPassword := "secureAdminPassword123!",
    adminName := "System Administrator",
    jwtSecret := "access-secret", jwtRefreshSecret := "refresh-secret",
    jwtExpire := 604800, jwtRefreshExpire := 2592000,
    bcryptMatches := fun password hash => hash == "hash:" ++ password,
    verifyRecaptcha := fun token => token == "valid-captcha" }

/-- A verified, unlocked regular account with password `wonderland`. -/
def alice : User :=
  { _id := "64b7f0c2a1d3e4f5a6b7c8d9", email := "alice@example.com", username := "alice",
    name := "Alice", password := "hash:wonderland", isVerified := true }

/-- A verified, unlocked account with role `admin` and password `toor`. -/
def root : User :=
  { _id := "64b7f0c2a1d3e4f5a6b7c8da", email := "root@example.com", username := "root",
    name := "Root", password := "hash:toor", isVerified := true, role := "admin" }

/-- The account `alice` holding the OTP `123456`, valid until `700000`. -/
def aliceWithOTP : User :=
  { alice with loginOTP := some "123456", loginOTPExpires := some 700000 }

/-- The account `alice` after a lockout at 1000: three failed attempts,
locked until 1801000. -/
def lockedAlice : User :=
  { alice with isLocked := true, lockUntil := some 1801000, failedLoginAttempts := 3,
               loginAttempts := 3 }

/-- The role-admin account `root` in the locked state. -/
def lockedRoot : User :=
  { root with isLocked := true, lockUntil := some 1801000, failedLoginAttempts := 3,
              loginAttempts := 3 }

/-- A locked account whose email has not been verified. -/
def lockedUnverified : User :=
  { lockedAlice with isVerified := false }

/-- The account `alice` holding the refresh token issued to her at 1000. -/
def aliceWithRefresh : User :=
  { alice with refreshToken := some (generateRefreshToken sampleEnv 1000 (.str alice._id)) }

/-- The unlock token minted for `alice` by the lockout at 1000. -/
def aliceUnlockToken : Jwt :=
  generateEmailVerificationToken sampleEnv 1000 alice.email (.oid 0 alice._id)

/-- The account `alice` as the lockout at 1000 leaves it: locked, with the
unlock token stored and valid for 24 hours, and with the OTP `123456` of an
earlier login still stored. -/
def lockedAliceWithToken : User :=
  { lockedAlice with
    unlockToken := some aliceUnlockToken, unlockTokenExpires := some 86401000,
    loginOTP := some "123456", loginOTPExpires := some 700000,
    refreshToken := some (generateRefreshToken sampleEnv 500 (.str alice._id)) }

/-- The password-reset token mailed to `alice` at 1000. -/
def aliceResetToken : Jwt :=
  generatePasswordResetToken sampleEnv 1000 alice.email (.oid 0 alice._id)

/-- A run of `unlockAccount` or `resetPassword` whose clock reads are all `t`,
with a delivered mail. -/
def redeemAt (t : Nat) : RedeemIO :=
  { tVerify := t, tCheck := t, tStamp := t, tLog := t, hashedPassword := "hash:looking-glass",
    mailOk := true }

/-- A run of `login` at clock value `t` with a delivered mail. -/
def loginAt (t : Nat) : LoginIO :=
  { tCheck := t, tStamp := t, tSession := t, tLog := t, rand := 23456, mailOk := true }

/-- A run of `verifyLoginOTP` whose clock reads are all `t`. -/
def otpAt (t : Nat) : OtpIO :=
  { tCheck := t, tStamp := t, tSession := t, tRecord := t, tLog1 := t, tLog2 := t }

/-- The state after `aliceWithOTP` has redeemed her OTP with every clock read
of `verifyLoginOTP` equal to 1000. -/
def afterOtp : Server :=
  (verifyLoginOTP sampleEnv (otpAt 1000) {} "alice" "123456" { users := [aliceWithOTP, root] }).2

/-- The access token returned by that verification. -/
def afterOtpAccess : Option Jwt :=
  (verifyLoginOTP sampleEnv (otpAt 1000) {} "alice" "123456" { users := [aliceWithOTP, root] }).1.accessToken

/-- The clock reads of a `verifyLoginOTP` run in which the session id is built
at 1000, the `LOGIN_SUCCESS` entry is written at 1001 and the `OTP_VERIFIED`
entry at 1020. -/
def otpTicking : OtpIO :=
  { tCheck := 1000, tStamp := 1000, tSession := 1000, tRecord := 1000, tLog1 := 1001, tLog2 := 1020 }

/-- The state after `aliceWithOTP` has redeemed her OTP under `otpTicking`. -/
def afterOtpTicking : Server :=
  (verifyLoginOTP sampleEnv otpTicking {} "alice" "123456" { users := [aliceWithOTP, root] }).2


/-- The state reached from the store `[alice, root]` when `alice` logs in
with her password at 1000 (the OTP `123456` is stored until 601000) and three
logins with a wrong password follow at 2000, 3000 and 4000. -/
def lockedAfterOtp : Server :=
  (login sampleEnv (loginAt 4000) {} "alice" "guess" "valid-captcha"
    (login sampleEnv (loginAt 3000) {} "alice" "guess" "valid-captcha"
      (login sampleEnv (loginAt 2000) {} "alice" "guess" "valid-captcha"
        (login sampleEnv (loginAt 1000) {} "alice" "wonderland" "valid-captcha"
          { users := [alice, root] }).2).2).2).2

/-- The unlock token that the lockout at 4000 stores and mails. -/
def unlockTokenAt4000 : Jwt :=
  generateEmailVerificationToken sampleEnv 4000 alice.email (.str alice._id)

/-- The state reached from the store `[aliceWithRefresh, root]` when `alice`
logs in with her password at 1000, so that the OTP `123456` is stored. -/
def otpPending : Server :=
  (login sampleEnv (loginAt 1000) {} "alice" "wonderland" "valid-captcha"
    { users := [aliceWithRefresh, root] }).2

/-- A verified account created by the Google strategy (no local
password). -/
def carol : User :=
  { _id := "64b7f0c2a1d3e4f5a6b7c8db", email := "carol@example.com",
    username := "carol_1700000000000", password := "", isVerified := true }

/-- The record that `register` saved for `bob`, whose email is not verified
yet. -/
def bob : User :=
  registered "64b7f0c2a1d3e4f5a6b7c8dc" "bob@example.com" "bob" "hash:builder"

/-- The account `root` after an administrator has changed its stored role to
`user`. -/
def demotedRoot : User := { root with role := "user" }

/-- The access token issued to `root` at 1000, while its stored role was
`admin`. -/
def rootAdminToken : Jwt :=
  generateAccessToken sampleEnv [alice, root] 1000 (.str root._id) "user" {}

/-! ## Token type safety -/

theorem verifyTyped_wrong_type (secret expected message : String) (now : Nat) (token : Jwt)
    (h : token.payload.type ≠ expected) :
    verifyTyped secret expected message now token = .error message := by
  unfold verifyTyped jwtVerify
  split_ifs <;> simp_all

theorem generateAccessToken_type (env : Env) (users : List User) (now : Nat) (userId : JsId)
    (role : String) (ad : AdditionalData) :
    (generateAccessToken env users now userId role ad).payload.type = "access" := by
  unfold generateAccessToken jwtSign
  simp only
  split_ifs <;> (try rfl) <;> (split <;> split <;> rfl)

/-- C2. A token produced by the issuer of one type is rejected by the
verifier of every other type: each of the twelve cross pairs of access,
refresh, email-verification and password-reset tokens yields the verifier's
error and no claims, whatever the secrets, the clock values, the store and
the issuer's arguments. -/
theorem cross_type_token_rejected (env : Env) (users : List User) (tIssue tVerify : Nat)
    (userId : JsId) (role email : String) (ad : AdditionalData) :
    (verifyRefreshToken env tVerify (generateAccessToken env users tIssue userId role ad)
        = .error "Invalid or expired refresh token" ∧
     verifyEmailVerificationToken env tVerify (generateAccessToken env users tIssue userId role ad)
        = .error "Invalid or expired verification token" ∧
     verifyPasswordResetToken env tVerify (generateAccessToken env users tIssue userId role ad)
        = .error "Invalid or expired reset token") ∧
    (verifyAccessToken env tVerify (generateRefreshToken env tIssue userId)
        = .error "Invalid or expired token" ∧
     verifyEmailVerificationToken env tVerify (generateRefreshToken env tIssue userId)
        = .error "Invalid or expired verification token" ∧
     verifyPasswordResetToken env tVerify (generateRefreshToken env tIssue userId)
        = .error "Invalid or expired reset token") ∧
    (verifyAccessToken env tVerify (generateEmailVerificationToken env tIssue email userId)
        = .error "Invalid or expired token" ∧
     verifyRefreshToken env tVerify (generateEmailVerificationToken env tIssue email userId)
        = .error "Invalid or expired refresh token" ∧
     verifyPasswordResetToken env tVerify (generateEmailVerificationToken env tIssue email userId)
        = .error "Invalid or expired reset token") ∧
    (verifyAccessToken env tVerify (generatePasswordResetToken env tIssue email userId)
        = .error "Invalid or expired token" ∧
     verifyRefreshToken env tVerify (generatePasswordResetToken env tIssue email userId)
        = .error "Invalid or expired refresh token" ∧
     verifyEmailVerificationToken env tVerify (generatePasswordResetToken env tIssue email userId)
        = .error "Invalid or expired verification token") := by
  have ha := generateAccessToken_type env users tIssue userId role ad
  refine ⟨⟨?_, ?_, ?_⟩, ⟨?_, ?_, ?_⟩, ⟨?_, ?_, ?_⟩, ⟨?_, ?_, ?_⟩⟩ <;>
    first
    | (apply verifyTyped_wrong_type; rw [ha]; decide)
    | (apply verifyTyped_wrong_type; simp [generateRefreshToken, generateEmailVerificationToken,
        generatePasswordResetToken, jwtSign])


/-! ## OTP verification -/

/-- C5. For a request that carries a username and an OTP, `verifyLoginOTP`
issues tokens exactly when a stored, not deregistered user has that
username, the submitted OTP equals the stored `loginOTP`, and
`loginOTPExpires` has not passed at the expiry test.  A mismatch is answered
with `Invalid OTP` and a match after expiry with `OTP has expired`; whenever
the three conditions do not all hold, the response carries no token and
neither the session tracker nor the credential store changes.  The tokens
issued are the access token that `generateAccessToken` signs at `tStamp` for
the user's id and the refresh token that `generateRefreshToken` signs for
it. -/
theorem verifyLoginOTP_tokens_iff (env : Env) (io : OtpIO) (m : ReqMeta) (username otp : String)
    (s : Server) (hu : username ≠ "") (ho : otp ≠ "") :
    ((∃ user, findByUsername s.users username = some user ∧ user.loginOTP = some otp ∧
          otpExpired user.loginOTPExpires io.tCheck = false) →
        (verifyLoginOTP env io m username otp s).1.status = 200 ∧
        (verifyLoginOTP env io m username otp s).1.accessToken.isSome = true ∧
        (verifyLoginOTP env io m username otp s).1.refreshToken.isSome = true) ∧
    (∀ user, findByUsername s.users username = some user → user.loginOTP = some otp →
        otpExpired user.loginOTPExpires io.tCheck = false →
        (verifyLoginOTP env io m username otp s).1.accessToken
          = some (generateAccessToken env s.users io.tStamp (s.freshId user)
              (jsOr user.role "user") { email := some user.email, isSystemAdmin := some false }) ∧
        (verifyLoginOTP env io m username otp s).1.refreshToken
          = some { payload := { userId := user._id, type := "refresh" },
                   key := env.jwtRefreshSecret, iat := io.tStamp / 1000,
                   exp := io.tStamp / 1000 + env.jwtRefreshExpire } ∧
        ∃ access : Jwt, (verifyLoginOTP env io m username otp s).1.accessToken = some access ∧
          access.payload.userId = user._id ∧ access.payload.type = "access" ∧
          access.key = env.jwtSecret ∧ access.iat = io.tStamp / 1000 ∧
          access.exp = io.tStamp / 1000 + env.jwtExpire) ∧
    ((¬ ∃ user, findByUsername s.users username = some user ∧ user.loginOTP = some otp ∧
          otpExpired user.loginOTPExpires io.tCheck = false) →
        (verifyLoginOTP env io m username otp s).1.accessToken = none ∧
        (verifyLoginOTP env io m username otp s).1.refreshToken = none ∧
        (verifyLoginOTP env io m username otp s).2.sessions = s.sessions ∧
        (verifyLoginOTP env io m username otp s).2.users = s.users) ∧
    (∀ user, findByUsername s.users username = some user → user.loginOTP ≠ some otp →
        (verifyLoginOTP env io m username otp s).1.status = 401 ∧
        (verifyLoginOTP env io m username otp s).1.message = "Invalid OTP") ∧
    (∀ user, findByUsername s.users username = some user → user.loginOTP = some otp →
        otpExpired user.loginOTPExpires io.tCheck = true →
        (verifyLoginOTP env io m username otp s).1.status = 401 ∧
        (verifyLoginOTP env io m username otp s).1.message = "OTP has expired. Please login again") := by
  refine ⟨?_, ?_, ?_, ?_, ?_⟩
  · rintro ⟨user, hf, hotp, hexp⟩
    simp [verifyLoginOTP, hu, ho, hf, hotp, hexp]
  · intro user hf hotp hexp
    have hacc : (verifyLoginOTP env io m username otp s).1.accessToken
        = some (generateAccessToken env s.users io.tStamp (s.freshId user)
            (jsOr user.role "user") { email := some user.email, isSystemAdmin := some false }) := by
      simp [verifyLoginOTP, hu, ho, hf, hotp, hexp, generateTokens, Server.hydrated]
    refine ⟨hacc, ?_, _, hacc, ?_⟩
    · simp [verifyLoginOTP, hu, ho, hf, hotp, hexp, generateTokens, generateRefreshToken, jwtSign,
        Server.freshId, JsId.toStr]
    · unfold generateAccessToken jwtSign
      simp only [Server.freshId, JsId.strictEq, JsId.toStr, Bool.false_eq_true, if_false]
      refine ⟨?_, ?_, ?_, ?_, ?_⟩
      all_goals first
        | trivial
        | rfl
        | (repeat' split
           all_goals rfl)
  · intro hno
    cases hf : findByUsername s.users username with
    | none => simp [verifyLoginOTP, hu, ho, hf]
    | some user =>
      by_cases hotp : user.loginOTP = some otp
      · have hexp : otpExpired user.loginOTPExpires io.tCheck = true := by
          by_contra hne
          exact hno ⟨user, hf, hotp, by simpa using hne⟩
        simp [verifyLoginOTP, hu, ho, hf, hotp, hexp, Server.hydrated]
      · simp [verifyLoginOTP, hu, ho, hf, hotp, Server.hydrated]
  · intro user hf hotp
    simp [verifyLoginOTP, hu, ho, hf, hotp]
  · intro user hf hotp hexp
    simp [verifyLoginOTP, hu, ho, hf, hotp, hexp]


/-- The witness of C5: the account `aliceWithOTP` redeems its OTP. -/
theorem verifyLoginOTP_tokens_iff_witness :
    ("alice" ≠ "" ∧ "123456" ≠ "") ∧
    (verifyLoginOTP sampleEnv (otpAt 1000) {} "alice" "123456" { users := [aliceWithOTP, root] }).1.status = 200 ∧
    (verifyLoginOTP sampleEnv (otpAt 1000) {} "alice" "123456" { users := [aliceWithOTP, root] }).1.accessToken.isSome = true ∧
    (verifyLoginOTP sampleEnv (otpAt 1000) {} "alice" "123456" { users := [aliceWithOTP, root] }).1.refreshToken.isSome = true :=
  ⟨⟨by decide, by decide⟩,
   (verifyLoginOTP_tokens_iff sampleEnv (otpAt 1000) {} "alice" "123456"
      { users := [aliceWithOTP, root] } (by decide) (by decide)).1
      ⟨aliceWithOTP, by decide, by decide, by decide⟩⟩

theorem find?_saveUser_some (p : User → Bool) (saved user : User) (hid : saved._id = user._id)
    (hp : p saved = true) :
    ∀ l : List User, l.find? p = some user → (saveUser l saved).find? p = some saved := by
  intro l
  induction l with
  | nil => intro h; simp at h
  | cons v rest ih =>
    intro h
    unfold saveUser
    rw [List.map_cons]
    by_cases hv : (v._id == saved._id) = true
    · simp [hv, hp]
    · simp only [hv]
      by_cases hpv : p v = true
      · rw [List.find?_cons_of_pos _ hpv] at h
        injection h with h
        subst h
        simp [hid] at hv
      · rw [List.find?_cons_of_neg _ hpv] at h
        simp only [Bool.false_eq_true, if_false]
        rw [List.find?_cons_of_neg _ hpv]
        exact ih h

theorem find?_saveUser_none (p : User → Bool) (saved : User) (hp : p saved = false) :
    ∀ l : List User, l.find? p = none → (saveUser l saved).find? p = none := by
  intro l h
  rw [List.find?_eq_none] at h ⊢
  intro x hx
  unfold saveUser at hx
  rw [List.mem_map] at hx
  obtain ⟨v, hv, rfl⟩ := hx
  split_ifs
  · simp [hp]
  · exact h v hv

/-- C6. OTP redemption is exactly-once: for an account that holds an
unexpired OTP, a first `verifyLoginOTP` with that OTP succeeds with both
tokens, and a second `verifyLoginOTP` with the same OTP on the resulting
state, at any later clock values and with no login in between, fails with
`Invalid OTP` and carries no token. -/
theorem otp_redeemed_exactly_once (env : Env) (io1 io2 : OtpIO) (m1 m2 : ReqMeta)
    (username otp : String) (s : Server) (user : User)
    (hu : username ≠ "") (ho : otp ≠ "")
    (hf : findByUsername s.users username = some user)
    (hotp : user.loginOTP = some otp)
    (hexp : otpExpired user.loginOTPExpires io1.tCheck = false) :
    (verifyLoginOTP env io1 m1 username otp s).1.status = 200 ∧
    (verifyLoginOTP env io1 m1 username otp s).1.accessToken.isSome = true ∧
    (verifyLoginOTP env io1 m1 username otp s).1.refreshToken.isSome = true ∧
    (verifyLoginOTP env io2 m2 username otp (verifyLoginOTP env io1 m1 username otp s).2).1.status = 401 ∧
    (verifyLoginOTP env io2 m2 username otp (verifyLoginOTP env io1 m1 username otp s).2).1.message
        = "Invalid OTP" ∧
    (verifyLoginOTP env io2 m2 username otp (verifyLoginOTP env io1 m1 username otp s).2).1.accessToken
        = none ∧
    (verifyLoginOTP env io2 m2 username otp (verifyLoginOTP env io1 m1 username otp s).2).1.refreshToken
        = none := by
  have hp : username = user.username ∧ user.isDeregistered = false := by
    have h := List.find?_some hf
    simp only [Bool.and_eq_true, beq_iff_eq, Bool.not_eq_true'] at h
    exact ⟨h.1.symm, h.2⟩
  obtain ⟨hname, hdereg⟩ := hp
  have h1 : ∃ saved : User, saved.loginOTP = none ∧
      findByUsername (verifyLoginOTP env io1 m1 username otp s).2.users username = some saved := by
    have h0 : ∃ saved : User, (verifyLoginOTP env io1 m1 username otp s).2.users = saveUser s.users saved ∧
        saved.loginOTP = none ∧ saved._id = user._id ∧ saved.username = user.username ∧
        saved.isDeregistered = user.isDeregistered := by
      simp only [verifyLoginOTP, hu, ho, hf, hotp, hexp, or_self, if_false, ne_eq,
        not_true_eq_false, Bool.false_eq_true, Server.hydrated]
      exact ⟨_, rfl, rfl, rfl, rfl, rfl⟩
    obtain ⟨saved, hs, hn, hid, hun, hd⟩ := h0
    refine ⟨saved, hn, ?_⟩
    rw [hs]
    exact find?_saveUser_some _ saved user hid (by simp [hname, hdereg, hun, hd]) _ hf
  obtain ⟨saved, hnone, hf2⟩ := h1
  refine ⟨?_, ?_, ?_, ?_, ?_, ?_, ?_⟩
  · simp [verifyLoginOTP, hu, ho, hf, hotp, hexp]
  · simp [verifyLoginOTP, hu, ho, hf, hotp, hexp]
  · simp [verifyLoginOTP, hu, ho, hf, hotp, hexp]
  all_goals
    generalize (verifyLoginOTP env io1 m1 username otp s).2 = s2 at hf2
    simp [verifyLoginOTP, hu, ho, hf2, hnone]


/-- The witness of C6: `aliceWithOTP` redeems `123456` at 1000 and is refused
at 2000. -/
theorem otp_redeemed_exactly_once_witness :
    findByUsername [aliceWithOTP, root] "alice" = some aliceWithOTP ∧
    (verifyLoginOTP sampleEnv (otpAt 1000) {} "alice" "123456" { users := [aliceWithOTP, root] }).1.status = 200 ∧
    (verifyLoginOTP sampleEnv (otpAt 2000) {} "alice" "123456"
      (verifyLoginOTP sampleEnv (otpAt 1000) {} "alice" "123456" { users := [aliceWithOTP, root] }).2).1.message
        = "Invalid OTP" :=
  have h := otp_redeemed_exactly_once sampleEnv (otpAt 1000) (otpAt 2000) {} {} "alice" "123456"
    { users := [aliceWithOTP, root] } aliceWithOTP (by decide) (by decide) (by decide) (by decide)
    (by decide)
  ⟨by decide, h.1, h.2.2.2.2.1⟩

theorem otpExpired_mono (expires : Option Nat) (t1 t2 : Nat) (h : t1 ≤ t2)
    (he : otpExpired expires t1 = true) : otpExpired expires t2 = true := by
  unfold otpExpired at *
  cases expires with
  | none => simp at he ⊢; omega
  | some e => simp at he ⊢; omega

/-- C7, counterexample. After `verifyLoginOTP` has failed with `Invalid OTP`
(wrong code `000000` at 1000), the OTP issued by the login is still
redeemable: `verifyLoginOTP` with the stored OTP `123456` at 2000 answers 200
with both tokens, with no new login in between. -/
theorem failed_otp_terminal_counterexample :
    (verifyLoginOTP sampleEnv (otpAt 1000) {} "alice" "000000" { users := [aliceWithOTP, root] }).1.message
        = "Invalid OTP" ∧
    (verifyLoginOTP sampleEnv (otpAt 2000) {} "alice" "123456"
      (verifyLoginOTP sampleEnv (otpAt 1000) {} "alice" "000000" { users := [aliceWithOTP, root] }).2).1.status
        = 200 ∧
    (verifyLoginOTP sampleEnv (otpAt 2000) {} "alice" "123456"
      (verifyLoginOTP sampleEnv (otpAt 1000) {} "alice" "000000" { users := [aliceWithOTP, root] }).2).1.accessToken.isSome
        = true ∧
    (verifyLoginOTP sampleEnv (otpAt 2000) {} "alice" "123456"
      (verifyLoginOTP sampleEnv (otpAt 1000) {} "alice" "000000" { users := [aliceWithOTP, root] }).2).1.refreshToken.isSome
        = true := by
  decide

/-- C7, amended. A failed `verifyLoginOTP` does not consume the OTP: it
leaves the credential store unchanged.  After a failure with `OTP has
expired`, a later `verifyLoginOTP` with the stored OTP (expiry test at a clock
value not earlier) fails with `OTP has expired` again and carries no token;
after a failure with `Invalid OTP`, a later `verifyLoginOTP` with the stored
OTP whose expiry test precedes `loginOTPExpires` succeeds with both tokens. -/
theorem failed_otp_leaves_record (env : Env) (io1 io2 : OtpIO) (m1 m2 : ReqMeta)
    (username otp stored : String) (s : Server) (user : User)
    (hu : username ≠ "") (ho : otp ≠ "") (hs : stored ≠ "")
    (hf : findByUsername s.users username = some user)
    (hstored : user.loginOTP = some stored) :
    ((otp ≠ stored ∨ otpExpired user.loginOTPExpires io1.tCheck = true) →
        (verifyLoginOTP env io1 m1 username otp s).2.users = s.users) ∧
    (otp = stored → otpExpired user.loginOTPExpires io1.tCheck = true → io1.tCheck ≤ io2.tCheck →
        (verifyLoginOTP env io1 m1 username otp s).1.message = "OTP has expired. Please login again" ∧
        (verifyLoginOTP env io2 m2 username stored (verifyLoginOTP env io1 m1 username otp s).2).1.status
          = 401 ∧
        (verifyLoginOTP env io2 m2 username stored (verifyLoginOTP env io1 m1 username otp s).2).1.message
          = "OTP has expired. Please login again" ∧
        (verifyLoginOTP env io2 m2 username stored (verifyLoginOTP env io1 m1 username otp s).2).1.accessToken
          = none ∧
        (verifyLoginOTP env io2 m2 username stored (verifyLoginOTP env io1 m1 username otp s).2).1.refreshToken
          = none) ∧
    (otp ≠ stored → otpExpired user.loginOTPExpires io2.tCheck = false →
        (verifyLoginOTP env io1 m1 username otp s).1.message = "Invalid OTP" ∧
        (verifyLoginOTP env io2 m2 username stored (verifyLoginOTP env io1 m1 username otp s).2).1.status
          = 200 ∧
        (verifyLoginOTP env io2 m2 username stored (verifyLoginOTP env io1 m1 username otp s).2).1.accessToken.isSome
          = true ∧
        (verifyLoginOTP env io2 m2 username stored (verifyLoginOTP env io1 m1 username otp s).2).1.refreshToken.isSome
          = true) := by
  have hkeep : (otp ≠ stored ∨ otpExpired user.loginOTPExpires io1.tCheck = true) →
      (verifyLoginOTP env io1 m1 username otp s).2.users = s.users := by
    intro h
    by_cases hne : otp = stored
    · have hexp : otpExpired user.loginOTPExpires io1.tCheck = true := by
        rcases h with h | h
        · exact absurd hne h
        · exact h
      simp [verifyLoginOTP, hu, ho, hf, hstored, hne, hs, hexp, Server.hydrated]
    · have hne2 : ¬ stored = otp := fun h => hne h.symm
      simp [verifyLoginOTP, hu, ho, hf, hstored, hne2, Server.hydrated]
  refine ⟨hkeep, ?_, ?_⟩
  · intro heq hexp hle
    have hus := hkeep (Or.inr hexp)
    have hexp2 := otpExpired_mono _ _ _ hle hexp
    have hf2 : findByUsername (verifyLoginOTP env io1 m1 username otp s).2.users username = some user := by
      rw [hus]; exact hf
    refine ⟨?_, ?_⟩
    · simp [verifyLoginOTP, hu, ho, hf, hstored, heq, hs, hexp]
    · generalize (verifyLoginOTP env io1 m1 username otp s).2 = s2 at hf2
      simp [verifyLoginOTP, hu, hs, hf2, hstored, hexp2]
  · intro hne hexp
    have hus := hkeep (Or.inl hne)
    have hne2 : ¬ stored = otp := fun h => hne h.symm
    have hf2 : findByUsername (verifyLoginOTP env io1 m1 username otp s).2.users username = some user := by
      rw [hus]; exact hf
    refine ⟨?_, ?_⟩
    · simp [verifyLoginOTP, hu, ho, hf, hstored, hne2]
    · generalize (verifyLoginOTP env io1 m1 username otp s).2 = s2 at hf2
      simp [verifyLoginOTP, hu, hs, hf2, hstored, hexp]

/-- The witness of C7 (amended): after the wrong code `000000`, the stored
OTP of `aliceWithOTP` is still redeemed at 2000. -/
theorem failed_otp_leaves_record_witness :
    findByUsername [aliceWithOTP, root] "alice" = some aliceWithOTP ∧
    (verifyLoginOTP sampleEnv (otpAt 1000) {} "alice" "000000" { users := [aliceWithOTP, root] }).2.users
      = [aliceWithOTP, root] ∧
    (verifyLoginOTP sampleEnv (otpAt 1000) {} "alice" "000000" { users := [aliceWithOTP, root] }).1.message
      = "Invalid OTP" :=
  have h := failed_otp_leaves_record sampleEnv (otpAt 1000) (otpAt 2000) {} {} "alice" "000000" "123456"
    { users := [aliceWithOTP, root] } aliceWithOTP (by decide) (by decide) (by decide) (by decide)
    (by decide)
  ⟨by decide, h.1 (Or.inl (by decide)), (h.2.2 (by decide) (by decide)).1⟩


/-! ## The login state machine -/

theorem login_regular (env : Env) (io : LoginIO) (m : ReqMeta) (username password captchaToken : String)
    (s : Server) (user : User)
    (hu : username ≠ "") (hp : password ≠ "") (hsys : username ≠ env.adminEmail)
    (hc : passesChallenge env captchaToken = true)
    (hadm : findAdminByEmail s.users username = none)
    (hf : findByUsername s.users username = some user) :
    login env io m username password captchaToken s = loginRegular env io m password s user := by
  unfold passesChallenge at hc
  simp only [Bool.or_eq_true, beq_iff_eq, Bool.and_eq_true, bne_iff_ne, ne_eq] at hc
  unfold login
  rcases hc with hc | ⟨hc1, hc2⟩
  · simp [hu, hp, hsys, hc, hadm, hf]
  · simp [hu, hp, hsys, hc1, hc2, hadm, hf]

theorem login_adminUser (env : Env) (io : LoginIO) (m : ReqMeta) (username password captchaToken : String)
    (s : Server) (adminUser : User)
    (hu : username ≠ "") (hp : password ≠ "") (hsys : username ≠ env.adminEmail)
    (hc : passesChallenge env captchaToken = true)
    (hadm : findAdminByEmail s.users username = some adminUser) :
    login env io m username password captchaToken s = loginAdminUser env io m password s adminUser := by
  unfold passesChallenge at hc
  simp only [Bool.or_eq_true, beq_iff_eq, Bool.and_eq_true, bne_iff_ne, ne_eq] at hc
  unfold login
  rcases hc with hc | ⟨hc1, hc2⟩
  · simp [hu, hp, hsys, hc, hadm]
  · simp [hu, hp, hsys, hc1, hc2, hadm]

theorem loginRegular_no_tokens (env : Env) (io : LoginIO) (m : ReqMeta) (password : String)
    (s : Server) (user : User) :
    (loginRegular env io m password s user).1.accessToken = none ∧
    (loginRegular env io m password s user).1.refreshToken = none := by
  unfold loginRegular
  simp only
  repeat' split
  all_goals exact ⟨rfl, rfl⟩

/-- C1, counterexample. The stored account `root` (role `admin`, not the
system-admin identity) logs in with its email, its correct password and a
passing captcha: the response is 200 with an access token and a refresh
token, and does not ask for an OTP. -/
theorem login_requires_otp_counterexample :
    "root@example.com" ≠ sampleEnv.adminEmail ∧
    bcryptCompare sampleEnv "toor" root.password = some true ∧
    passesChallenge sampleEnv "valid-captcha" = true ∧
    (login sampleEnv (loginAt 1000) {} "root@example.com" "toor" "valid-captcha"
      { users := [alice, root] }).1.status = 200 ∧
    (login sampleEnv (loginAt 1000) {} "root@example.com" "toor" "valid-captcha"
      { users := [alice, root] }).1.requiresOTP = false ∧
    (login sampleEnv (loginAt 1000) {} "root@example.com" "toor" "valid-captcha"
      { users := [alice, root] }).1.accessToken.isSome = true ∧
    (login sampleEnv (loginAt 1000) {} "root@example.com" "toor" "valid-captcha"
      { users := [alice, root] }).1.refreshToken.isSome = true := by
  decide

/-- C1, amended. A login that carries the correct password and a passing
challenge for a stored account that is verified, unlocked and not
deregistered, and whose username is not the email of a stored role-admin
account, answers `requiresOTP` with no access or refresh token once the OTP
mail has been handed over.  For every login request whatsoever, a response
that carries a token comes from the system-admin branch or from the
role-admin branch; the regular branch never returns one. -/
theorem login_requires_otp (env : Env) (io : LoginIO) (m : ReqMeta)
    (username password captchaToken : String) (s : Server) :
    (∀ user, username ≠ "" → password ≠ "" → username ≠ env.adminEmail →
        passesChallenge env captchaToken = true →
        findAdminByEmail s.users username = none →
        findByUsername s.users username = some user →
        user.isVerified = true → lockedAt user io.tCheck = false →
        bcryptCompare env password user.password = some true → io.mailOk = true →
        (login env io m username password captchaToken s).1.status = 200 ∧
        (login env io m username password captchaToken s).1.requiresOTP = true ∧
        (login env io m username password captchaToken s).1.accessToken = none ∧
        (login env io m username password captchaToken s).1.refreshToken = none) ∧
    (((login env io m username password captchaToken s).1.accessToken.isSome = true ∨
      (login env io m username password captchaToken s).1.refreshToken.isSome = true) →
        username = env.adminEmail ∨ (findAdminByEmail s.users username).isSome = true) := by
  constructor
  · intro user hu hp hsys hc hadm hf hver hlock hpw hmail
    rw [login_regular env io m username password captchaToken s user hu hp hsys hc hadm hf]
    simp [loginRegular, hver, hlock, hpw, hmail]
  · intro h
    by_contra hcon
    push_neg at hcon
    obtain ⟨hsys, hadm⟩ := hcon
    have hadm2 : findAdminByEmail s.users username = none := by
      cases hq : findAdminByEmail s.users username with
      | none => rfl
      | some a => simp [hq] at hadm
    have hnone : (login env io m username password captchaToken s).1.accessToken = none ∧
        (login env io m username password captchaToken s).1.refreshToken = none := by
      unfold login
      split_ifs
      · exact ⟨rfl, rfl⟩
      · exact ⟨rfl, rfl⟩
      · exact ⟨rfl, rfl⟩
      · rw [hadm2]
        cases hq : findByUsername s.users username with
        | none => exact ⟨rfl, rfl⟩
        | some user => exact loginRegular_no_tokens env io m password _ user
    rcases h with h | h
    · rw [hnone.1] at h; simp at h
    · rw [hnone.2] at h; simp at h

/-- The witness of C1 (amended): `alice` logs in with her password and a
passing captcha and is asked for an OTP. -/
theorem login_requires_otp_witness :
    findByUsername [alice, root] "alice" = some alice ∧
    bcryptCompare sampleEnv "wonderland" alice.password = some true ∧
    (login sampleEnv (loginAt 1000) {} "alice" "wonderland" "valid-captcha"
      { users := [alice, root] }).1.requiresOTP = true ∧
    (login sampleEnv (loginAt 1000) {} "alice" "wonderland" "valid-captcha"
      { users := [alice, root] }).1.accessToken = none :=
  have h := (login_requires_otp sampleEnv (loginAt 1000) {} "alice" "wonderland" "valid-captcha"
    { users := [alice, root] }).1 alice (by decide) (by decide) (by decide) (by decide) (by decide)
    (by decide) (by decide) (by decide) (by decide) (by decide)
  ⟨by decide, by decide, h.2.1, h.2.2.1⟩


/-! ## Failed attempts and lockout -/

theorem findByUsername_some {users : List User} {username : String} {user : User}
    (hf : findByUsername users username = some user) :
    user.username = username ∧ user.isDeregistered = false := by
  have h := List.find?_some hf
  simpa using h

theorem findAdminByEmail_none_of_mem {users : List User} {username : String} {user : User}
    (hadm : findAdminByEmail users username = none) (hmem : user ∈ users) :
    (user.email == username && user.role == "admin" && !user.isDeregistered) = false := by
  unfold findAdminByEmail at hadm
  rw [List.find?_eq_none] at hadm
  simpa using hadm user hmem

/-- One wrong-password login through the regular branch: the record found
afterwards has one more failed attempt; below the threshold its lock fields
are untouched, and at the threshold (with the unlock mail handed over) it is
locked until 30 minutes after the write. -/
theorem login_wrong_password_step (env : Env) (io : LoginIO) (m : ReqMeta)
    (username password captchaToken : String) (s : Server) (user : User)
    (hu : username ≠ "") (hp : password ≠ "") (hsys : username ≠ env.adminEmail)
    (hc : passesChallenge env captchaToken = true)
    (hadm : findAdminByEmail s.users username = none)
    (hf : findByUsername s.users username = some user)
    (hver : user.isVerified = true) (hlock : lockedAt user io.tCheck = false)
    (hpw : bcryptCompare env password user.password = some false)
    (hmail : user.failedLoginAttempts + 1 < 3 ∨ io.mailOk = true) :
    ∃ next : User,
      findByUsername (login env io m username password captchaToken s).2.users username = some next ∧
      findAdminByEmail (login env io m username password captchaToken s).2.users username = none ∧
      next._id = user._id ∧ next.isVerified = true ∧ next.password = user.password ∧
      next.failedLoginAttempts = user.failedLoginAttempts + 1 ∧
      (user.failedLoginAttempts + 1 < 3 →
        next.isLocked = user.isLocked ∧ next.lockUntil = user.lockUntil) ∧
      (3 ≤ user.failedLoginAttempts + 1 →
        next.isLocked = true ∧ next.lockUntil = some (io.tStamp + 30 * 60 * 1000)) := by
  obtain ⟨hname, hdereg⟩ := findByUsername_some hf
  have hmem : user ∈ s.users := List.mem_of_find?_eq_some hf
  have hq := findAdminByEmail_none_of_mem hadm hmem
  rw [login_regular env io m username password captchaToken s user hu hp hsys hc hadm hf]
  have key : ∀ X : User, X._id = user._id → X.username = user.username →
      X.isDeregistered = user.isDeregistered → X.email = user.email → X.role = user.role →
      findByUsername (saveUser s.users X) username = some X ∧
      findAdminByEmail (saveUser s.users X) username = none := by
    intro X h1 h2 h3 h4 h5
    exact ⟨find?_saveUser_some _ X user h1 (by simp [h2, h3, hname, hdereg]) _ hf,
      find?_saveUser_none _ X (by rw [h3, h4, h5]; exact hq) _ hadm⟩
  by_cases hthr : 3 ≤ user.failedLoginAttempts + 1
  · have hm : io.mailOk = true := by
      rcases hmail with h | h
      · omega
      · exact h
    have hus : (loginRegular env io m password s user).2.users = saveUser s.users
        { user with loginAttempts := user.loginAttempts + 1,
                    failedLoginAttempts := user.failedLoginAttempts + 1,
                    isLocked := true, lockUntil := some (io.tStamp + 30 * 60 * 1000),
                    unlockToken := some (generateEmailVerificationToken env io.tStamp user.email
                      (s.freshId user)),
                    unlockTokenExpires := some (io.tStamp + 24 * 60 * 60 * 1000) } := by
      simp [loginRegular, hver, hlock, hpw, hthr, hm, Server.hydrated]
    rw [hus]
    have hk := key ({ user with
                    loginAttempts := user.loginAttempts + 1,
                    failedLoginAttempts := user.failedLoginAttempts + 1,
                    isLocked := true, lockUntil := some (io.tStamp + 30 * 60 * 1000),
                    unlockToken := some (generateEmailVerificationToken env io.tStamp user.email
                      (s.freshId user)),
                    unlockTokenExpires := some (io.tStamp + 24 * 60 * 60 * 1000) } : User)
      rfl rfl rfl rfl rfl
    refine ⟨_, hk.1, hk.2, rfl, hver, rfl, rfl, ?_, ?_⟩
    · intro h; omega
    · intro _; exact ⟨rfl, rfl⟩
  · have hus : (loginRegular env io m password s user).2.users = saveUser s.users
        { user with loginAttempts := user.loginAttempts + 1,
                    failedLoginAttempts := user.failedLoginAttempts + 1 } := by
      simp [loginRegular, hver, hlock, hpw, hthr, Server.hydrated]
    rw [hus]
    have hk := key ({ user with
                    loginAttempts := user.loginAttempts + 1,
                    failedLoginAttempts := user.failedLoginAttempts + 1 } : User) rfl rfl rfl rfl rfl
    refine ⟨_, hk.1, hk.2, rfl, hver, rfl, rfl, ?_, ?_⟩
    · intro _; exact ⟨rfl, rfl⟩
    · intro h; exact absurd h hthr


theorem lockedAt_congr (a b : User) (t : Nat) (h1 : a.isLocked = b.isLocked)
    (h2 : a.lockUntil = b.lockUntil) : lockedAt a t = lockedAt b t := by
  unfold lockedAt
  rw [h1, h2]

/-- C3, counterexample. The stored account `root` (role `admin`, verified,
unlocked, no failed attempt) receives three consecutive logins with a wrong
password, each with a passing captcha, under its email: every one is
answered 401, and the credential store is unchanged, so the account is still
unlocked with `failedLoginAttempts = 0` and no `lockUntil`.  Likewise three
consecutive logins with a wrong password for `alice` that carry no captcha
token stop at the captcha gate (400) and leave her record as it was. -/
theorem three_wrong_passwords_counterexample :
    (bcryptCompare sampleEnv "guess" root.password = some false ∧
     (login sampleEnv (loginAt 3000) {} "root@example.com" "guess" "valid-captcha"
       (login sampleEnv (loginAt 2000) {} "root@example.com" "guess" "valid-captcha"
         (login sampleEnv (loginAt 1000) {} "root@example.com" "guess" "valid-captcha"
           { users := [alice, root] }).2).2).1.status = 401 ∧
     (login sampleEnv (loginAt 3000) {} "root@example.com" "guess" "valid-captcha"
       (login sampleEnv (loginAt 2000) {} "root@example.com" "guess" "valid-captcha"
         (login sampleEnv (loginAt 1000) {} "root@example.com" "guess" "valid-captcha"
           { users := [alice, root] }).2).2).2.users = [alice, root] ∧
     root.isVerified = true ∧ root.isLocked = false ∧ root.lockUntil = none ∧
     root.failedLoginAttempts = 0) ∧
    (bcryptCompare sampleEnv "guess" alice.password = some false ∧
     (login sampleEnv (loginAt 3000) {} "alice" "guess" ""
       (login sampleEnv (loginAt 2000) {} "alice" "guess" ""
         (login sampleEnv (loginAt 1000) {} "alice" "guess" ""
           { users := [alice, root] }).2).2).1.status = 400 ∧
     (login sampleEnv (loginAt 3000) {} "alice" "guess" ""
       (login sampleEnv (loginAt 2000) {} "alice" "guess" ""
         (login sampleEnv (loginAt 1000) {} "alice" "guess" ""
           { users := [alice, root] }).2).2).2.users = [alice, root] ∧
     alice.isVerified = true ∧ alice.isLocked = false ∧ alice.lockUntil = none ∧
     alice.failedLoginAttempts = 0) := by
  decide

/-- A record without a stored hash (an account created by the Google
strategy) makes `bcrypt.compare` reject: the regular branch answers 500 from
its `catch` and the role-admin branch answers 500 from its own; neither writes
the record. -/
theorem login_without_hash :
    bcryptCompare sampleEnv "guess" carol.password = none ∧
    (login sampleEnv (loginAt 1000) {} "carol_1700000000000" "guess" "valid-captcha"
      { users := [alice, root, carol] }).1
      = { status := 500,
          message := "Something went wrongError: data and hash arguments required" } ∧
    (login sampleEnv (loginAt 1000) {} "carol_1700000000000" "guess" "valid-captcha"
      { users := [alice, root, carol] }).2.users = [alice, root, carol] ∧
    (login sampleEnv (loginAt 1000) {} "carol@example.com" "guess" "valid-captcha"
      { users := [alice, root, { carol with role := "admin" }] }).1
      = { status := 500, message := "Admin login error: data and hash arguments required" } ∧
    (login sampleEnv (loginAt 1000) {} "carol@example.com" "guess" "valid-captcha"
      { users := [alice, root, { carol with role := "admin" }] }).2.users
      = [alice, root, { carol with role := "admin" }] := by
  decide

/-- C3, amended. Starting from a verified account with
`failedLoginAttempts = 0` that the lock test does not hold back, three
consecutive logins that pass the challenge and are handled by the regular
branch (the username is neither the system-admin email nor the email of a
stored role-admin account), each with a password that `bcrypt.compare` finds
not to match the stored hash (the comparison resolves to `false`; a record
without a stored hash makes it reject instead), the third of which hands over
the unlock mail, leave the account with `failedLoginAttempts = 3`,
`isLocked = true` and `lockUntil` 30 minutes after the clock value of the
third attempt, hence strictly after it. -/
theorem three_wrong_passwords_lock (env : Env) (io1 io2 io3 : LoginIO) (m1 m2 m3 : ReqMeta)
    (username p1 p2 p3 c1 c2 c3 : String) (s : Server) (user : User)
    (hu : username ≠ "") (hsys : username ≠ env.adminEmail)
    (hadm : findAdminByEmail s.users username = none)
    (hf : findByUsername s.users username = some user)
    (hver : user.isVerified = true) (hzero : user.failedLoginAttempts = 0)
    (hl1 : lockedAt user io1.tCheck = false) (hl2 : lockedAt user io2.tCheck = false)
    (hl3 : lockedAt user io3.tCheck = false)
    (hp1 : p1 ≠ "" ∧ bcryptCompare env p1 user.password = some false)
    (hp2 : p2 ≠ "" ∧ bcryptCompare env p2 user.password = some false)
    (hp3 : p3 ≠ "" ∧ bcryptCompare env p3 user.password = some false)
    (hc1 : passesChallenge env c1 = true) (hc2 : passesChallenge env c2 = true)
    (hc3 : passesChallenge env c3 = true)
    (hmail : io3.mailOk = true) :
    ∃ final : User, ∃ t : Nat,
      findByUsername
        (login env io3 m3 username p3 c3
          (login env io2 m2 username p2 c2
            (login env io1 m1 username p1 c1 s).2).2).2.users username = some final ∧
      final._id = user._id ∧ final.failedLoginAttempts = 3 ∧
      final.isLocked = true ∧ final.lockUntil = some t ∧
      t = io3.tStamp + 30 * 60 * 1000 ∧ io3.tStamp < t := by
  obtain ⟨u1, hf1, hadm1, hid1, hver1, hpw1, hcnt1, hkeep1, -⟩ :=
    login_wrong_password_step env io1 m1 username p1 c1 s user hu hp1.1 hsys hc1 hadm hf hver hl1
      hp1.2 (Or.inl (by omega))
  have hk1 := hkeep1 (by omega)
  have hl2' : lockedAt u1 io2.tCheck = false := by
    rw [lockedAt_congr u1 user _ hk1.1 hk1.2]; exact hl2
  obtain ⟨u2, hf2, hadm2, hid2, hver2, hpw2, hcnt2, hkeep2, -⟩ :=
    login_wrong_password_step env io2 m2 username p2 c2 _ u1 hu hp2.1 hsys hc2 hadm1 hf1 hver1 hl2'
      (by rw [hpw1]; exact hp2.2) (Or.inl (by omega))
  have hk2 := hkeep2 (by omega)
  have hl3' : lockedAt u2 io3.tCheck = false := by
    rw [lockedAt_congr u2 user _ (hk2.1.trans hk1.1) (hk2.2.trans hk1.2)]; exact hl3
  obtain ⟨u3, hf3, -, hid3, -, -, hcnt3, -, hlock3⟩ :=
    login_wrong_password_step env io3 m3 username p3 c3 _ u2 hu hp3.1 hsys hc3 hadm2 hf2 hver2 hl3'
      (by rw [hpw2, hpw1]; exact hp3.2) (Or.inr hmail)
  have hk3 := hlock3 (by omega)
  exact ⟨u3, io3.tStamp + 30 * 60 * 1000, hf3, by rw [hid3, hid2, hid1], by omega, hk3.1, hk3.2,
    rfl, by omega⟩

/-- The witness of C3 (amended): three wrong passwords for `alice` at 1000,
2000 and 3000. -/
theorem three_wrong_passwords_lock_witness :
    findByUsername [alice, root] "alice" = some alice ∧
    bcryptCompare sampleEnv "guess" alice.password = some false ∧
    ∃ final : User, ∃ t : Nat,
      findByUsername
        (login sampleEnv (loginAt 3000) {} "alice" "guess" "valid-captcha"
          (login sampleEnv (loginAt 2000) {} "alice" "guess" "valid-captcha"
            (login sampleEnv (loginAt 1000) {} "alice" "guess" "valid-captcha"
              { users := [alice, root] }).2).2).2.users "alice" = some final ∧
      final._id = alice._id ∧ final.failedLoginAttempts = 3 ∧
      final.isLocked = true ∧ final.lockUntil = some t ∧
      t = (loginAt 3000).tStamp + 30 * 60 * 1000 ∧ (loginAt 3000).tStamp < t :=
  ⟨by decide, by decide,
   three_wrong_passwords_lock sampleEnv (loginAt 1000) (loginAt 2000) (loginAt 3000) {} {} {}
     "alice" "guess" "guess" "guess" "valid-captcha" "valid-captcha" "valid-captcha"
     { users := [alice, root] } alice (by decide) (by decide) (by decide) (by decide) (by decide)
     (by decide) (by decide) (by decide) (by decide) (by decide) (by decide) (by decide)
     (by decide) (by decide) (by decide) (by decide)⟩


/-- C4, counterexample. Two locked accounts whose login does not fail with
the locked answer (status 423): the locked role-admin account `lockedRoot`,
addressed by its email with a wrong password, is answered 401 `Invalid
credentials`; the locked, unverified account `lockedUnverified`, addressed
with its correct password, is answered 401 with `emailSent`. -/
theorem locked_login_counterexample :
    (lockedAt lockedRoot 2000 = true ∧
     bcryptCompare sampleEnv "guess" lockedRoot.password = some false ∧
     (login sampleEnv (loginAt 2000) {} "root@example.com" "guess" "valid-captcha"
       { users := [alice, lockedRoot] }).1.status = 401 ∧
     (login sampleEnv (loginAt 2000) {} "root@example.com" "guess" "valid-captcha"
       { users := [alice, lockedRoot] }).1.message = "Invalid credentials" ∧
     (login sampleEnv (loginAt 2000) {} "root@example.com" "guess" "valid-captcha"
       { users := [alice, lockedRoot] }).1.isLocked = none) ∧
    (lockedAt lockedUnverified 2000 = true ∧
     bcryptCompare sampleEnv "wonderland" lockedUnverified.password = some true ∧
     (login sampleEnv (loginAt 2000) {} "alice" "wonderland" "valid-captcha"
       { users := [lockedUnverified, root] }).1.status = 401 ∧
     (login sampleEnv (loginAt 2000) {} "alice" "wonderland" "valid-captcha"
       { users := [lockedUnverified, root] }).1.emailSent = some true ∧
     (login sampleEnv (loginAt 2000) {} "alice" "wonderland" "valid-captcha"
       { users := [lockedUnverified, root] }).1.isLocked = none) := by
  decide

/-- C4, amended. A login that passes validation and the challenge is answered
with the locked response (status 423, `isLocked: true`, no token) and leaves
every credential record unchanged, `failedLoginAttempts` included, in two
cases: when it reaches, through the regular branch, a verified account that
the lock test holds back, whatever the password; and when it reaches, through
the role-admin branch, a locked account with the correct password. -/
theorem locked_login_rejected (env : Env) (io : LoginIO) (m : ReqMeta)
    (username password captchaToken : String) (s : Server)
    (hu : username ≠ "") (hp : password ≠ "") (hsys : username ≠ env.adminEmail)
    (hc : passesChallenge env captchaToken = true) :
    (∀ user, findAdminByEmail s.users username = none →
        findByUsername s.users username = some user →
        user.isVerified = true → lockedAt user io.tCheck = true →
        (login env io m username password captchaToken s).1.status = 423 ∧
        (login env io m username password captchaToken s).1.isLocked = some true ∧
        (login env io m username password captchaToken s).1.accessToken = none ∧
        (login env io m username password captchaToken s).1.refreshToken = none ∧
        (login env io m username password captchaToken s).2.users = s.users) ∧
    (∀ adminUser, findAdminByEmail s.users username = some adminUser →
        bcryptCompare env password adminUser.password = some true →
        lockedAt adminUser io.tCheck = true →
        (login env io m username password captchaToken s).1.status = 423 ∧
        (login env io m username password captchaToken s).1.isLocked = some true ∧
        (login env io m username password captchaToken s).1.accessToken = none ∧
        (login env io m username password captchaToken s).1.refreshToken = none ∧
        (login env io m username password captchaToken s).2.users = s.users) := by
  constructor
  · intro user hadm hf hver hlock
    rw [login_regular env io m username password captchaToken s user hu hp hsys hc hadm hf]
    simp [loginRegular, hver, hlock, Server.hydrated]
  · intro adminUser hadm hpw hlock
    rw [login_adminUser env io m username password captchaToken s adminUser hu hp hsys hc hadm]
    have hlock2 : ∀ b, lockedAt { adminUser with isVerified := b } io.tCheck = true := by
      intro b
      rw [← hlock]
      rfl
    cases hv : adminUser.isVerified <;>
      simp [loginAdminUser, hpw, hv, hlock, hlock2, Server.hydrated]

/-- The witness of C4 (amended): the locked account `lockedAlice` is refused
with her correct password and her record stays as it was. -/
theorem locked_login_rejected_witness :
    findByUsername [lockedAlice, root] "alice" = some lockedAlice ∧
    lockedAt lockedAlice 2000 = true ∧
    (login sampleEnv (loginAt 2000) {} "alice" "wonderland" "valid-captcha"
      { users := [lockedAlice, root] }).1.status = 423 ∧
    (login sampleEnv (loginAt 2000) {} "alice" "wonderland" "valid-captcha"
      { users := [lockedAlice, root] }).2.users = [lockedAlice, root] :=
  have h := (locked_login_rejected sampleEnv (loginAt 2000) {} "alice" "wonderland" "valid-captcha"
    { users := [lockedAlice, root] } (by decide) (by decide) (by decide) (by decide)).1
    lockedAlice (by decide) (by decide) (by decide) (by decide)
  ⟨by decide, by decide, h.1, h.2.2.2.2⟩


/-! ## Refresh, logout and session identifiers -/

theorem refreshToken_never_succeeds (env : Env) (now : Nat) (m : ReqMeta) (token : Option Jwt)
    (s : Server) :
    (refreshToken env now m token s).1.status ≠ 200 ∧
    (refreshToken env now m token s).1.accessToken = none ∧
    (refreshToken env now m token s).1.refreshToken = none ∧
    (refreshToken env now m token s).2 = s := by
  cases token with
  | none => exact ⟨by show (400 : Nat) ≠ 200; decide, rfl, rfl, rfl⟩
  | some tok => exact ⟨by show (401 : Nat) ≠ 200; decide, rfl, rfl, rfl⟩

/-- C8, the code at the failing input. The refresh token issued to `alice`
at 1000 is accepted by `verifyRefreshToken` of `jwtUtils.js` at 2000 and
equals the `refreshToken` stored on her record, yet the controller
`refreshToken` answers 401 `Invalid or expired refresh token`, returns no
token pair and leaves the state unchanged: `verifyRefreshToken` is not among
the bindings that the controller module imports. -/
theorem refreshToken_rejects_valid_token :
    "verifyRefreshToken" ∉ userControllerImports ∧
    (verifyRefreshToken sampleEnv 2000 (generateRefreshToken sampleEnv 1000 (.str alice._id))).toOption
      = some { userId := alice._id, type := "refresh" } ∧
    aliceWithRefresh.refreshToken = some (generateRefreshToken sampleEnv 1000 (.str alice._id)) ∧
    (refreshToken sampleEnv 2000 {} (some (generateRefreshToken sampleEnv 1000 (.str alice._id)))
      { users := [aliceWithRefresh, root] }).1.status = 401 ∧
    (refreshToken sampleEnv 2000 {} (some (generateRefreshToken sampleEnv 1000 (.str alice._id)))
      { users := [aliceWithRefresh, root] }).1.message = "Invalid or expired refresh token" ∧
    (refreshToken sampleEnv 2000 {} (some (generateRefreshToken sampleEnv 1000 (.str alice._id)))
      { users := [aliceWithRefresh, root] }).1.accessToken = none ∧
    (refreshToken sampleEnv 2000 {} (some (generateRefreshToken sampleEnv 1000 (.str alice._id)))
      { users := [aliceWithRefresh, root] }).1.refreshToken = none ∧
    (refreshToken sampleEnv 2000 {} (some (generateRefreshToken sampleEnv 1000 (.str alice._id)))
      { users := [aliceWithRefresh, root] }).2.users = [aliceWithRefresh, root] := by
  decide

/-- C9, the code at the failing input. `alice` redeems her OTP (a session is
registered under `session_<id>_1000`), then calls `logout` with the access
token she received. `authenticateJWT` leaves in `req.userId` the `_id` object
of the document it hydrated; `findSessionsByUserId` compares it with `===`
against the string `userId` and the other `_id` object of the session, finds
nothing, and the session is still in the tracker after `logout`, although the
stored refresh token has been cleared.  The same holds for the session that
reconciliation installs. -/
theorem logout_leaves_session :
    (authenticateJWT sampleEnv 2000 afterOtpAccess afterOtp).1.toOption
      = some (.oid 1 "64b7f0c2a1d3e4f5a6b7c8d9") ∧
    (authenticateJWT sampleEnv 2000 afterOtpAccess afterOtp).2 = afterOtp.hydrated ∧
    (afterOtp.sessions.map Prod.fst = ["session_64b7f0c2a1d3e4f5a6b7c8d9_1000"] ∧
     findSessionsByUserId afterOtp.hydrated.sessions (.oid 1 "64b7f0c2a1d3e4f5a6b7c8d9") = [] ∧
     (logout 2000 {} (some (.oid 1 "64b7f0c2a1d3e4f5a6b7c8d9")) afterOtp.hydrated).1.status = 200 ∧
     ((logout 2000 {} (some (.oid 1 "64b7f0c2a1d3e4f5a6b7c8d9")) afterOtp.hydrated).2.users.map
        (fun u => u.refreshToken.isSome)) = [false, false] ∧
     (logout 2000 {} (some (.oid 1 "64b7f0c2a1d3e4f5a6b7c8d9")) afterOtp.hydrated).2.sessions
        = afterOtp.sessions) ∧
    (((getSessions ⟨1500, 1500, 1500⟩ afterOtp).2.sessions.map Prod.fst
        = ["session_64b7f0c2a1d3e4f5a6b7c8d9_1000"]) ∧
     (authenticateJWT sampleEnv 2000 afterOtpAccess (getSessions ⟨1500, 1500, 1500⟩ afterOtp).2).1.toOption
        = some (.oid 3 "64b7f0c2a1d3e4f5a6b7c8d9") ∧
     (logout 2000 {} (some (.oid 3 "64b7f0c2a1d3e4f5a6b7c8d9"))
        (getSessions ⟨1500, 1500, 1500⟩ afterOtp).2.hydrated).2.sessions
        = (getSessions ⟨1500, 1500, 1500⟩ afterOtp).2.sessions) := by
  decide

/-- C10, the code at the failing input. `alice` redeems her OTP while the
clock advances: the session id is built at 1000, the `LOGIN_SUCCESS` entry is
written at 1001 and the `OTP_VERIFIED` entry at 1020.  The tracker holds
`session_<id>_1000`; reconciliation derives `session_<id>_1001` and
`session_<id>_1020` from the two log entries and lists the latter.
`terminateSession` with the listed id removes nothing from the tracker that
login filled, and after `terminateSession` with the login-time id the next
reconciliation lists the session again. -/
theorem session_id_mismatch :
    afterOtpTicking.sessions.map Prod.fst = ["session_64b7f0c2a1d3e4f5a6b7c8d9_1000"] ∧
    afterOtpTicking.activities.map (fun a => (a.action, derivedSessionId a))
      = [("LOGIN_SUCCESS", "session_64b7f0c2a1d3e4f5a6b7c8d9_1001"),
         ("OTP_VERIFIED", "session_64b7f0c2a1d3e4f5a6b7c8d9_1020")] ∧
    (getSessions ⟨5000, 5000, 5000⟩ afterOtpTicking).1.sessions.map (fun x => x._id)
      = ["session_64b7f0c2a1d3e4f5a6b7c8d9_1020"] ∧
    (terminateSession 6000 {} "session_64b7f0c2a1d3e4f5a6b7c8d9_1020" afterOtpTicking).1.status = 200 ∧
    (terminateSession 6000 {} "session_64b7f0c2a1d3e4f5a6b7c8d9_1020" afterOtpTicking).2.sessions
      = afterOtpTicking.sessions ∧
    (terminateSession 6000 {} "session_64b7f0c2a1d3e4f5a6b7c8d9_1000" afterOtpTicking).2.sessions = [] ∧
    (getSessions ⟨7000, 7000, 7000⟩
      (terminateSession 6000 {} "session_64b7f0c2a1d3e4f5a6b7c8d9_1000" afterOtpTicking).2).1.sessions.map
        (fun x => x._id) = ["session_64b7f0c2a1d3e4f5a6b7c8d9_1020"] := by
  decide


/-! ## Unlock and password reset -/

theorem unlockAccount_success (env : Env) (io : RedeemIO) (m : ReqMeta) (token : Option Jwt)
    (newPassword : String) (s : Server)
    (h : (unlockAccount env io m token newPassword s).1.status = 200) :
    ∃ tok decoded user, token = some tok ∧
      verifyEmailVerificationToken env io.tVerify tok = .ok decoded ∧
      findLockedByToken s.users decoded.userId decoded.email tok = some user ∧
      unlockExpired user.unlockTokenExpires io.tCheck = false ∧
      (unlockAccount env io m token newPassword s).1.refreshToken
        = some (generateRefreshToken env io.tStamp (s.freshId user)) ∧
      (unlockAccount env io m token newPassword s).2.users = saveUser s.users
        { user with
          password := io.hashedPassword, isLocked := false, failedLoginAttempts := 0,
          loginAttempts := 0, lockUntil := none, unlockToken := none,
          unlockTokenExpires := none,
          refreshToken := some (generateRefreshToken env io.tStamp (s.freshId user)),
          lastLogin := some io.tStamp } := by
  cases token with
  | none => simp [unlockAccount] at h
  | some tok =>
    by_cases hpw : newPassword = ""
    · simp [unlockAccount, hpw] at h
    · cases hv : verifyEmailVerificationToken env io.tVerify tok with
      | error msg => simp [unlockAccount, hpw, hv] at h
      | ok decoded =>
        by_cases hcast : isObjectIdHex decoded.userId = false
        · simp [unlockAccount, hpw, hv, hcast] at h
        · cases hf : findLockedByToken s.users decoded.userId decoded.email tok with
          | none => simp [unlockAccount, hpw, hv, hcast, hf] at h
          | some user =>
            by_cases hexp : unlockExpired user.unlockTokenExpires io.tCheck = true
            · simp [unlockAccount, hpw, hv, hcast, hf, hexp] at h
            · by_cases hlen : jsLength newPassword < 6
              · simp [unlockAccount, hpw, hv, hcast, hf, hexp, hlen] at h
              · by_cases hmail : io.mailOk = true
                · refine ⟨tok, decoded, user, rfl, hv, hf, by simpa using hexp, ?_, ?_⟩
                  · simp [unlockAccount, hpw, hv, hcast, hf, hexp, hlen, hmail, generateTokens]
                  · simp [unlockAccount, hpw, hv, hcast, hf, hexp, hlen, hmail, generateTokens,
                      Server.hydrated]
                · simp [unlockAccount, hpw, hv, hcast, hf, hexp, hlen, hmail] at h


theorem verifyTyped_ok {secret expected message : String} {now : Nat} {token : Jwt}
    {decoded : Payload} (h : verifyTyped secret expected message now token = .ok decoded) :
    decoded = token.payload ∧ token.key = secret ∧ now / 1000 < token.exp ∧
      token.payload.type = expected := by
  unfold verifyTyped jwtVerify at h
  by_cases hk : token.key = secret
  · by_cases he : token.exp ≤ now / 1000
    · simp [hk, he] at h
    · by_cases ht : token.payload.type = expected
      · simp [hk, he, ht] at h
        exact ⟨h.symm, hk, by omega, ht⟩
      · simp [hk, he, ht] at h
  · simp [hk] at h

theorem findLockedByToken_saveUser_none (users : List User) (saved : User) (userId : String)
    (email : Option String) (token : Jwt) (hid : saved._id = userId)
    (hlock : saved.isLocked = false) :
    findLockedByToken (saveUser users saved) userId email token = none := by
  unfold findLockedByToken
  rw [List.find?_eq_none]
  intro x hx
  unfold saveUser at hx
  rw [List.mem_map] at hx
  obtain ⟨v, _, rfl⟩ := hx
  by_cases hv : (v._id == saved._id) = true
  · simp [hv, hlock]
  · have hne : ¬ v._id = userId := by
      intro h
      apply hv
      simp [h, hid]
    simp [hv, hne]

theorem unlockAccount_not_found (env : Env) (io : RedeemIO) (m : ReqMeta) (token : Jwt)
    (newPassword : String) (s : Server)
    (h : ∀ decoded, verifyEmailVerificationToken env io.tVerify token = .ok decoded →
      findLockedByToken s.users decoded.userId decoded.email token = none) :
    (unlockAccount env io m (some token) newPassword s).1.status ≠ 200 := by
  intro hs
  obtain ⟨tok, decoded, user, htok, hv, hf, -⟩ := unlockAccount_success env io m _ _ s hs
  injection htok with htok
  subst htok
  rw [h decoded hv] at hf
  exact Option.noConfusion hf

/-- C15. `unlockAccount` answers 200 only if the submitted token verifies as
an unexpired token of the type that unlock tokens carry
(`email_verification`, signed with the access secret), a stored record with
the token's user id and email is locked (`isLocked`), its stored
`unlockToken` equals the submitted token, and `unlockTokenExpires` has not
passed at the expiry test.  After such a success, every further
`unlockAccount` with the same token, at any clock values and with any
password, is refused. -/
theorem unlockAccount_succeeds_only_if (env : Env) (io : RedeemIO) (m : ReqMeta)
    (token : Option Jwt) (newPassword : String) (s : Server)
    (h : (unlockAccount env io m token newPassword s).1.status = 200) :
    (∃ tok user, token = some tok ∧
      tok.key = env.jwtSecret ∧ io.tVerify / 1000 < tok.exp ∧
      tok.payload.type = "email_verification" ∧
      user ∈ s.users ∧ user._id = tok.payload.userId ∧ some user.email = tok.payload.email ∧
      user.isLocked = true ∧ user.unlockToken = some tok ∧
      unlockExpired user.unlockTokenExpires io.tCheck = false) ∧
    (∀ (io2 : RedeemIO) (m2 : ReqMeta) (password2 : String),
      (unlockAccount env io2 m2 token password2
        (unlockAccount env io m token newPassword s).2).1.status ≠ 200) := by
  obtain ⟨tok, decoded, user, htok, hv, hf, hexp, -, hus⟩ :=
    unlockAccount_success env io m token newPassword s h
  obtain ⟨hdec, hkey, hnotexp, htype⟩ := verifyTyped_ok hv
  have hmem : user ∈ s.users := List.mem_of_find?_eq_some hf
  have hprops := List.find?_some hf
  simp only [Bool.and_eq_true, beq_iff_eq] at hprops
  obtain ⟨⟨⟨hid, hemail⟩, hlocked⟩, hstored⟩ := hprops
  subst hdec
  refine ⟨⟨tok, user, htok, hkey, hnotexp, htype, hmem, hid, hemail, hlocked, hstored, hexp⟩, ?_⟩
  intro io2 m2 password2
  subst htok
  apply unlockAccount_not_found
  intro decoded2 hv2
  obtain ⟨hdec2, -⟩ := verifyTyped_ok hv2
  subst hdec2
  rw [hus]
  exact findLockedByToken_saveUser_none _ _ _ _ _ hid rfl

/-- The witness of C15: `lockedAliceWithToken` redeems her unlock token at
5000. -/
theorem unlockAccount_succeeds_only_if_witness :
    (unlockAccount sampleEnv (redeemAt 5000) {} (some aliceUnlockToken) "looking-glass"
      { users := [lockedAliceWithToken, root] }).1.status = 200 ∧
    (unlockAccount sampleEnv (redeemAt 6000) {} (some aliceUnlockToken) "looking-glass"
      (unlockAccount sampleEnv (redeemAt 5000) {} (some aliceUnlockToken) "looking-glass"
        { users := [lockedAliceWithToken, root] }).2).1.status ≠ 200 :=
  ⟨by decide,
   (unlockAccount_succeeds_only_if sampleEnv (redeemAt 5000) {} (some aliceUnlockToken)
      "looking-glass" { users := [lockedAliceWithToken, root] } (by decide)).2
      (redeemAt 6000) {} "looking-glass"⟩


theorem resetPassword_success (env : Env) (io : RedeemIO) (m : ReqMeta) (token : Option Jwt)
    (newPassword : String) (s : Server)
    (h : (resetPassword env io m token newPassword s).1.status = 200) :
    ∃ tok decoded user, token = some tok ∧
      verifyPasswordResetToken env io.tVerify tok = .ok decoded ∧
      findByIdAndEmail s.users decoded.userId decoded.email = some user ∧
      (resetPassword env io m token newPassword s).2.users = saveUser s.users
        { user with
          password := io.hashedPassword, resetPasswordToken := none,
          resetPasswordExpires := none, loginAttempts := 0, failedLoginAttempts := 0,
          lockUntil := none, isLocked := false, unlockToken := none,
          unlockTokenExpires := none } := by
  cases token with
  | none => simp [resetPassword] at h
  | some tok =>
    by_cases hpw : newPassword = ""
    · simp [resetPassword, hpw] at h
    · cases hv : verifyPasswordResetToken env io.tVerify tok with
      | error msg => simp [resetPassword, hpw, hv] at h
      | ok decoded =>
        by_cases hcast : isObjectIdHex decoded.userId = false
        · simp [resetPassword, hpw, hv, hcast] at h
        · cases hf : findByIdAndEmail s.users decoded.userId decoded.email with
          | none => simp [resetPassword, hpw, hv, hcast, hf] at h
          | some user =>
            by_cases hlen : jsLength newPassword < 6
            · simp [resetPassword, hpw, hv, hcast, hf, hlen] at h
            · by_cases hmail : io.mailOk = true
              · refine ⟨tok, decoded, user, rfl, hv, hf, ?_⟩
                simp [resetPassword, hpw, hv, hcast, hf, hlen, hmail, Server.hydrated]
              · simp [resetPassword, hpw, hv, hcast, hf, hlen, hmail] at h

theorem findById_saveUser (users : List User) (saved : User)
    (hmem : ∃ v ∈ users, v._id = saved._id) :
    findById (saveUser users saved) (.str saved._id) = some saved := by
  induction users with
  | nil => obtain ⟨v, hv, -⟩ := hmem; simp at hv
  | cons u rest ih =>
    unfold findById saveUser
    rw [List.map_cons]
    by_cases hu : (u._id == saved._id) = true
    · simp [hu, JsId.toStr]
    · have hne : ¬ u._id = saved._id := by simpa using hu
      simp only [hu, Bool.false_eq_true, if_false]
      rw [List.find?_cons_of_neg _ (by simpa [JsId.toStr] using hne)]
      apply ih
      obtain ⟨v, hv, hid⟩ := hmem
      rcases List.mem_cons.mp hv with rfl | hv
      · exact absurd hid hne
      · exact ⟨v, hv, hid⟩

/-- C16, counterexample. From the store `[alice, root]`, `alice` logs in
with her password (the OTP `123456` is stored), is locked by three wrong
passwords, and redeems the unlock token at 5000: `unlockAccount` answers 200
and her record still holds `loginOTP = 123456` with its expiry.  From the
store `[aliceWithRefresh, root]`, `alice` logs in with her password and then
redeems a password-reset token at 5000: `resetPassword` answers 200 and her
record still holds the OTP as well. -/
theorem redemption_clears_counterexample :
    ((unlockAccount sampleEnv (redeemAt 5000) {} (some unlockTokenAt4000) "looking-glass"
        lockedAfterOtp).1.status = 200 ∧
     ((unlockAccount sampleEnv (redeemAt 5000) {} (some unlockTokenAt4000) "looking-glass"
        lockedAfterOtp).2.users.map (fun u => (u.username, u.loginOTP, u.loginOTPExpires)))
        = [("alice", some "123456", some 601000), ("root", none, none)]) ∧
    ((resetPassword sampleEnv (redeemAt 5000) {} (some aliceResetToken) "looking-glass"
        otpPending).1.status = 200 ∧
     ((resetPassword sampleEnv (redeemAt 5000) {} (some aliceResetToken) "looking-glass"
        otpPending).2.users.map (fun u => (u.username, u.loginOTP, u.loginOTPExpires)))
        = [("alice", some "123456", some 601000), ("root", none, none)]) := by
  decide

theorem mem_saveUser_of_ne {users : List User} {saved v : User}
    (hv : v ∈ saveUser users saved) (hne : v._id ≠ saved._id) : v ∈ users := by
  unfold saveUser at hv
  rw [List.mem_map] at hv
  obtain ⟨w, hw, rfl⟩ := hv
  by_cases hid : (w._id == saved._id) = true
  · rw [if_pos hid] at hne
    exact absurd rfl hne
  · rw [if_neg hid]
    exact hw

/-- A successful `unlockAccount`, in terms of the submitted token: the record
found by the token's id, email and value is the one that is saved, with the
fields that the handler assigns. -/
theorem unlockAccount_redeemed (env : Env) (io : RedeemIO) (m : ReqMeta) (token : Option Jwt)
    (newPassword : String) (s : Server)
    (h : (unlockAccount env io m token newPassword s).1.status = 200) :
    ∃ tok user, token = some tok ∧
      findLockedByToken s.users tok.payload.userId tok.payload.email tok = some user ∧
      user._id = tok.payload.userId ∧
      (unlockAccount env io m token newPassword s).1.refreshToken
        = some (generateRefreshToken env io.tStamp (.str tok.payload.userId)) ∧
      (unlockAccount env io m token newPassword s).2.users = saveUser s.users
        { user with
          password := io.hashedPassword, isLocked := false, failedLoginAttempts := 0,
          loginAttempts := 0, lockUntil := none, unlockToken := none,
          unlockTokenExpires := none,
          refreshToken := some (generateRefreshToken env io.tStamp (.str tok.payload.userId)),
          lastLogin := some io.tStamp } := by
  obtain ⟨tok, decoded, user, htok, hv, hf, -, hresp, hus⟩ :=
    unlockAccount_success env io m token newPassword s h
  obtain ⟨hdec, -⟩ := verifyTyped_ok hv
  subst hdec
  have hprops := List.find?_some hf
  simp only [Bool.and_eq_true, beq_iff_eq] at hprops
  have hid : user._id = tok.payload.userId := hprops.1.1.1
  have htokEq : generateRefreshToken env io.tStamp (s.freshId user)
      = generateRefreshToken env io.tStamp (.str tok.payload.userId) := by
    unfold generateRefreshToken
    simp [Server.freshId, JsId.toStr, hid]
  rw [htokEq] at hresp hus
  exact ⟨tok, user, htok, hf, hid, hresp, hus⟩

/-- A successful `resetPassword`, in terms of the submitted token. -/
theorem resetPassword_redeemed (env : Env) (io : RedeemIO) (m : ReqMeta) (token : Option Jwt)
    (newPassword : String) (s : Server)
    (h : (resetPassword env io m token newPassword s).1.status = 200) :
    ∃ tok user, token = some tok ∧
      findByIdAndEmail s.users tok.payload.userId tok.payload.email = some user ∧
      user._id = tok.payload.userId ∧
      (resetPassword env io m token newPassword s).2.users = saveUser s.users
        { user with
          password := io.hashedPassword, resetPasswordToken := none,
          resetPasswordExpires := none, loginAttempts := 0, failedLoginAttempts := 0,
          lockUntil := none, isLocked := false, unlockToken := none,
          unlockTokenExpires := none } := by
  obtain ⟨tok, decoded, user, htok, hv, hf, hus⟩ :=
    resetPassword_success env io m token newPassword s h
  obtain ⟨hdec, -⟩ := verifyTyped_ok hv
  subst hdec
  have hprops := List.find?_some hf
  simp only [Bool.and_eq_true, beq_iff_eq] at hprops
  exact ⟨tok, user, htok, hf, hprops.1, hus⟩

/-- After a save of a record with the id `id`, the query by `id` returns the
saved record, and every record with another id was in the store before. -/
theorem saveUser_redeemed {users : List User} {user : User} (X : User) (id : String)
    (hmem : user ∈ users) (hid : user._id = id) (hX : X._id = user._id) :
    findById (saveUser users X) (.str id) = some X ∧
    ∀ v ∈ saveUser users X, v._id ≠ id → v ∈ users := by
  constructor
  · have h2 := findById_saveUser users X ⟨user, hmem, hX.symm⟩
    rwa [hX, hid] at h2
  · intro v hv hne
    exact mem_saveUser_of_ne hv (by rw [hX, hid]; exact hne)

/-- C16, amended. After every successful `unlockAccount`, the credential
record that the submitted token names (the one found by the token's user id,
email and value, and read back by that id afterwards) has all lock fields
cleared (`isLocked`, `failedLoginAttempts`, `lockUntil`, `unlockToken`,
`unlockTokenExpires`), its OTP fields and its reset fields as they were; after
every successful `resetPassword`, the record that the token names has all lock
fields and both reset fields cleared and its OTP fields as they were.  In both
cases every record with another id was in the store before. -/
theorem redemption_clears_lock_fields (env : Env) (io : RedeemIO) (m : ReqMeta)
    (token : Option Jwt) (newPassword : String) (s : Server) :
    ((unlockAccount env io m token newPassword s).1.status = 200 →
      ∃ tok user final, token = some tok ∧
        findLockedByToken s.users tok.payload.userId tok.payload.email tok = some user ∧
        user._id = tok.payload.userId ∧
        findById (unlockAccount env io m token newPassword s).2.users (.str tok.payload.userId)
          = some final ∧
        final._id = tok.payload.userId ∧
        final.isLocked = false ∧ final.failedLoginAttempts = 0 ∧ final.lockUntil = none ∧
        final.unlockToken = none ∧ final.unlockTokenExpires = none ∧
        final.loginOTP = user.loginOTP ∧ final.loginOTPExpires = user.loginOTPExpires ∧
        final.resetPasswordToken = user.resetPasswordToken ∧
        final.resetPasswordExpires = user.resetPasswordExpires ∧
        ∀ v ∈ (unlockAccount env io m token newPassword s).2.users,
          v._id ≠ tok.payload.userId → v ∈ s.users) ∧
    ((resetPassword env io m token newPassword s).1.status = 200 →
      ∃ tok user final, token = some tok ∧
        findByIdAndEmail s.users tok.payload.userId tok.payload.email = some user ∧
        user._id = tok.payload.userId ∧
        findById (resetPassword env io m token newPassword s).2.users (.str tok.payload.userId)
          = some final ∧
        final._id = tok.payload.userId ∧
        final.isLocked = false ∧ final.failedLoginAttempts = 0 ∧ final.lockUntil = none ∧
        final.unlockToken = none ∧ final.unlockTokenExpires = none ∧
        final.resetPasswordToken = none ∧ final.resetPasswordExpires = none ∧
        final.loginOTP = user.loginOTP ∧ final.loginOTPExpires = user.loginOTPExpires ∧
        ∀ v ∈ (resetPassword env io m token newPassword s).2.users,
          v._id ≠ tok.payload.userId → v ∈ s.users) := by
  constructor
  · intro h
    obtain ⟨tok, user, htok, hf, hid, -, hus⟩ :=
      unlockAccount_redeemed env io m token newPassword s h
    have hmem : user ∈ s.users := List.mem_of_find?_eq_some hf
    rw [hus]
    obtain ⟨hfind, hframe⟩ := saveUser_redeemed
      ({ user with
          password := io.hashedPassword, isLocked := false, failedLoginAttempts := 0,
          loginAttempts := 0, lockUntil := none, unlockToken := none,
          unlockTokenExpires := none,
          refreshToken := some (generateRefreshToken env io.tStamp (.str tok.payload.userId)),
          lastLogin := some io.tStamp } : User) tok.payload.userId hmem hid rfl
    exact ⟨tok, user, _, htok, hf, hid, hfind, hid, rfl, rfl, rfl, rfl, rfl, rfl, rfl, rfl, rfl,
      hframe⟩
  · intro h
    obtain ⟨tok, user, htok, hf, hid, hus⟩ :=
      resetPassword_redeemed env io m token newPassword s h
    have hmem : user ∈ s.users := List.mem_of_find?_eq_some hf
    rw [hus]
    obtain ⟨hfind, hframe⟩ := saveUser_redeemed
      ({ user with
          password := io.hashedPassword, resetPasswordToken := none,
          resetPasswordExpires := none, loginAttempts := 0, failedLoginAttempts := 0,
          lockUntil := none, isLocked := false, unlockToken := none,
          unlockTokenExpires := none } : User) tok.payload.userId hmem hid rfl
    exact ⟨tok, user, _, htok, hf, hid, hfind, hid, rfl, rfl, rfl, rfl, rfl, rfl, rfl, rfl, rfl,
      hframe⟩

/-- The witness of C16 (amended): `lockedAliceWithToken` redeems her unlock
token at 5000; her record, read back by her id, is unlocked and still holds
the OTP `123456`, and the record of `root` is as before. -/
theorem redemption_clears_lock_fields_witness :
    (unlockAccount sampleEnv (redeemAt 5000) {} (some aliceUnlockToken) "looking-glass"
      { users := [lockedAliceWithToken, root] }).1.status = 200 ∧
    (∃ tok user final, some aliceUnlockToken = some tok ∧
      findLockedByToken [lockedAliceWithToken, root] tok.payload.userId tok.payload.email tok
        = some user ∧
      user._id = tok.payload.userId ∧
      findById (unlockAccount sampleEnv (redeemAt 5000) {} (some aliceUnlockToken) "looking-glass"
        { users := [lockedAliceWithToken, root] }).2.users (.str tok.payload.userId) = some final ∧
      final._id = tok.payload.userId ∧
      final.isLocked = false ∧ final.failedLoginAttempts = 0 ∧ final.lockUntil = none ∧
      final.unlockToken = none ∧ final.unlockTokenExpires = none ∧
      final.loginOTP = user.loginOTP ∧ final.loginOTPExpires = user.loginOTPExpires ∧
      final.resetPasswordToken = user.resetPasswordToken ∧
      final.resetPasswordExpires = user.resetPasswordExpires ∧
      ∀ v ∈ (unlockAccount sampleEnv (redeemAt 5000) {} (some aliceUnlockToken) "looking-glass"
          { users := [lockedAliceWithToken, root] }).2.users,
        v._id ≠ tok.payload.userId → v ∈ [lockedAliceWithToken, root]) ∧
    (findById (unlockAccount sampleEnv (redeemAt 5000) {} (some aliceUnlockToken) "looking-glass"
        { users := [lockedAliceWithToken, root] }).2.users (.str alice._id)).map
        (fun u => (u.isLocked, u.failedLoginAttempts, u.loginOTP, u.loginOTPExpires))
      = some (false, 0, some "123456", some 700000) ∧
    (resetPassword sampleEnv (redeemAt 5000) {} (some aliceResetToken) "looking-glass"
      otpPending).1.status = 200 :=
  ⟨by decide,
   (redemption_clears_lock_fields sampleEnv (redeemAt 5000) {} (some aliceUnlockToken)
      "looking-glass" { users := [lockedAliceWithToken, root] }).1 (by decide),
   by decide, by decide⟩


/-- C17, counterexample. `aliceWithRefresh` holds the refresh token issued to
her at 1000.  She redeems a password-reset token at 5000: `resetPassword`
answers 200, returns no token, and the refresh token stored on her record is
still the one issued at 1000. -/
theorem redemption_rotates_counterexample :
    (resetPassword sampleEnv (redeemAt 5000) {} (some aliceResetToken) "looking-glass"
      { users := [aliceWithRefresh, root] }).1.status = 200 ∧
    (resetPassword sampleEnv (redeemAt 5000) {} (some aliceResetToken) "looking-glass"
      { users := [aliceWithRefresh, root] }).1.refreshToken = none ∧
    ((resetPassword sampleEnv (redeemAt 5000) {} (some aliceResetToken) "looking-glass"
      { users := [aliceWithRefresh, root] }).2.users.map (fun u => u.refreshToken))
      = [some (generateRefreshToken sampleEnv 1000 (.str alice._id)), none] := by
  decide

/-- C17, amended. Every successful `unlockAccount` stores on the credential
record that the submitted token names (read back by the token's user id) the
refresh token it issues at redemption time and returns, so a refresh token
issued in an earlier second is no longer the stored one.  A successful
`resetPassword` issues no token and leaves the refresh token stored on the
record that its token names as it was. -/
theorem unlock_rotates_refresh_token (env : Env) (io : RedeemIO) (m : ReqMeta)
    (token : Option Jwt) (newPassword : String) (s : Server) :
    ((unlockAccount env io m token newPassword s).1.status = 200 →
      ∃ tok user final, token = some tok ∧
        findLockedByToken s.users tok.payload.userId tok.payload.email tok = some user ∧
        findById (unlockAccount env io m token newPassword s).2.users (.str tok.payload.userId)
          = some final ∧
        final._id = tok.payload.userId ∧
        final.refreshToken
          = some (generateRefreshToken env io.tStamp (.str tok.payload.userId)) ∧
        (unlockAccount env io m token newPassword s).1.refreshToken = final.refreshToken ∧
        ∀ old : Jwt, old.iat < io.tStamp / 1000 → final.refreshToken ≠ some old) ∧
    ((resetPassword env io m token newPassword s).1.status = 200 →
      ∃ tok user final, token = some tok ∧
        findByIdAndEmail s.users tok.payload.userId tok.payload.email = some user ∧
        findById (resetPassword env io m token newPassword s).2.users (.str tok.payload.userId)
          = some final ∧
        final._id = tok.payload.userId ∧
        final.refreshToken = user.refreshToken ∧
        (resetPassword env io m token newPassword s).1.refreshToken = none ∧
        (resetPassword env io m token newPassword s).1.accessToken = none) := by
  constructor
  · intro h
    obtain ⟨tok, user, htok, hf, hid, hresp, hus⟩ :=
      unlockAccount_redeemed env io m token newPassword s h
    have hmem : user ∈ s.users := List.mem_of_find?_eq_some hf
    rw [hus, hresp]
    obtain ⟨hfind, -⟩ := saveUser_redeemed
      ({ user with
          password := io.hashedPassword, isLocked := false, failedLoginAttempts := 0,
          loginAttempts := 0, lockUntil := none, unlockToken := none,
          unlockTokenExpires := none,
          refreshToken := some (generateRefreshToken env io.tStamp (.str tok.payload.userId)),
          lastLogin := some io.tStamp } : User) tok.payload.userId hmem hid rfl
    refine ⟨tok, user, _, htok, hf, hfind, hid, rfl, rfl, ?_⟩
    intro old hold heq
    have heq2 := Option.some.inj heq
    rw [← heq2] at hold
    simp [generateRefreshToken, jwtSign] at hold
  · intro h
    obtain ⟨tok, user, htok, hf, hid, hus⟩ :=
      resetPassword_redeemed env io m token newPassword s h
    have hmem : user ∈ s.users := List.mem_of_find?_eq_some hf
    have hnone : (resetPassword env io m token newPassword s).1.refreshToken = none ∧
        (resetPassword env io m token newPassword s).1.accessToken = none := by
      unfold resetPassword
      repeat' split
      all_goals exact ⟨rfl, rfl⟩
    rw [hus]
    obtain ⟨hfind, -⟩ := saveUser_redeemed
      ({ user with
          password := io.hashedPassword, resetPasswordToken := none,
          resetPasswordExpires := none, loginAttempts := 0, failedLoginAttempts := 0,
          lockUntil := none, isLocked := false, unlockToken := none,
          unlockTokenExpires := none } : User) tok.payload.userId hmem hid rfl
    exact ⟨tok, user, _, htok, hf, hfind, hid, rfl, hnone.1, hnone.2⟩

/-- The witness of C17 (amended): the refresh token that
`lockedAliceWithToken` held, issued at 500, is replaced on her record by the
one issued at the unlock at 5000. -/
theorem unlock_rotates_refresh_token_witness :
    (unlockAccount sampleEnv (redeemAt 5000) {} (some aliceUnlockToken) "looking-glass"
      { users := [lockedAliceWithToken, root] }).1.status = 200 ∧
    (∃ tok user final, some aliceUnlockToken = some tok ∧
      findLockedByToken [lockedAliceWithToken, root] tok.payload.userId tok.payload.email tok
        = some user ∧
      findById (unlockAccount sampleEnv (redeemAt 5000) {} (some aliceUnlockToken) "looking-glass"
        { users := [lockedAliceWithToken, root] }).2.users (.str tok.payload.userId) = some final ∧
      final._id = tok.payload.userId ∧
      final.refreshToken
        = some (generateRefreshToken sampleEnv (redeemAt 5000).tStamp (.str tok.payload.userId)) ∧
      (unlockAccount sampleEnv (redeemAt 5000) {} (some aliceUnlockToken) "looking-glass"
        { users := [lockedAliceWithToken, root] }).1.refreshToken = final.refreshToken ∧
      ∀ old : Jwt, old.iat < (redeemAt 5000).tStamp / 1000 → final.refreshToken ≠ some old) ∧
    lockedAliceWithToken.refreshToken = some (generateRefreshToken sampleEnv 500 (.str alice._id)) ∧
    (findById (unlockAccount sampleEnv (redeemAt 5000) {} (some aliceUnlockToken) "looking-glass"
        { users := [lockedAliceWithToken, root] }).2.users (.str alice._id)).map
        (fun u => u.refreshToken)
      = some (some (generateRefreshToken sampleEnv 5000 (.str alice._id))) :=
  ⟨by decide,
   (unlock_rotates_refresh_token sampleEnv (redeemAt 5000) {} (some aliceUnlockToken)
      "looking-glass" { users := [lockedAliceWithToken, root] }).1 (by decide),
   by decide, by decide⟩


/-! ## Role claims and the admin branches of `login` -/

/-- C18. For a user id other than the sentinel whose credential record is
stored with a role `r` of the schema (`user`, `moderator` or `admin`),
`generateAccessToken` puts `role = r` in the claims whatever role the caller
passes: two issuances that differ only in the caller-supplied role carry the
same role claim, and are in fact the same token. -/
theorem access_token_role_from_store (env : Env) (users : List User) (now : Nat) (userId : JsId)
    (role1 role2 : String) (ad : AdditionalData) (user : User)
    (hsys : userId.strictEq (.str "admin-system-user") = false)
    (hf : findById users userId = some user)
    (hr : user.role ∈ ["user", "moderator", "admin"]) :
    (generateAccessToken env users now userId role1 ad).payload.role = some user.role ∧
    (generateAccessToken env users now userId role2 ad).payload.role = some user.role ∧
    generateAccessToken env users now userId role1 ad
      = generateAccessToken env users now userId role2 ad := by
  have hne : user.role ≠ "" := by
    intro h
    rw [h] at hr
    simp at hr
  have key : ∀ role : String, generateAccessToken env users now userId role ad
      = generateAccessToken env users now userId "" ad ∧
      (generateAccessToken env users now userId role ad).payload.role = some user.role := by
    intro role
    unfold generateAccessToken jwtSign
    simp only [hsys, hf, jsOr, hne, Bool.false_eq_true, if_false]
    constructor
    · first | rfl | trivial
    · split_ifs <;> split <;> rfl
  exact ⟨(key role1).2, (key role2).2, (key role1).1.trans (key role2).1.symm⟩

/-- The witness of C18: a token asked for `alice` with the role `admin`
carries her stored role `user`. -/
theorem access_token_role_from_store_witness :
    findById [alice, root] (.str alice._id) = some alice ∧
    (generateAccessToken sampleEnv [alice, root] 1000 (.str alice._id) "admin" {}).payload.role
      = some "user" :=
  ⟨by decide,
   (access_token_role_from_store sampleEnv [alice, root] 1000 (.str alice._id) "admin" "user" {}
      alice (by decide) (by decide) (by decide)).1⟩


theorem login_systemAdmin (env : Env) (io : LoginIO) (m : ReqMeta)
    (username password captchaToken : String) (s : Server)
    (hu : username = env.adminEmail) (hne : username ≠ "") (hp : password ≠ "") :
    login env io m username password captchaToken s = loginSystemAdmin env io m password s := by
  subst hu
  unfold login
  simp [hne, hp]

/-- C19, counterexample. The request carries the configured system-admin
email and an empty password, which is not the configured secret: `login`
answers 400 `Please enter the username and password` from its input
validation, not 401 `Invalid credentials`, and the state is unchanged. -/
theorem system_admin_login_counterexample :
    "admin@yourdomain.com" = sampleEnv.adminEmail ∧ "" ≠ sampleEnv.adminPassword ∧
    (login sampleEnv (loginAt 1000) {} "admin@yourdomain.com" "" ""
      { users := [alice, root] }).1
      = { status := 400, message := "Please enter the username and password" } ∧
    (login sampleEnv (loginAt 1000) {} "admin@yourdomain.com" "" ""
      { users := [alice, root] }).2 = { users := [alice, root] } := by
  decide

/-- C19, amended. When the submitted identifier is the configured
system-admin email and a non-empty password is submitted, `login` compares
the password with the configured secret and nothing else decides the outcome:
the response is the same for every captcha token and every server state.
With the secret the response is 200 `Admin login successful` without an OTP
request, carrying the access token signed at `tStamp` under the access secret
with the configured lifetime, whose claims are the user id
`admin-system-user`, type `access`, role `admin`, the admin email and
`isSystemAdmin = true` (so `verifyAccessToken` accepts it until it expires),
and the refresh token signed under the refresh secret for the same user id; a
session `session_admin-system-user_<tSession>` is registered and nothing else
of the state changes.  With any other password the response is 401
`Invalid credentials` with no token and the state is unchanged.  In both cases
the credential store and the activity log are unchanged. -/
theorem system_admin_login (env : Env) (io : LoginIO) (m : ReqMeta)
    (username password captchaToken : String) (s : Server)
    (hu : username = env.adminEmail) (hne : username ≠ "") (hp : password ≠ "") :
    (password = env.adminPassword →
      (login env io m username password captchaToken s).1
        = { status := 200, message := "Admin login successful", success := some true,
            requiresOTP := false,
            accessToken := some
              { payload := { userId := "admin-system-user", type := "access",
                             role := some "admin", email := some env.adminEmail,
                             isSystemAdmin := some true },
                key := env.jwtSecret, iat := io.tStamp / 1000,
                exp := io.tStamp / 1000 + env.jwtExpire },
            refreshToken := some
              { payload := { userId := "admin-system-user", type := "refresh" },
                key := env.jwtRefreshSecret, iat := io.tStamp / 1000,
                exp := io.tStamp / 1000 + env.jwtRefreshExpire } } ∧
      (∀ now : Nat, now / 1000 < io.tStamp / 1000 + env.jwtExpire →
        ∃ access : Jwt,
          (login env io m username password captchaToken s).1.accessToken = some access ∧
          verifyAccessToken env now access
            = .ok { userId := "admin-system-user", type := "access", role := some "admin",
                    email := some env.adminEmail, isSystemAdmin := some true }) ∧
      (login env io m username password captchaToken s).2
        = { s with
            sessions := addSession s.sessions io.tSession
              (sessionIdOf "admin-system-user" io.tSession)
              { userId := .str "admin-system-user",
                user := some { _id := .str "admin-system-user", email := env.adminEmail,
                               name := env.adminName, username := env.adminEmail },
                ipAddress := jsOr m.ip "Unknown", loginTime := io.tSession,
                lastActivity := io.tSession, status := "active",
                userAgent := jsOr m.userAgent "Unknown" } }) ∧
    (password ≠ env.adminPassword →
      (login env io m username password captchaToken s).1
        = { status := 401, message := "Invalid credentials", success := some false } ∧
      (login env io m username password captchaToken s).2 = s) ∧
    (login env io m username password captchaToken s).2.users = s.users ∧
    (login env io m username password captchaToken s).2.activities = s.activities ∧
    (∀ (captcha2 : String) (s2 : Server),
      (login env io m username password captcha2 s2).1
        = (login env io m username password captchaToken s).1) := by
  have hrw : ∀ (c : String) (t : Server),
      login env io m username password c t = loginSystemAdmin env io m password t :=
    fun c t => login_systemAdmin env io m username password c t hu hne hp
  have hemail : env.adminEmail ≠ "" := by rw [← hu]; exact hne
  simp only [hrw]
  by_cases hpw : password = env.adminPassword
  · have hresp : (loginSystemAdmin env io m password s).1
        = { status := 200, message := "Admin login successful", success := some true,
            requiresOTP := false,
            accessToken := some
              { payload := { userId := "admin-system-user", type := "access",
                             role := some "admin", email := some env.adminEmail,
                             isSystemAdmin := some true },
                key := env.jwtSecret, iat := io.tStamp / 1000,
                exp := io.tStamp / 1000 + env.jwtExpire },
            refreshToken := some
              { payload := { userId := "admin-system-user", type := "refresh" },
                key := env.jwtRefreshSecret, iat := io.tStamp / 1000,
                exp := io.tStamp / 1000 + env.jwtRefreshExpire } } := by
      simp [loginSystemAdmin, hpw, generateTokens, generateAccessToken, generateRefreshToken,
        jwtSign, JsId.strictEq, JsId.toStr, jsOrOpt, hemail]
    refine ⟨fun _ => ⟨hresp, ?_, ?_⟩, fun h => absurd hpw h, ?_, ?_, ?_⟩
    · intro now hnow
      rw [hresp]
      refine ⟨_, rfl, ?_⟩
      have hnot : ¬ io.tStamp / 1000 + env.jwtExpire ≤ now / 1000 := by omega
      simp [verifyAccessToken, verifyTyped, jwtVerify, hnot]
    · simp [loginSystemAdmin, hpw]
    · simp [loginSystemAdmin, hpw]
    · simp [loginSystemAdmin, hpw]
    · intro _ s2
      simp [loginSystemAdmin, hpw, generateTokens, generateAccessToken, generateRefreshToken,
        JsId.strictEq]
  · refine ⟨fun h => absurd h hpw, fun _ => ?_, ?_, ?_, ?_⟩
    · simp [loginSystemAdmin, hpw]
    · simp [loginSystemAdmin, hpw]
    · simp [loginSystemAdmin, hpw]
    · intro _ s2
      simp [loginSystemAdmin, hpw]

/-- The witness of C19 (amended): the configured admin email with the
configured secret at 1000; the access token is accepted at 2000, and the
tracker holds the admin session. -/
theorem system_admin_login_witness :
    "admin@yourdomain.com" = sampleEnv.adminEmail ∧
    (login sampleEnv (loginAt 1000) {} "admin@yourdomain.com" "secureAdminPassword123!" ""
      { users := [alice, root] }).1.status = 200 ∧
    (∃ access : Jwt,
      (login sampleEnv (loginAt 1000) {} "admin@yourdomain.com" "secureAdminPassword123!" ""
        { users := [alice, root] }).1.accessToken = some access ∧
      verifyAccessToken sampleEnv 2000 access
        = .ok { userId := "admin-system-user", type := "access", role := some "admin",
                email := some sampleEnv.adminEmail, isSystemAdmin := some true }) ∧
    (login sampleEnv (loginAt 1000) {} "admin@yourdomain.com" "secureAdminPassword123!" ""
      { users := [alice, root] }).2.users = [alice, root] ∧
    (login sampleEnv (loginAt 1000) {} "admin@yourdomain.com" "secureAdminPassword123!" ""
      { users := [alice, root] }).2.sessions.map Prod.fst = ["session_admin-system-user_1000"] :=
  have h := system_admin_login sampleEnv (loginAt 1000) {} "admin@yourdomain.com"
    "secureAdminPassword123!" "" { users := [alice, root] } (by decide) (by decide) (by decide)
  ⟨by decide, by decide, (h.1 (by decide)).2.1 2000 (by decide), h.2.2.1, by decide⟩


/-- C20, the code at the failing input. The stored role-admin account `root`
(`failedLoginAttempts = 0`), addressed by its email with a passing captcha,
receives a login with a wrong password: the answer is 401 and the stored
`failedLoginAttempts` is still 0; after three such logins in a row the record
is still the same, neither counted nor locked, and a fourth login with the
correct password is answered 200 with tokens.  The same three wrong passwords
for the regular account `alice` count 1, 2, 3 and lock her.  The role-admin
branch does read the lock and does reset the counter: a locked `root` with the
correct password is answered 423, and a `root` stored with two failed attempts
has `failedLoginAttempts = 0` after a correct password. -/
theorem admin_branch_never_counts :
    root.role = "admin" ∧ root.failedLoginAttempts = 0 ∧
    bcryptCompare sampleEnv "guess" root.password = some false ∧
    (login sampleEnv (loginAt 1000) {} "root@example.com" "guess" "valid-captcha"
      { users := [root, alice] }).1.status = 401 ∧
    ((login sampleEnv (loginAt 1000) {} "root@example.com" "guess" "valid-captcha"
      { users := [root, alice] }).2.users.map
        (fun u => (u.username, u.failedLoginAttempts, u.isLocked, u.lockUntil)))
      = [("root", 0, false, none), ("alice", 0, false, none)] ∧
    ((login sampleEnv (loginAt 3000) {} "root@example.com" "guess" "valid-captcha"
      (login sampleEnv (loginAt 2000) {} "root@example.com" "guess" "valid-captcha"
        (login sampleEnv (loginAt 1000) {} "root@example.com" "guess" "valid-captcha"
          { users := [root, alice] }).2).2).2.users.map
        (fun u => (u.username, u.failedLoginAttempts, u.isLocked, u.lockUntil)))
      = [("root", 0, false, none), ("alice", 0, false, none)] ∧
    ((login sampleEnv (loginAt 4000) {} "root@example.com" "toor" "valid-captcha"
      (login sampleEnv (loginAt 3000) {} "root@example.com" "guess" "valid-captcha"
        (login sampleEnv (loginAt 2000) {} "root@example.com" "guess" "valid-captcha"
          (login sampleEnv (loginAt 1000) {} "root@example.com" "guess" "valid-captcha"
            { users := [root, alice] }).2).2).2).1.status = 200 ∧
     (login sampleEnv (loginAt 4000) {} "root@example.com" "toor" "valid-captcha"
      (login sampleEnv (loginAt 3000) {} "root@example.com" "guess" "valid-captcha"
        (login sampleEnv (loginAt 2000) {} "root@example.com" "guess" "valid-captcha"
          (login sampleEnv (loginAt 1000) {} "root@example.com" "guess" "valid-captcha"
            { users := [root, alice] }).2).2).2).1.accessToken.isSome = true) ∧
    ((login sampleEnv (loginAt 3000) {} "alice" "guess" "valid-captcha"
      (login sampleEnv (loginAt 2000) {} "alice" "guess" "valid-captcha"
        (login sampleEnv (loginAt 1000) {} "alice" "guess" "valid-captcha"
          { users := [root, alice] }).2).2).2.users.map
        (fun u => (u.username, u.failedLoginAttempts, u.isLocked, u.lockUntil)))
      = [("root", 0, false, none), ("alice", 3, true, some 1803000)] ∧
    (login sampleEnv (loginAt 1000) {} "root@example.com" "toor" "valid-captcha"
      { users := [lockedRoot, alice] }).1.status = 423 ∧
    ((login sampleEnv (loginAt 1000) {} "root@example.com" "toor" "valid-captcha"
      { users := [{ root with failedLoginAttempts := 2 }, alice] }).2.users.map
        (fun u => (u.username, u.failedLoginAttempts)))
      = [("root", 0), ("alice", 0)] := by
  decide


/-! ## Reconciliation of active sessions -/

theorem mapSet_fst (m : SessionMap) (k : String) (v : Session) :
    (mapSet m k v).map Prod.fst =
      if m.any (fun e => e.1 == k) then m.map Prod.fst else m.map Prod.fst ++ [k] := by
  unfold mapSet
  by_cases h : m.any (fun e => e.1 == k) = true
  · rw [if_pos h, if_pos h, List.map_map]
    apply List.map_congr_left
    intro e _
    by_cases he : (e.1 == k) = true
    · simp only [Function.comp, he, if_true]
      exact (beq_iff_eq.mp he).symm
    · simp [Function.comp, he]
  · rw [if_neg h, if_neg h]
    simp

theorem any_key_iff (m : SessionMap) (k : String) :
    m.any (fun e => e.1 == k) = true ↔ k ∈ m.map Prod.fst := by
  simp only [List.any_eq_true, List.mem_map, beq_iff_eq]

theorem mem_mapSet_keys (m : SessionMap) (k k2 : String) (v : Session) :
    k2 ∈ (mapSet m k v).map Prod.fst ↔ k2 = k ∨ k2 ∈ m.map Prod.fst := by
  rw [mapSet_fst]
  split_ifs with h
  · constructor
    · intro h2; exact Or.inr h2
    · rintro (rfl | h2)
      · exact (any_key_iff m _).mp h
      · exact h2
  · simp [or_comm]

theorem mapSet_nodup (m : SessionMap) (k : String) (v : Session)
    (h : (m.map Prod.fst).Nodup) : ((mapSet m k v).map Prod.fst).Nodup := by
  rw [mapSet_fst]
  split_ifs with hk
  · exact h
  · rw [List.nodup_append]
    refine ⟨h, List.nodup_singleton k, ?_⟩
    intro a ha hb
    rw [List.mem_singleton] at hb
    subst hb
    exact hk ((any_key_iff m _).mpr ha)

theorem mem_mapSet {m : SessionMap} {k : String} {v : Session} {e : String × Session}
    (h : e ∈ mapSet m k v) : e = (k, v) ∨ e ∈ m := by
  unfold mapSet at h
  split_ifs at h with hk
  · rw [List.mem_map] at h
    obtain ⟨x, hx, rfl⟩ := h
    split_ifs
    · exact Or.inl rfl
    · exact Or.inr hx
  · rw [List.mem_append, List.mem_singleton] at h
    exact h.symm

theorem mem_of_getSession {m : SessionMap} {k : String} {v : Session}
    (h : getSession m k = some v) : (k, v) ∈ m := by
  unfold getSession at h
  cases hf : m.find? (fun e => e.1 == k) with
  | none => simp [hf] at h
  | some e =>
    simp only [hf, Option.map_some', Option.some.injEq] at h
    have hk := List.find?_some hf
    have hm := List.mem_of_find?_eq_some hf
    rw [beq_iff_eq] at hk
    subst h
    rw [← hk]
    exact hm

theorem getSession_cons (e : String × Session) (rest : SessionMap) (k : String) :
    getSession (e :: rest) k = if (e.1 == k) = true then some e.2 else getSession rest k := by
  unfold getSession
  rw [List.find?_cons]
  by_cases h : (e.1 == k) = true
  · simp [h]
  · simp [h]

theorem mapSet_cons (e : String × Session) (rest : SessionMap) (k : String) (v : Session) :
    mapSet (e :: rest) k v =
      if (e.1 == k) = true then
        (k, v) :: rest.map (fun x => if (x.1 == k) = true then (k, v) else x)
      else e :: mapSet rest k v := by
  unfold mapSet
  by_cases he : (e.1 == k) = true
  · simp only [List.any_cons, he, Bool.true_or, if_true, List.map_cons]
  · by_cases hr : rest.any (fun x => x.1 == k) = true
    · simp only [List.any_cons, he, hr, Bool.false_or, if_true, List.map_cons,
        Bool.false_eq_true, if_false]
    · simp only [List.any_cons, he, hr, Bool.false_or, Bool.false_eq_true, if_false,
        List.cons_append]

theorem getSession_mapSet_self (m : SessionMap) (k : String) (v : Session) :
    getSession (mapSet m k v) k = some v := by
  induction m with
  | nil => simp [mapSet, getSession]
  | cons e rest ih =>
    rw [mapSet_cons]
    by_cases he : (e.1 == k) = true
    · rw [if_pos he, getSession_cons]
      simp
    · rw [if_neg he, getSession_cons, if_neg he]
      exact ih

theorem getSession_map_replace (m : SessionMap) (k k2 : String) (v : Session) (h : k2 ≠ k) :
    getSession (m.map (fun x => if (x.1 == k) = true then (k, v) else x)) k2 = getSession m k2 := by
  have hk : ¬ (k == k2) = true := by
    rw [beq_iff_eq]
    exact fun h2 => h h2.symm
  induction m with
  | nil => rfl
  | cons e rest ih =>
    rw [List.map_cons, getSession_cons, getSession_cons, ih]
    by_cases he : (e.1 == k) = true
    · have he2 : ¬ (e.1 == k2) = true := by
        rw [beq_iff_eq] at he ⊢
        rw [he]
        exact fun h2 => h h2.symm
      simp only [he, if_true]
      rw [if_neg hk, if_neg he2]
    · simp only [he, Bool.false_eq_true, if_false]

theorem getSession_mapSet_ne (m : SessionMap) (k k2 : String) (v : Session) (h : k2 ≠ k) :
    getSession (mapSet m k v) k2 = getSession m k2 := by
  have hk : ¬ (k == k2) = true := by
    rw [beq_iff_eq]
    exact fun h2 => h h2.symm
  induction m with
  | nil =>
    unfold mapSet
    simp only [List.any_nil, Bool.false_eq_true, if_false, List.nil_append]
    rw [getSession_cons, if_neg hk]
  | cons e rest ih =>
    rw [mapSet_cons]
    by_cases he : (e.1 == k) = true
    · have he2 : ¬ (e.1 == k2) = true := by
        rw [beq_iff_eq] at he ⊢
        rw [he]
        exact fun h2 => h h2.symm
      rw [if_pos he, getSession_cons, if_neg hk, getSession_map_replace _ _ _ _ h,
        getSession_cons, if_neg he2]
    · rw [if_neg he, getSession_cons, getSession_cons, ih]


theorem reconcileStep_eq (users : List User) (logouts : List Activity) (now : Nat)
    (acc : SessionMap) (ref : Nat) (activity : Activity) :
    reconcileStep users logouts now acc ref activity =
      match findById users (.str activity.user) with
      | none => acc
      | some user =>
        if survives users logouts now activity = true ∧ newerKept acc activity = false then
          mapSet acc activity.user (sessionOfLogin ref user activity)
        else acc := by
  unfold reconcileStep survives newerKept sessionOfLogin
  cases hf : findById users (.str activity.user) with
  | none => rfl
  | some user =>
    simp only [Option.isSome_some, Bool.true_and, Bool.and_eq_true, Bool.not_eq_true',
      decide_eq_false_iff_not]
    by_cases h1 : derivedSessionId activity ∈ terminatedSessionIds logouts
    · simp [h1]
    · by_cases h2 : derivedSessionId activity ∈ userTerminations logouts activity.user
      · simp [h1, h2]
      · by_cases h3 : (match userLogout logouts activity.user with
            | some t => decide (activity.timestamp < t)
            | none => false) = true
        · simp [h1, h2, h3]
        · by_cases h4 : 2 * 60 * 60 * 1000 < now - activity.timestamp
          · simp [h1, h2, h3, h4]
          · by_cases h5 : (match getSession acc activity.user with
                | some existing => decide (activity.timestamp < existing.loginTime)
                | none => false) = true
            · simp [h1, h2, h3, h4, h5]
            · simp [h1, h2, h3, h4, h5]


theorem reconcileStep_provenance (users : List User) (logouts : List Activity) (now : Nat)
    (source : Activity → Prop) (acc : SessionMap) (ref : Nat) (activity : Activity)
    (hq : source activity)
    (hnd : (acc.map Prod.fst).Nodup)
    (hacc : ∀ e ∈ acc, DerivedFrom users logouts now source e) :
    ((reconcileStep users logouts now acc ref activity).map Prod.fst).Nodup ∧
    ∀ e ∈ reconcileStep users logouts now acc ref activity,
      DerivedFrom users logouts now source e := by
  rw [reconcileStep_eq]
  cases hf : findById users (.str activity.user) with
  | none => exact ⟨hnd, hacc⟩
  | some user =>
    simp only
    split_ifs with hc
    · refine ⟨mapSet_nodup _ _ _ hnd, ?_⟩
      intro e he
      rcases mem_mapSet he with rfl | he
      · exact ⟨activity, hq, hc.1, rfl, rfl, rfl, rfl, rfl⟩
      · exact hacc e he
    · exact ⟨hnd, hacc⟩

theorem reconcile_fold_provenance (users : List User) (logouts : List Activity) (now base : Nat)
    (source : Activity → Prop) :
    ∀ (l : List (Nat × Activity)) (acc : SessionMap),
      (∀ p ∈ l, source p.2) →
      (acc.map Prod.fst).Nodup →
      (∀ e ∈ acc, DerivedFrom users logouts now source e) →
      ((l.foldl (fun acc e => reconcileStep users logouts now acc (base + e.1) e.2) acc).map
          Prod.fst).Nodup ∧
      ∀ e ∈ l.foldl (fun acc e => reconcileStep users logouts now acc (base + e.1) e.2) acc,
        DerivedFrom users logouts now source e := by
  intro l
  induction l with
  | nil => intro acc _ hnd hacc; exact ⟨hnd, hacc⟩
  | cons p rest ih =>
    intro acc hl hnd hacc
    rw [List.foldl_cons]
    have hstep := reconcileStep_provenance users logouts now source acc (base + p.1) p.2
      (hl p (List.mem_cons_self _ _)) hnd hacc
    exact ih _ (fun q hq => hl q (List.mem_cons_of_mem _ hq)) hstep.1 hstep.2

theorem reconcileStep_covered_mono (users : List User) (logouts : List Activity) (now : Nat)
    (acc : SessionMap) (ref : Nat) (activity : Activity) (userId : String) (t : Nat)
    (h : Covered acc userId t) :
    Covered (reconcileStep users logouts now acc ref activity) userId t := by
  rw [reconcileStep_eq]
  cases hf : findById users (.str activity.user) with
  | none => exact h
  | some user =>
    simp only
    split_ifs with hc
    · by_cases hu : userId = activity.user
      · subst hu
        obtain ⟨sess, hs, ht⟩ := h
        refine ⟨_, getSession_mapSet_self _ _ _, ?_⟩
        have hn := hc.2
        unfold newerKept at hn
        rw [hs] at hn
        simp only [decide_eq_false_iff_not, not_lt] at hn
        show t ≤ activity.timestamp
        omega
      · obtain ⟨sess, hs, ht⟩ := h
        exact ⟨sess, by rw [getSession_mapSet_ne _ _ _ _ hu]; exact hs, ht⟩
    · exact h

theorem reconcileStep_covers (users : List User) (logouts : List Activity) (now : Nat)
    (acc : SessionMap) (ref : Nat) (activity : Activity)
    (hs : survives users logouts now activity = true) :
    Covered (reconcileStep users logouts now acc ref activity) activity.user
      activity.timestamp := by
  rw [reconcileStep_eq]
  have hsome : (findById users (.str activity.user)).isSome = true := by
    unfold survives at hs
    simp only [Bool.and_eq_true] at hs
    exact hs.1.1.1.1
  cases hf : findById users (.str activity.user) with
  | none => rw [hf] at hsome; simp at hsome
  | some user =>
    simp only
    by_cases hn : newerKept acc activity = false
    · rw [if_pos ⟨hs, hn⟩]
      exact ⟨_, getSession_mapSet_self _ _ _, Nat.le_refl _⟩
    · rw [if_neg (fun hc => hn hc.2)]
      unfold newerKept at hn
      cases hg : getSession acc activity.user with
      | none => rw [hg] at hn; simp at hn
      | some existing =>
        rw [hg] at hn
        simp only [decide_eq_false_iff_not, not_not] at hn
        exact ⟨existing, hg, Nat.le_of_lt hn⟩

theorem reconcile_fold_covers (users : List User) (logouts : List Activity) (now base : Nat) :
    ∀ (l : List (Nat × Activity)) (acc : SessionMap),
      (∀ userId t, Covered acc userId t →
        Covered (l.foldl (fun acc e => reconcileStep users logouts now acc (base + e.1) e.2) acc)
          userId t) ∧
      (∀ p ∈ l, survives users logouts now p.2 = true →
        Covered (l.foldl (fun acc e => reconcileStep users logouts now acc (base + e.1) e.2) acc)
          p.2.user p.2.timestamp) := by
  intro l
  induction l with
  | nil =>
    intro acc
    exact ⟨fun _ _ h => h, fun p hp => absurd hp (List.not_mem_nil p)⟩
  | cons p rest ih =>
    intro acc
    rw [List.foldl_cons]
    obtain ⟨ih1, ih2⟩ := ih (reconcileStep users logouts now acc (base + p.1) p.2)
    refine ⟨fun u t h => ih1 u t (reconcileStep_covered_mono _ _ _ _ _ _ _ _ h), ?_⟩
    intro q hq hs
    rcases List.mem_cons.mp hq with rfl | hq
    · exact ih1 _ _ (reconcileStep_covers _ _ _ _ _ _ hs)
    · exact ih2 q hq hs


theorem mem_loginActivities (log : List Activity) (cutoff : Nat) (a : Activity) :
    a ∈ loginActivities log cutoff ↔
      a ∈ log ∧ a.action ∈ loginActions ∧ cutoff ≤ a.timestamp := by
  unfold loginActivities
  rw [(List.perm_insertionSort _ _).mem_iff, List.mem_filter]
  simp

theorem mem_logoutActivities (log : List Activity) (cutoff : Nat) (a : Activity) :
    a ∈ logoutActivities log cutoff ↔
      a ∈ log ∧ a.action ∈ logoutActions ∧ cutoff ≤ a.timestamp := by
  unfold logoutActivities
  rw [List.mem_filter]
  simp

theorem mem_activeSessions (io : SessionsIO) (s : Server) (sess : Session) :
    sess ∈ activeSessions io s ↔
      ∃ k, (k, sess) ∈ (loginActivities s.activities (io.tQuery - 24 * 60 * 60 * 1000)).enum.foldl
        (fun acc e => reconcileStep s.users
          (logoutActivities s.activities (io.tQuery - 24 * 60 * 60 * 1000)) io.tLoop acc
          (s.nextRef + e.1) e.2) [] := by
  unfold activeSessions
  simp only
  rw [(List.perm_insertionSort _ _).mem_iff, List.mem_map]
  constructor
  · rintro ⟨e, he, rfl⟩; exact ⟨e.1, he⟩
  · rintro ⟨k, hk⟩; exact ⟨(k, sess), hk, rfl⟩

/-- The facts about the map built by the loop of `GET /sessions`: its keys
are distinct, each entry is built from a surviving login event of the
window, and each surviving login event of the window is covered by an entry
of its user that is at least as recent. -/
theorem reconcile_map_spec (io : SessionsIO) (s : Server) :
    (((loginActivities s.activities (io.tQuery - 24 * 60 * 60 * 1000)).enum.foldl
        (fun acc e => reconcileStep s.users
          (logoutActivities s.activities (io.tQuery - 24 * 60 * 60 * 1000)) io.tLoop acc
          (s.nextRef + e.1) e.2) []).map Prod.fst).Nodup ∧
    (∀ e ∈ (loginActivities s.activities (io.tQuery - 24 * 60 * 60 * 1000)).enum.foldl
        (fun acc e => reconcileStep s.users
          (logoutActivities s.activities (io.tQuery - 24 * 60 * 60 * 1000)) io.tLoop acc
          (s.nextRef + e.1) e.2) [],
      DerivedFrom s.users (logoutActivities s.activities (io.tQuery - 24 * 60 * 60 * 1000))
        io.tLoop
        (fun a => a ∈ s.activities ∧ a.action ∈ loginActions ∧
          io.tQuery - 24 * 60 * 60 * 1000 ≤ a.timestamp) e) ∧
    (∀ a, a ∈ s.activities → a.action ∈ loginActions →
      io.tQuery - 24 * 60 * 60 * 1000 ≤ a.timestamp →
      survives s.users (logoutActivities s.activities (io.tQuery - 24 * 60 * 60 * 1000))
        io.tLoop a = true →
      Covered ((loginActivities s.activities (io.tQuery - 24 * 60 * 60 * 1000)).enum.foldl
        (fun acc e => reconcileStep s.users
          (logoutActivities s.activities (io.tQuery - 24 * 60 * 60 * 1000)) io.tLoop acc
          (s.nextRef + e.1) e.2) []) a.user a.timestamp) := by
  have hprov := reconcile_fold_provenance s.users
    (logoutActivities s.activities (io.tQuery - 24 * 60 * 60 * 1000)) io.tLoop s.nextRef
    (fun a => a ∈ s.activities ∧ a.action ∈ loginActions ∧
      io.tQuery - 24 * 60 * 60 * 1000 ≤ a.timestamp)
    (loginActivities s.activities (io.tQuery - 24 * 60 * 60 * 1000)).enum []
    (fun p hp => (mem_loginActivities _ _ _).mp (List.snd_mem_of_mem_enum hp))
    List.nodup_nil (fun e he => absurd he (List.not_mem_nil e))
  have hcov := (reconcile_fold_covers s.users
    (logoutActivities s.activities (io.tQuery - 24 * 60 * 60 * 1000)) io.tLoop s.nextRef
    (loginActivities s.activities (io.tQuery - 24 * 60 * 60 * 1000)).enum []).2
  refine ⟨hprov.1, hprov.2, ?_⟩
  intro a ha hact hwin hs
  have hmem : a ∈ loginActivities s.activities (io.tQuery - 24 * 60 * 60 * 1000) :=
    (mem_loginActivities _ _ _).mpr ⟨ha, hact, hwin⟩
  rw [← List.enum_map_snd (loginActivities s.activities (io.tQuery - 24 * 60 * 60 * 1000)),
    List.mem_map] at hmem
  obtain ⟨p, hp, rfl⟩ := hmem
  exact hcov p hp hs


theorem userLogout_fold_ge (userId : String) :
    ∀ (logouts : List Activity) (init : Option Nat),
      (∀ t0, init = some t0 → ∃ t,
        logouts.foldl (fun existing l =>
          if l.user = userId ∧ l.action ≠ "ADMIN_SESSION_TERMINATE" then
            (match existing with
             | none => some l.timestamp
             | some t => if t < l.timestamp then some l.timestamp else some t)
          else existing) init = some t ∧ t0 ≤ t) ∧
      (∀ l ∈ logouts, l.user = userId → l.action ≠ "ADMIN_SESSION_TERMINATE" → ∃ t,
        logouts.foldl (fun existing l =>
          if l.user = userId ∧ l.action ≠ "ADMIN_SESSION_TERMINATE" then
            (match existing with
             | none => some l.timestamp
             | some t => if t < l.timestamp then some l.timestamp else some t)
          else existing) init = some t ∧ l.timestamp ≤ t) := by
  intro logouts
  induction logouts with
  | nil =>
    intro init
    exact ⟨fun t0 h => ⟨t0, h, Nat.le_refl _⟩, fun l hl => absurd hl (List.not_mem_nil l)⟩
  | cons x rest ih =>
    intro init
    rw [List.foldl_cons]
    constructor
    · intro t0 h0
      subst h0
      by_cases hc : x.user = userId ∧ x.action ≠ "ADMIN_SESSION_TERMINATE"
      · rw [if_pos hc]
        by_cases hlt : t0 < x.timestamp
        · obtain ⟨t, ht, hle⟩ := (ih (some x.timestamp)).1 x.timestamp (by simp)
          refine ⟨t, ?_, by omega⟩
          simpa [hlt] using ht
        · obtain ⟨t, ht, hle⟩ := (ih (some t0)).1 t0 rfl
          refine ⟨t, ?_, hle⟩
          simpa [hlt] using ht
      · rw [if_neg hc]
        exact (ih (some t0)).1 t0 rfl
    · intro l hl hu ha
      rcases List.mem_cons.mp hl with rfl | hl
      · rw [if_pos ⟨hu, ha⟩]
        cases init with
        | none => exact (ih (some l.timestamp)).1 l.timestamp rfl
        | some t0 =>
          by_cases hlt : t0 < l.timestamp
          · obtain ⟨t, ht, hle⟩ := (ih (some l.timestamp)).1 l.timestamp rfl
            exact ⟨t, by simpa [hlt] using ht, hle⟩
          · obtain ⟨t, ht, hle⟩ := (ih (some t0)).1 t0 rfl
            exact ⟨t, by simpa [hlt] using ht, by omega⟩
      · exact (ih _).2 l hl hu ha

theorem userLogout_ge (logouts : List Activity) (userId : String) (l : Activity)
    (hl : l ∈ logouts) (hu : l.user = userId) (ha : l.action ≠ "ADMIN_SESSION_TERMINATE") :
    ∃ t, userLogout logouts userId = some t ∧ l.timestamp ≤ t :=
  (userLogout_fold_ge userId logouts none).2 l hl hu ha

theorem survives_unpack {users : List User} {logouts : List Activity} {now : Nat} {a : Activity}
    (h : survives users logouts now a = true) :
    (findById users (.str a.user)).isSome = true ∧
    derivedSessionId a ∉ terminatedSessionIds logouts ∧
    (∀ t, userLogout logouts a.user = some t → t ≤ a.timestamp) ∧
    now - a.timestamp ≤ 2 * 60 * 60 * 1000 := by
  unfold survives at h
  simp only [Bool.and_eq_true, Bool.not_eq_true', decide_eq_false_iff_not, not_lt] at h
  obtain ⟨⟨⟨⟨h1, h2⟩, -⟩, h4⟩, h5⟩ := h
  refine ⟨h1, h2, ?_, h5⟩
  intro t ht
  rw [ht] at h4
  simpa using h4

theorem plain_logout_action {l : Activity} (h : l.action = "LOGOUT" ∨ l.action = "FORCE_LOGOUT") :
    l.action ∈ logoutActions ∧ l.action ≠ "ADMIN_SESSION_TERMINATE" := by
  rcases h with h | h <;> rw [h] <;> exact ⟨by decide, by decide⟩

/-- C12. Every session returned by `GET /sessions` is derived from a login
event of the 24-hour window such that no plain logout (`LOGOUT` or
`FORCE_LOGOUT`) of the same user in the log has a later timestamp, and whose
login time is at most two hours before the clock value of the loop.  A login
event for which a later plain logout of the same user exists, or which is
older than two hours, contributes no session: no returned session has its
user and login time. -/
theorem active_sessions_from_live_logins (io : SessionsIO) (s : Server) :
    (∀ sess ∈ (getSessions io s).1.sessions, ∃ a ∈ s.activities,
      a.action ∈ loginActions ∧ io.tQuery - 24 * 60 * 60 * 1000 ≤ a.timestamp ∧
      sess._id = derivedSessionId a ∧ sess.userId = .str a.user ∧
      sess.loginTime = a.timestamp ∧
      (∀ l ∈ s.activities, (l.action = "LOGOUT" ∨ l.action = "FORCE_LOGOUT") →
        l.user = a.user → l.timestamp ≤ a.timestamp) ∧
      io.tLoop - a.timestamp ≤ 2 * 60 * 60 * 1000) ∧
    (∀ a ∈ s.activities, a.action ∈ loginActions →
      io.tQuery - 24 * 60 * 60 * 1000 ≤ a.timestamp →
      ((∃ l ∈ s.activities, (l.action = "LOGOUT" ∨ l.action = "FORCE_LOGOUT") ∧
          l.user = a.user ∧ a.timestamp < l.timestamp) ∨
        2 * 60 * 60 * 1000 < io.tLoop - a.timestamp) →
      ∀ sess ∈ (getSessions io s).1.sessions,
        ¬ (sess.userId = .str a.user ∧ sess.loginTime = a.timestamp)) := by
  have hfirst : ∀ sess ∈ (getSessions io s).1.sessions, ∃ a ∈ s.activities,
      a.action ∈ loginActions ∧ io.tQuery - 24 * 60 * 60 * 1000 ≤ a.timestamp ∧
      sess._id = derivedSessionId a ∧ sess.userId = .str a.user ∧
      sess.loginTime = a.timestamp ∧
      (∀ l ∈ s.activities, (l.action = "LOGOUT" ∨ l.action = "FORCE_LOGOUT") →
        l.user = a.user → l.timestamp ≤ a.timestamp) ∧
      io.tLoop - a.timestamp ≤ 2 * 60 * 60 * 1000 := by
    intro sess hsess
    have hsess2 : sess ∈ activeSessions io s := hsess
    obtain ⟨k, hk⟩ := (mem_activeSessions io s sess).mp hsess2
    obtain ⟨a, ⟨ha, hact, hwin⟩, hs, -, hid, huid, hlt, -⟩ := (reconcile_map_spec io s).2.1 _ hk
    obtain ⟨-, -, hlogout, htimeout⟩ := survives_unpack hs
    refine ⟨a, ha, hact, hwin, hid, huid, hlt, ?_, htimeout⟩
    intro l hl hplain hu
    by_cases hin : io.tQuery - 24 * 60 * 60 * 1000 ≤ l.timestamp
    · obtain ⟨hla, hne⟩ := plain_logout_action hplain
      obtain ⟨t, ht, hle⟩ := userLogout_ge _ a.user l
        ((mem_logoutActivities _ _ _).mpr ⟨hl, hla, hin⟩) hu hne
      have := hlogout t ht
      omega
    · omega
  refine ⟨hfirst, ?_⟩
  intro a _ _ _ hfail sess hsess hboth
  obtain ⟨b, _, _, _, _, hbuid, hbt, hblog, hbtime⟩ := hfirst sess hsess
  have hub : b.user = a.user := by
    have h := hbuid.symm.trans hboth.1
    injection h
  have htb : b.timestamp = a.timestamp := hbt.symm.trans hboth.2
  rcases hfail with ⟨l, hl, hplain, hu, hlater⟩ | hold
  · have := hblog l hl hplain (hu.trans hub.symm)
    omega
  · omega


/-- C13. `GET /sessions` returns at most one session per user: the user ids
of the returned sessions are pairwise distinct.  For every user with a
surviving login event in the window, the list holds a session of that user,
and it is the one derived from a surviving login of that user than which no
surviving login of that user is more recent. -/
theorem one_session_per_user (io : SessionsIO) (s : Server) :
    ((getSessions io s).1.sessions.map (fun x => x.userId)).Nodup ∧
    (∀ a ∈ s.activities, a.action ∈ loginActions →
      io.tQuery - 24 * 60 * 60 * 1000 ≤ a.timestamp →
      survives s.users (logoutActivities s.activities (io.tQuery - 24 * 60 * 60 * 1000))
        io.tLoop a = true →
      ∃ sess ∈ (getSessions io s).1.sessions, ∃ top ∈ s.activities,
        top.action ∈ loginActions ∧ io.tQuery - 24 * 60 * 60 * 1000 ≤ top.timestamp ∧
        survives s.users (logoutActivities s.activities (io.tQuery - 24 * 60 * 60 * 1000))
          io.tLoop top = true ∧
        top.user = a.user ∧ sess.userId = .str a.user ∧
        sess._id = derivedSessionId top ∧ sess.loginTime = top.timestamp ∧
        ∀ b ∈ s.activities, b.action ∈ loginActions →
          io.tQuery - 24 * 60 * 60 * 1000 ≤ b.timestamp →
          survives s.users (logoutActivities s.activities (io.tQuery - 24 * 60 * 60 * 1000))
            io.tLoop b = true →
          b.user = a.user → b.timestamp ≤ top.timestamp) := by
  obtain ⟨hnd, hprov, hcov⟩ := reconcile_map_spec io s
  constructor
  · show ((activeSessions io s).map (fun x => x.userId)).Nodup
    unfold activeSessions
    simp only
    rw [((List.perm_insertionSort _ _).map _).nodup_iff, List.map_map]
    have hmap : ∀ e ∈ (loginActivities s.activities (io.tQuery - 24 * 60 * 60 * 1000)).enum.foldl
        (fun acc e => reconcileStep s.users
          (logoutActivities s.activities (io.tQuery - 24 * 60 * 60 * 1000)) io.tLoop acc
          (s.nextRef + e.1) e.2) [],
        ((fun x : Session => x.userId) ∘ Prod.snd) e = (JsId.str ∘ Prod.fst) e := by
      intro e he
      obtain ⟨a, -, -, hk, -, huid, -, -⟩ := hprov e he
      simp only [Function.comp, huid, hk]
    rw [List.map_congr_left hmap, ← List.map_map]
    apply List.Nodup.map _ hnd
    intro x y hxy
    injection hxy
  · intro a ha hact hwin hs
    obtain ⟨sess, hget, hle⟩ := hcov a ha hact hwin hs
    have hmem := mem_of_getSession hget
    obtain ⟨top, ⟨htop, htact, htwin⟩, hts, hk, hid, huid, hlt, -⟩ := hprov _ hmem
    have hk2 : a.user = top.user := hk
    refine ⟨sess, (mem_activeSessions io s sess).mpr ⟨a.user, hmem⟩, top, htop, htact, htwin, hts,
      hk2.symm, by rw [huid, hk2], hid, hlt, ?_⟩
    intro b hb hbact hbwin hbs hbu
    obtain ⟨sess2, hget2, hle2⟩ := hcov b hb hbact hbwin hbs
    rw [hbu, hget] at hget2
    have h2 : sess = sess2 := Option.some.inj hget2
    rw [← h2] at hle2
    have hlt2 : sess.loginTime = top.timestamp := hlt
    omega

theorem addSession_fold_keys (terminated : List String) (now : Nat) :
    ∀ (l : List Session) (acc : SessionMap),
      (∀ x ∈ l, x._id ∉ terminated) →
      (∀ id, id ∈ (l.foldl (fun acc session =>
          if session._id ∈ terminated then acc
          else addSession acc now session._id
            { userId := session.userId, user := session.user, ipAddress := session.ipAddress,
              loginTime := session.loginTime, lastActivity := session.lastActivity,
              status := session.status, userAgent := session.userAgent }) acc).map Prod.fst ↔
        id ∈ acc.map Prod.fst ∨ id ∈ l.map (fun x => x._id)) ∧
      ((∀ e ∈ acc, e.2._id = e.1) →
        ∀ e ∈ l.foldl (fun acc session =>
          if session._id ∈ terminated then acc
          else addSession acc now session._id
            { userId := session.userId, user := session.user, ipAddress := session.ipAddress,
              loginTime := session.loginTime, lastActivity := session.lastActivity,
              status := session.status, userAgent := session.userAgent }) acc, e.2._id = e.1) := by
  intro l
  induction l with
  | nil =>
    intro acc _
    exact ⟨fun id => by simp, fun h => h⟩
  | cons x rest ih =>
    intro acc hl
    rw [List.foldl_cons]
    have hx : x._id ∉ terminated := hl x (List.mem_cons_self _ _)
    rw [if_neg hx]
    obtain ⟨ih1, ih2⟩ := ih (addSession acc now x._id
      { userId := x.userId, user := x.user, ipAddress := x.ipAddress,
        loginTime := x.loginTime, lastActivity := x.lastActivity,
        status := x.status, userAgent := x.userAgent })
      (fun y hy => hl y (List.mem_cons_of_mem _ hy))
    constructor
    · intro id
      rw [ih1 id]
      unfold addSession
      rw [mem_mapSet_keys, List.map_cons, List.mem_cons]
      constructor
      · rintro ((h | h) | h)
        · exact Or.inr (Or.inl h)
        · exact Or.inl h
        · exact Or.inr (Or.inr h)
      · rintro (h | h | h)
        · exact Or.inl (Or.inr h)
        · exact Or.inl (Or.inl h)
        · exact Or.inr h
    · intro hacc
      apply ih2
      intro e he
      unfold addSession at he
      rcases mem_mapSet he with rfl | he
      · rfl
      · exact hacc e he

theorem activeSessions_not_terminated (io : SessionsIO) (s : Server) :
    ∀ sess ∈ activeSessions io s,
      sess._id ∉ terminatedSessionIds
        (logoutActivities s.activities (io.tQuery - 24 * 60 * 60 * 1000)) := by
  intro sess hsess
  obtain ⟨k, hk⟩ := (mem_activeSessions io s sess).mp hsess
  obtain ⟨a, -, hs, -, hid, -⟩ := (reconcile_map_spec io s).2.1 _ hk
  rw [hid]
  exact (survives_unpack hs).2.1

/-- C14. After `GET /sessions`, the session ids held by the session manager
are exactly the ids of the returned list, every record is stored under its
own id, and neither the tracker contents nor the response depend on what the
tracker held before: the previous contents are gone. -/
theorem tracker_fully_replaced (io : SessionsIO) (s : Server) :
    (∀ id, id ∈ (getSessions io s).2.sessions.map Prod.fst ↔
      id ∈ (getSessions io s).1.sessions.map (fun x => x._id)) ∧
    (∀ e ∈ (getSessions io s).2.sessions, e.2._id = e.1) ∧
    (∀ prior : SessionMap,
      (getSessions io { s with sessions := prior }).2.sessions = (getSessions io s).2.sessions ∧
      (getSessions io { s with sessions := prior }).1 = (getSessions io s).1) := by
  have hfold := addSession_fold_keys
    (terminatedSessionIds (logoutActivities s.activities (io.tQuery - 24 * 60 * 60 * 1000)))
    io.tAdd (activeSessions io s) [] (activeSessions_not_terminated io s)
  refine ⟨?_, ?_, fun prior => ⟨rfl, rfl⟩⟩
  · intro id
    have h := hfold.1 id
    simp only [List.map_nil, List.not_mem_nil, false_or] at h
    exact h
  · exact hfold.2 (fun e he => absurd he (List.not_mem_nil e))


theorem splitUnderscore_ne_nil : ∀ cs : List Char, splitUnderscore cs ≠ [] := by
  intro cs
  induction cs with
  | nil => simp [splitUnderscore]
  | cons c rest ih =>
    unfold splitUnderscore
    cases h : splitUnderscore rest with
    | nil => simp
    | cons p ps => simp only; split_ifs <;> simp

theorem splitUnderscore_append (a b : List Char) (ha : '_' ∉ a) :
    splitUnderscore (a ++ '_' :: b) = a :: splitUnderscore b := by
  induction a with
  | nil =>
    rw [List.nil_append, splitUnderscore]
    cases h : splitUnderscore b with
    | nil => exact absurd h (splitUnderscore_ne_nil b)
    | cons p ps => simp
  | cons c rest ih =>
    have hc : c ≠ '_' := fun h => ha (by rw [h]; exact List.mem_cons_self _ _)
    have hrest : '_' ∉ rest := fun h => ha (List.mem_cons_of_mem _ h)
    rw [List.cons_append, splitUnderscore, ih hrest]
    simp [hc]

theorem underscore_not_mem_of_hex (u : String) (h : isObjectIdHex u = true) :
    '_' ∉ u.toList ∧ u.length = 24 := by
  unfold isObjectIdHex at h
  simp only [Bool.and_eq_true, beq_iff_eq, List.all_eq_true] at h
  refine ⟨?_, h.1⟩
  intro hmem
  have := h.2 '_' hmem
  revert this
  decide

theorem sessionIdOf_toList (u : String) (t : Nat) :
    (sessionIdOf u t).toList =
      "session".toList ++ '_' :: (u.toList ++ '_' :: (toString t).toList) := by
  unfold sessionIdOf
  simp only [String.toList, String.data_append]
  simp

theorem sessionIdOf_ne_empty (u : String) (t : Nat) : sessionIdOf u t ≠ "" := by
  intro h
  have hl := congrArg String.length h
  unfold sessionIdOf at hl
  simp only [String.length_append] at hl
  have h8 : "session_".length = 8 := by decide
  have h0 : "".length = 0 := by decide
  omega

/-- The handler `DELETE /sessions/:sessionId` on an id of the derived form
whose user part is an ObjectId hex: it answers 200 and appends the
termination event that carries the id. -/
theorem terminateSession_logs (now : Nat) (m : ReqMeta) (u : String) (t : Nat) (s : Server)
    (hu : isObjectIdHex u = true) :
    (terminateSession now m (sessionIdOf u t) s).1.status = 200 ∧
    (terminateSession now m (sessionIdOf u t) s).1.success = some true ∧
    (terminateSession now m (sessionIdOf u t) s).2.users = s.users ∧
    (terminateSession now m (sessionIdOf u t) s).2.activities = s.activities ++
      [{ user := u, action := "ADMIN_SESSION_TERMINATE", timestamp := now,
         ipAddress := jsOr m.ip "Unknown", userAgent := jsOr m.userAgent "Unknown",
         details := { targetUserId := some u, sessionId := some (sessionIdOf u t) } }] := by
  obtain ⟨hnot, hlen⟩ := underscore_not_mem_of_hex u hu
  have hparts : splitUnderscore (sessionIdOf u t).toList
      = "session".toList :: u.toList :: splitUnderscore (toString t).toList := by
    rw [sessionIdOf_toList, splitUnderscore_append _ _ (by decide),
      splitUnderscore_append _ _ hnot]
  have hthree : ¬ ("session".toList :: u.toList ::
      splitUnderscore (toString t).toList).length < 3 := by
    have := splitUnderscore_ne_nil (toString t).toList
    cases h : splitUnderscore (toString t).toList with
    | nil => exact absurd h this
    | cons p ps => simp
  have hmk : String.mk u.toList = u := rfl
  unfold terminateSession
  simp only [hparts, hthree, List.head?_cons, ne_eq, not_true_eq_false, or_self, if_false,
    List.getD_cons_succ, List.getD_cons_zero, hmk, hlen, hu, Bool.true_eq_false, and_self,
    true_and]

theorem mem_terminatedSessionIds (logouts : List Activity) (l : Activity) (id : String)
    (hl : l ∈ logouts) (ha : l.action = "ADMIN_SESSION_TERMINATE")
    (hid : l.details.sessionId = some id) (hne : id ≠ "") :
    id ∈ terminatedSessionIds logouts := by
  unfold terminatedSessionIds
  rw [List.mem_filterMap]
  exact ⟨l, hl, by simp [ha, hid, hne]⟩


theorem getSessions_tracker_keys (io : SessionsIO) (s : Server) (id : String) :
    id ∈ (getSessions io s).2.sessions.map Prod.fst ↔
      id ∈ (getSessions io s).1.sessions.map (fun x => x._id) := by
  have h := (addSession_fold_keys
    (terminatedSessionIds (logoutActivities s.activities (io.tQuery - 24 * 60 * 60 * 1000)))
    io.tAdd (activeSessions io s) [] (activeSessions_not_terminated io s)).1 id
  simp only [List.map_nil, List.not_mem_nil, false_or] at h
  exact h

theorem listed_id_derived (io : SessionsIO) (s : Server) (id : String)
    (h : id ∈ (getSessions io s).1.sessions.map (fun x => x._id)) :
    ∃ a ∈ s.activities, id = derivedSessionId a ∧
      id ∉ terminatedSessionIds
        (logoutActivities s.activities (io.tQuery - 24 * 60 * 60 * 1000)) := by
  rw [List.mem_map] at h
  obtain ⟨sess, hsess, rfl⟩ := h
  have hsess2 : sess ∈ activeSessions io s := hsess
  obtain ⟨k, hk⟩ := (mem_activeSessions io s sess).mp hsess2
  obtain ⟨a, ⟨ha, -, -⟩, -, -, hid, -⟩ := (reconcile_map_spec io s).2.1 _ hk
  exact ⟨a, ha, hid, activeSessions_not_terminated io s sess hsess2⟩

theorem terminated_id_excluded (io : SessionsIO) (s : Server) (t : Activity) (id : String)
    (ht : t ∈ s.activities) (ha : t.action = "ADMIN_SESSION_TERMINATE")
    (hwin : io.tQuery - 24 * 60 * 60 * 1000 ≤ t.timestamp)
    (hid : t.details.sessionId = some id) :
    id ∉ (getSessions io s).1.sessions.map (fun x => x._id) ∧
    id ∉ (getSessions io s).2.sessions.map Prod.fst := by
  have hlist : id ∉ (getSessions io s).1.sessions.map (fun x => x._id) := by
    intro hmem
    obtain ⟨a, -, hder, hnot⟩ := listed_id_derived io s id hmem
    have hne : id ≠ "" := by
      rw [hder]
      exact sessionIdOf_ne_empty _ _
    apply hnot
    apply mem_terminatedSessionIds _ t id _ ha hid hne
    exact (mem_logoutActivities _ _ _).mpr ⟨ht, by rw [ha]; decide, hwin⟩
  exact ⟨hlist, fun h => hlist ((getSessions_tracker_keys io s id).mp h)⟩

theorem terminateSession_activities_wf (now : Nat) (m : ReqMeta) (id : String) (s : Server)
    (hwf : ∀ a ∈ s.activities, isObjectIdHex a.user = true) :
    ∀ a ∈ (terminateSession now m id s).2.activities, isObjectIdHex a.user = true := by
  unfold terminateSession
  simp only
  split_ifs with h1 h2 h3 h4
  · exact hwf
  · exact hwf
  · exact hwf
  · exact hwf
  · intro a ha
    rw [List.mem_append, List.mem_singleton] at ha
    rcases ha with ha | rfl
    · exact hwf a ha
    · simpa using h4

theorem terminated_id_not_relisted (io2 : SessionsIO) (s1 : Server) (id : String) (tTerm : Nat)
    (m : ReqMeta) (hwf : ∀ a ∈ s1.activities, isObjectIdHex a.user = true)
    (hwin : io2.tQuery - 24 * 60 * 60 * 1000 ≤ tTerm) :
    id ∉ (getSessions io2 (terminateSession tTerm m id s1).2).1.sessions.map (fun x => x._id) ∧
    id ∉ (getSessions io2 (terminateSession tTerm m id s1).2).2.sessions.map Prod.fst := by
  have hlist : id ∉ (getSessions io2 (terminateSession tTerm m id s1).2).1.sessions.map
      (fun x => x._id) := by
    intro hmem
    obtain ⟨a, ha, hder, -⟩ := listed_id_derived io2 _ id hmem
    have hhex := terminateSession_activities_wf tTerm m id s1 hwf a ha
    obtain ⟨-, -, -, hlog⟩ := terminateSession_logs tTerm m a.user a.timestamp s1 hhex
    have hid : id = sessionIdOf a.user a.timestamp := hder
    rw [← hid] at hlog
    refine (terminated_id_excluded io2 _
      { user := a.user, action := "ADMIN_SESSION_TERMINATE", timestamp := tTerm,
        ipAddress := jsOr m.ip "Unknown", userAgent := jsOr m.userAgent "Unknown",
        details := { targetUserId := some a.user, sessionId := some id } }
      id (by rw [hlog]; simp) rfl hwin rfl).1 hmem
  exact ⟨hlist, fun h => hlist ((getSessions_tracker_keys io2 _ id).mp h)⟩

/-- C11. Whatever the activity log, neither the list returned by
`GET /sessions` nor the session manager after it holds a session whose id is
carried by an `ADMIN_SESSION_TERMINATE` event of the 24-hour window, whatever
other login events the same user has.  Hence, over a log whose entries
reference ObjectIds: after `DELETE /sessions/:sessionId` with any id, a
following `GET /sessions` whose window contains the termination neither lists
that id nor puts it in the session manager; and for the id of a session that
`GET /sessions` lists, the termination answers 200 with `success: true`. -/
theorem terminated_session_not_listed (io : SessionsIO) (s : Server) :
    (∀ t ∈ s.activities, t.action = "ADMIN_SESSION_TERMINATE" →
      io.tQuery - 24 * 60 * 60 * 1000 ≤ t.timestamp →
      ∀ id, t.details.sessionId = some id →
        id ∉ (getSessions io s).1.sessions.map (fun x => x._id) ∧
        id ∉ (getSessions io s).2.sessions.map Prod.fst) ∧
    ((∀ a ∈ s.activities, isObjectIdHex a.user = true) →
      ∀ (id : String) (tTerm : Nat) (m : ReqMeta) (io2 : SessionsIO),
        io2.tQuery - 24 * 60 * 60 * 1000 ≤ tTerm →
        id ∉ (getSessions io2 (terminateSession tTerm m id s).2).1.sessions.map
          (fun x => x._id) ∧
        id ∉ (getSessions io2 (terminateSession tTerm m id s).2).2.sessions.map Prod.fst) ∧
    ((∀ a ∈ s.activities, isObjectIdHex a.user = true) →
      ∀ id ∈ (getSessions io s).1.sessions.map (fun x => x._id),
      ∀ (tTerm : Nat) (m : ReqMeta) (io2 : SessionsIO),
        io2.tQuery - 24 * 60 * 60 * 1000 ≤ tTerm →
        (terminateSession tTerm m id (getSessions io s).2).1.status = 200 ∧
        (terminateSession tTerm m id (getSessions io s).2).1.success = some true ∧
        id ∉ (getSessions io2 (terminateSession tTerm m id (getSessions io s).2).2).1.sessions.map
          (fun x => x._id) ∧
        id ∉ (getSessions io2 (terminateSession tTerm m id (getSessions io s).2).2).2.sessions.map
          Prod.fst) := by
  refine ⟨?_, ?_, ?_⟩
  · intro t ht ha hwin id hid
    exact terminated_id_excluded io s t id ht ha hwin hid
  · intro hwf id tTerm m io2 hwin
    exact terminated_id_not_relisted io2 s id tTerm m hwf hwin
  · intro hwf id hlisted tTerm m io2 hwin
    obtain ⟨a, ha, hder, -⟩ := listed_id_derived io s id hlisted
    have hhex := hwf a ha
    have hid : id = sessionIdOf a.user a.timestamp := hder
    obtain ⟨hstatus, hsucc, -, -⟩ :=
      terminateSession_logs tTerm m a.user a.timestamp (getSessions io s).2 hhex
    rw [← hid] at hstatus hsucc
    exact ⟨hstatus, hsucc, terminated_id_not_relisted io2 (getSessions io s).2 id tTerm m hwf hwin⟩

/-- The witness of C11: the session of `alice` listed at 1500 is terminated at
2000 and is not listed at 2500. -/
theorem terminated_session_not_listed_witness :
    (getSessions ⟨1500, 1500, 1500⟩ afterOtp).1.sessions.map (fun x => x._id)
      = ["session_64b7f0c2a1d3e4f5a6b7c8d9_1000"] ∧
    (terminateSession 2000 {} "session_64b7f0c2a1d3e4f5a6b7c8d9_1000"
      (getSessions ⟨1500, 1500, 1500⟩ afterOtp).2).1.status = 200 ∧
    "session_64b7f0c2a1d3e4f5a6b7c8d9_1000" ∉
      (getSessions ⟨2500, 2500, 2500⟩ (terminateSession 2000 {}
        "session_64b7f0c2a1d3e4f5a6b7c8d9_1000"
        (getSessions ⟨1500, 1500, 1500⟩ afterOtp).2).2).1.sessions.map (fun x => x._id) :=
  have h := (terminated_session_not_listed ⟨1500, 1500, 1500⟩ afterOtp).2.2 (by decide)
    "session_64b7f0c2a1d3e4f5a6b7c8d9_1000" (by decide) 2000 {} ⟨2500, 2500, 2500⟩ (by decide)
  ⟨by decide, h.1, h.2.2.1⟩


/-- The witness of C12: the one session listed for the state `afterOtp` at
1500 comes from a login event of `alice` with no later logout. -/
theorem active_sessions_from_live_logins_witness :
    (getSessions ⟨1500, 1500, 1500⟩ afterOtp).1.sessions.length = 1 ∧
    ∀ sess ∈ (getSessions ⟨1500, 1500, 1500⟩ afterOtp).1.sessions, ∃ a ∈ afterOtp.activities,
      a.action ∈ loginActions ∧ 1500 - 24 * 60 * 60 * 1000 ≤ a.timestamp ∧
      sess._id = derivedSessionId a ∧ sess.userId = .str a.user ∧
      sess.loginTime = a.timestamp ∧
      (∀ l ∈ afterOtp.activities, (l.action = "LOGOUT" ∨ l.action = "FORCE_LOGOUT") →
        l.user = a.user → l.timestamp ≤ a.timestamp) ∧
      1500 - a.timestamp ≤ 2 * 60 * 60 * 1000 :=
  ⟨by decide, (active_sessions_from_live_logins ⟨1500, 1500, 1500⟩ afterOtp).1⟩

/-- The witness of C13: the two login events that `verifyLoginOTP` wrote for
`alice` under `otpTicking` collapse to the session of the later one. -/
theorem one_session_per_user_witness :
    afterOtpTicking.activities.map (fun a => (a.action, a.timestamp))
      = [("LOGIN_SUCCESS", 1001), ("OTP_VERIFIED", 1020)] ∧
    (getSessions ⟨5000, 5000, 5000⟩ afterOtpTicking).1.sessions.map (fun x => x.loginTime) = [1020] ∧
    ((getSessions ⟨5000, 5000, 5000⟩ afterOtpTicking).1.sessions.map (fun x => x.userId)).Nodup :=
  ⟨by decide, by decide, (one_session_per_user ⟨5000, 5000, 5000⟩ afterOtpTicking).1⟩

/-- The witness of C14: the tracker filled by the login of `alice` under
`otpTicking` holds `session_<id>_1000`; after `GET /sessions` it holds exactly
the listed id `session_<id>_1020`. -/
theorem tracker_fully_replaced_witness :
    afterOtpTicking.sessions.map Prod.fst = ["session_64b7f0c2a1d3e4f5a6b7c8d9_1000"] ∧
    (getSessions ⟨5000, 5000, 5000⟩ afterOtpTicking).2.sessions.map Prod.fst
      = ["session_64b7f0c2a1d3e4f5a6b7c8d9_1020"] ∧
    ∀ id, id ∈ (getSessions ⟨5000, 5000, 5000⟩ afterOtpTicking).2.sessions.map Prod.fst ↔
      id ∈ (getSessions ⟨5000, 5000, 5000⟩ afterOtpTicking).1.sessions.map (fun x => x._id) :=
  ⟨by decide, by decide, (tracker_fully_replaced ⟨5000, 5000, 5000⟩ afterOtpTicking).1⟩


/-! ## Lock expiry, session registration and the action enum -/

/-- The lock test holds at every clock value for a record whose `isLocked`
flag is set, whatever `lockUntil` holds. -/
theorem lockedAt_of_isLocked (user : User) (now : Nat) (h : user.isLocked = true) :
    lockedAt user now = true := by
  unfold lockedAt
  rw [h]
  rfl

/-- C21, the code at the failing input. In the state `lockedAfterOtp` the
account `alice` was locked by the third wrong password at 4000: the stored
record has `isLocked = true` and `lockUntil = 1804000` (30 minutes later), and
nothing modifies it afterwards.  A login with the correct password and a
passing captcha at any clock value `t`, in particular after 1804000, is
answered 423 with `isLocked: true` and leaves the credential store as it was:
the lock test reads `isLocked` first, and no code path clears that flag when
`lockUntil` has passed. -/
theorem lock_outlives_lockUntil (t : Nat) :
    lockedAfterOtp.users.map (fun u => (u.username, u.isLocked, u.lockUntil))
      = [("alice", true, some 1804000), ("root", false, none)] ∧
    bcryptCompare sampleEnv "wonderland" alice.password = some true ∧
    (login sampleEnv (loginAt t) {} "alice" "wonderland" "valid-captcha" lockedAfterOtp).1.status
      = 423 ∧
    (login sampleEnv (loginAt t) {} "alice" "wonderland" "valid-captcha" lockedAfterOtp).1.isLocked
      = some true ∧
    (login sampleEnv (loginAt t) {} "alice" "wonderland" "valid-captcha" lockedAfterOtp).2.users
      = lockedAfterOtp.users ∧
    (login sampleEnv (loginAt 1804001) {} "alice" "wonderland" "valid-captcha"
      lockedAfterOtp).1.message
      = "Account is locked due to multiple failed attempts. Please check your email for unlock instructions." := by
  have hfind : (findByUsername lockedAfterOtp.users "alice").map
      (fun u => (u.isVerified, u.isLocked)) = some (true, true) := by decide
  obtain ⟨user, hf, hvl⟩ := Option.map_eq_some.mp hfind
  have hver : user.isVerified = true := (Prod.mk.inj hvl).1
  have hlk : user.isLocked = true := (Prod.mk.inj hvl).2
  have hreg := login_regular sampleEnv (loginAt t) {} "alice" "wonderland" "valid-captcha"
    lockedAfterOtp user (by decide) (by decide) (by decide) (by decide) (by decide) hf
  have hlocked := lockedAt_of_isLocked user (loginAt t).tCheck hlk
  have hrun : (loginRegular sampleEnv (loginAt t) {} "wonderland" lockedAfterOtp user).1.status = 423 ∧
      (loginRegular sampleEnv (loginAt t) {} "wonderland" lockedAfterOtp user).1.isLocked = some true ∧
      (loginRegular sampleEnv (loginAt t) {} "wonderland" lockedAfterOtp user).2.users
        = lockedAfterOtp.users := by
    unfold loginRegular
    simp only [hver, hlocked, Bool.not_true, Bool.false_eq_true, if_false, if_true]
    refine ⟨?_, ?_, ?_⟩ <;> first | rfl | trivial
  rw [hreg]
  exact ⟨by decide, by decide, hrun.1, hrun.2.1, hrun.2.2, by decide⟩


/-- C22, the code at the failing input. `googleCallback` never touches the
session tracker, whatever `req.user` is.  At the failing input the Google
account `carol` completes the callback at 1000: the response is the redirect
with an access token and a refresh token, the refresh token is stored on her
record and a `GOOGLE_LOGIN` entry is logged, but the tracker, empty before, is
still empty and holds no session for her.  The sibling paths do register one:
`verifyLoginOTP` for `alice` and the system-admin login each leave their
`session_<id>_1000` in the tracker. -/
theorem googleCallback_registers_no_session (env : Env) (tStamp tLog : Nat) (m : ReqMeta)
    (user : Option User) (s : Server) :
    (googleCallback env tStamp tLog m user s).2.sessions = s.sessions ∧
    ((googleCallback sampleEnv 1000 1000 {} (some carol) { users := [alice, root, carol] }).1.status
        = 302 ∧
     (googleCallback sampleEnv 1000 1000 {} (some carol) { users := [alice, root, carol] }).1.message
        = "/auth/callback" ∧
     (googleCallback sampleEnv 1000 1000 {} (some carol)
        { users := [alice, root, carol] }).1.accessToken.isSome = true ∧
     (googleCallback sampleEnv 1000 1000 {} (some carol)
        { users := [alice, root, carol] }).2.users.map (fun u => u.refreshToken.isSome)
        = [false, false, true] ∧
     (googleCallback sampleEnv 1000 1000 {} (some carol)
        { users := [alice, root, carol] }).2.activities.map (fun a => (a.user, a.action))
        = [("64b7f0c2a1d3e4f5a6b7c8db", "GOOGLE_LOGIN")] ∧
     (googleCallback sampleEnv 1000 1000 {} (some carol)
        { users := [alice, root, carol] }).2.sessions = [] ∧
     findSessionsByUserId
       (googleCallback sampleEnv 1000 1000 {} (some carol)
         { users := [alice, root, carol] }).2.sessions (.str carol._id) = []) ∧
    (afterOtp.sessions.map Prod.fst = ["session_64b7f0c2a1d3e4f5a6b7c8d9_1000"] ∧
     (login sampleEnv (loginAt 1000) {} "admin@yourdomain.com" "secureAdminPassword123!" ""
        { users := [alice, root, carol] }).2.sessions.map Prod.fst
        = ["session_admin-system-user_1000"]) := by
  refine ⟨?_, by decide, by decide⟩
  unfold googleCallback
  cases user <;> rfl

/-- C23, the code at the failing input. `ADMIN_LOGIN_SUCCESS` is among the
login-class actions that `GET /sessions` fetches but not in the `enum` of the
activity schema (it is the only such action).  At the failing input the stored
role-admin account `root` logs in with its email and correct password at
1000: the response is 200 with tokens and the tracker holds its session, but
the activity log is still empty, because `logActivity` drops the
`ADMIN_LOGIN_SUCCESS` entry; the reconciliation of `GET /sessions` at 2000
therefore finds no login event, lists no session and leaves the tracker
empty. -/
theorem admin_login_success_not_in_enum :
    "ADMIN_LOGIN_SUCCESS" ∈ loginActions ∧ "ADMIN_LOGIN_SUCCESS" ∉ actionEnum ∧
    loginActions.filter (fun a => !decide (a ∈ actionEnum)) = ["ADMIN_LOGIN_SUCCESS"] ∧
    (∀ (log : List Activity) (now : Nat) (userId : Option JsId) (req : ReqMeta)
        (details : Details) (success : Option Bool),
      logActivity log now userId "ADMIN_LOGIN_SUCCESS" req details success = log) ∧
    (login sampleEnv (loginAt 1000) {} "root@example.com" "toor" "valid-captcha"
      { users := [alice, root] }).1.status = 200 ∧
    (login sampleEnv (loginAt 1000) {} "root@example.com" "toor" "valid-captcha"
      { users := [alice, root] }).1.accessToken.isSome = true ∧
    (login sampleEnv (loginAt 1000) {} "root@example.com" "toor" "valid-captcha"
      { users := [alice, root] }).2.sessions.map Prod.fst
      = ["session_64b7f0c2a1d3e4f5a6b7c8da_1000"] ∧
    (login sampleEnv (loginAt 1000) {} "root@example.com" "toor" "valid-captcha"
      { users := [alice, root] }).2.activities = [] ∧
    (getSessions ⟨2000, 2000, 2000⟩
      (login sampleEnv (loginAt 1000) {} "root@example.com" "toor" "valid-captcha"
        { users := [alice, root] }).2).1.sessions = [] ∧
    (getSessions ⟨2000, 2000, 2000⟩
      (login sampleEnv (loginAt 1000) {} "root@example.com" "toor" "valid-captcha"
        { users := [alice, root] }).2).2.sessions = [] := by
  refine ⟨by decide, by decide, by decide, ?_, by decide, by decide, by decide, by decide,
    by decide, by decide⟩
  intro log now userId req details success
  unfold logActivity
  have hne : ("ADMIN_LOGIN_SUCCESS" ∈ actionEnum) = False := by
    simp only [eq_iff_iff, iff_false]
    decide
  cases userId with
  | none => rfl
  | some uid =>
    simp only [hne, if_false]
    split
    · rfl
    · split <;> rfl

/-! ## Uniform verifier errors -/

theorem verifyTyped_eq (secret expected message : String) (now : Nat) (token : Jwt) :
    verifyTyped secret expected message now token =
      if token.key = secret ∧ now / 1000 < token.exp ∧ token.payload.type = expected then
        .ok token.payload
      else .error message := by
  unfold verifyTyped jwtVerify
  by_cases hk : token.key = secret
  · by_cases he : token.exp ≤ now / 1000
    · have hlt : ¬ now / 1000 < token.exp := by omega
      simp [hk, he, hlt]
    · have hlt : now / 1000 < token.exp := by omega
      by_cases ht : token.payload.type = expected
      · simp [hk, he, hlt, ht]
      · simp [hk, he, hlt, ht]
  · simp [hk]

/-- C24. Each of the four verifiers either returns the claims of the token
or raises its one fixed message: the token is accepted exactly when its
signature verifies under the verifier's secret, it has not expired and its
type is the verifier's type, and every rejected token, whichever of the three
checks failed, gets the same error (`Invalid or expired token`,
`Invalid or expired refresh token`, `Invalid or expired verification token`,
`Invalid or expired reset token`). -/
theorem verifier_error_uniform (env : Env) (now : Nat) (token : Jwt) :
    verifyAccessToken env now token =
      (if token.key = env.jwtSecret ∧ now / 1000 < token.exp ∧ token.payload.type = "access"
       then .ok token.payload else .error "Invalid or expired token") ∧
    verifyRefreshToken env now token =
      (if token.key = env.jwtRefreshSecret ∧ now / 1000 < token.exp ∧
          token.payload.type = "refresh"
       then .ok token.payload else .error "Invalid or expired refresh token") ∧
    verifyEmailVerificationToken env now token =
      (if token.key = env.jwtSecret ∧ now / 1000 < token.exp ∧
          token.payload.type = "email_verification"
       then .ok token.payload else .error "Invalid or expired verification token") ∧
    verifyPasswordResetToken env now token =
      (if token.key = env.jwtSecret ∧ now / 1000 < token.exp ∧
          token.payload.type = "password_reset"
       then .ok token.payload else .error "Invalid or expired reset token") :=
  ⟨verifyTyped_eq _ _ _ _ _, verifyTyped_eq _ _ _ _ _, verifyTyped_eq _ _ _ _ _,
   verifyTyped_eq _ _ _ _ _⟩


/-! ## `adminAuth` and `forgotPassword` -/

/-- C29, counterexample. The access token issued to `root` at
1000, while its stored role was `admin`, carries the role claim `admin` and no
system-admin flag.  After the stored role has been changed to `user`,
`adminAuth` at 2000 still accepts the token and calls `next()`, leaving the
stored role `user` on the request: the test passes on `decoded.role` alone.
A token issued after the change carries the role `user` and is refused with
403, and so is the token of `alice`. -/
theorem adminAuth_stale_role_counterexample :
    rootAdminToken.payload.userId = root._id ∧
    rootAdminToken.payload.role = some "admin" ∧
    rootAdminToken.payload.isSystemAdmin = none ∧
    (findById [alice, demotedRoot] (.str root._id)).map (fun u => (u.role, u.isActive))
      = some ("user", true) ∧
    (adminAuth sampleEnv 2000 (some rootAdminToken) [alice, demotedRoot]).toOption
      = some { userId := "64b7f0c2a1d3e4f5a6b7c8da", isSystemAdmin := false, userRole := "user" } ∧
    (generateAccessToken sampleEnv [alice, demotedRoot] 2000 (.str root._id) "user" {}).payload.role
      = some "user" ∧
    ((adminAuth sampleEnv 2000
        (some (generateAccessToken sampleEnv [alice, demotedRoot] 2000 (.str root._id) "user" {}))
        [alice, demotedRoot]).toOption = none ∧
     (adminAuth sampleEnv 2000
        (some (generateAccessToken sampleEnv [alice, root] 1000 (.str alice._id) "user" {}))
        [alice, demotedRoot]).toOption = none) := by
  decide

/-- The three parts of the description of `adminAuth` when the middleware
ends the request and no record qualifies. -/
theorem adminAuth_refused (users : List User) (decoded : Payload) (r : Response)
    (hfalse : ∀ u : User, isObjectIdHex decoded.userId = true →
      findById users (.str decoded.userId) = some u → u.isActive = true →
      (decoded.isSystemAdmin = some true ∨ decoded.role = some "admin" ∨ u.role = "admin") →
      False) :
    ((∃ req : AdminRequest, (Except.error r : Except Response AdminRequest) = .ok req) ↔
      ∃ user : User, isObjectIdHex decoded.userId = true ∧
        findById users (.str decoded.userId) = some user ∧ user.isActive = true ∧
        (decoded.isSystemAdmin = some true ∨ decoded.role = some "admin" ∨
          user.role = "admin")) ∧
    (∀ req : AdminRequest, (Except.error r : Except Response AdminRequest) = .ok req →
      ∃ user : User, findById users (.str decoded.userId) = some user ∧
        req.userId = decoded.userId ∧ req.userRole = user.role ∧
        req.isSystemAdmin = (decoded.isSystemAdmin == some true)) ∧
    (∀ user : User, isObjectIdHex decoded.userId = true →
      findById users (.str decoded.userId) = some user → user.isActive = true →
      (user.role = "admin" ∨ decoded.role = some "admin") →
      (Except.error r : Except Response AdminRequest)
        = .ok { userId := decoded.userId, isSystemAdmin := decoded.isSystemAdmin == some true,
                userRole := user.role }) := by
  refine ⟨⟨?_, ?_⟩, ?_, ?_⟩
  · rintro ⟨_, h⟩
    cases h
  · rintro ⟨u, hx, hu, hau, hg⟩
    exact (hfalse u hx hu hau hg).elim
  · intro _ h
    cases h
  · intro u hx hu hau hg
    refine (hfalse u hx hu hau ?_).elim
    rcases hg with h | h
    · exact Or.inr (Or.inr h)
    · exact Or.inr (Or.inl h)

/-- C29, amended. For every access token that `verifyAccessToken` accepts
and that is not the system administrator's (sentinel id with the system-admin
flag), `adminAuth` lets the request through exactly when the token's user id
casts, the record with that id exists and is active, and at least one of
three grounds holds: the token carries the system-admin flag, the token's role
claim is `admin`, or the role currently stored is `admin`.  The role it leaves
on the request is the stored one.  Hence a stored role `admin` grants access
whatever the token claims, and a role claim `admin` grants access whatever
role is stored. -/
theorem adminAuth_passes_iff (env : Env) (now : Nat) (tok : Jwt) (users : List User)
    (decoded : Payload)
    (hv : verifyAccessToken env now tok = .ok decoded)
    (hns : ¬ (decoded.userId = "admin-system-user" ∧ decoded.isSystemAdmin = some true)) :
    ((∃ req : AdminRequest, adminAuth env now (some tok) users = .ok req) ↔
      ∃ user : User, isObjectIdHex decoded.userId = true ∧
        findById users (.str decoded.userId) = some user ∧ user.isActive = true ∧
        (decoded.isSystemAdmin = some true ∨ decoded.role = some "admin" ∨
          user.role = "admin")) ∧
    (∀ req : AdminRequest, adminAuth env now (some tok) users = .ok req →
      ∃ user : User, findById users (.str decoded.userId) = some user ∧
        req.userId = decoded.userId ∧ req.userRole = user.role ∧
        req.isSystemAdmin = (decoded.isSystemAdmin == some true)) ∧
    (∀ user : User, isObjectIdHex decoded.userId = true →
      findById users (.str decoded.userId) = some user → user.isActive = true →
      (user.role = "admin" ∨ decoded.role = some "admin") →
      adminAuth env now (some tok) users
        = .ok { userId := decoded.userId, isSystemAdmin := decoded.isSystemAdmin == some true,
                userRole := user.role }) := by
  have hhex : isObjectIdHex "" = false := by decide
  have hshape : adminAuth env now (some tok) users =
      (if decoded.userId = "" then
        .error { status := 403, message := "User not found or inactive", success := some false }
      else if isObjectIdHex decoded.userId = false then
        .error { status := 401, message := "Token is not valid", success := some false }
      else
        match findById users (.str decoded.userId) with
        | none =>
          .error { status := 403, message := "User not found or inactive", success := some false }
        | some user =>
          if !user.isActive then
            .error { status := 403, message := "User not found or inactive",
                     success := some false }
          else if decoded.isSystemAdmin = some true ∨ decoded.role = some "admin" ∨
              user.role = "admin" then
            .ok { userId := decoded.userId, isSystemAdmin := decoded.isSystemAdmin == some true,
                  userRole := user.role }
          else
            .error { status := 403, message := "Access denied. Admin privileges required.",
                     success := some false }) := by
    unfold adminAuth
    simp only [hv]
    rw [if_neg hns]
  by_cases he : decoded.userId = ""
  · rw [hshape, if_pos he]
    apply adminAuth_refused
    intro u hx _ _ _
    rw [he, hhex] at hx
    cases hx
  · by_cases hc : isObjectIdHex decoded.userId = false
    · rw [hshape, if_neg he, if_pos hc]
      apply adminAuth_refused
      intro u hx _ _ _
      rw [hc] at hx
      cases hx
    · have hct : isObjectIdHex decoded.userId = true := by simpa using hc
      obtain ⟨found, hf⟩ : ∃ o, findById users (.str decoded.userId) = o := ⟨_, rfl⟩
      cases found with
      | none =>
        have hval : adminAuth env now (some tok) users
            = .error { status := 403, message := "User not found or inactive",
                       success := some false } := by
          rw [hshape, if_neg he, if_neg hc, hf]
        rw [hval]
        apply adminAuth_refused
        intro u _ hu _ _
        rw [hf] at hu
        cases hu
      | some user =>
        by_cases ha : user.isActive = true
        · have hna : ¬ ((!user.isActive) = true) := by simp [ha]
          by_cases hg : decoded.isSystemAdmin = some true ∨ decoded.role = some "admin" ∨
              user.role = "admin"
          · have hval : adminAuth env now (some tok) users
                = .ok { userId := decoded.userId,
                        isSystemAdmin := decoded.isSystemAdmin == some true,
                        userRole := user.role } := by
              rw [hshape, if_neg he, if_neg hc, hf]
              simp only
              rw [if_neg hna, if_pos hg]
            rw [hval]
            refine ⟨⟨fun _ => ⟨user, hct, hf, ha, hg⟩, fun _ => ⟨_, rfl⟩⟩, ?_, ?_⟩
            · intro req hreq
              have hreq2 := Except.ok.inj hreq
              subst hreq2
              exact ⟨user, hf, rfl, rfl, rfl⟩
            · intro u _ hu _ _
              rw [hf] at hu
              have hu2 := Option.some.inj hu
              subst hu2
              rfl
          · have hval : adminAuth env now (some tok) users
                = .error { status := 403, message := "Access denied. Admin privileges required.",
                           success := some false } := by
              rw [hshape, if_neg he, if_neg hc, hf]
              simp only
              rw [if_neg hna, if_neg hg]
            rw [hval]
            apply adminAuth_refused
            intro u _ hu _ hgu
            rw [hf] at hu
            have hu2 := Option.some.inj hu
            subst hu2
            exact hg hgu
        · have hna : (!user.isActive) = true := by simpa using ha
          have hval : adminAuth env now (some tok) users
              = .error { status := 403, message := "User not found or inactive",
                         success := some false } := by
            rw [hshape, if_neg he, if_neg hc, hf]
            simp only
            rw [if_pos hna]
          rw [hval]
          apply adminAuth_refused
          intro u _ hu hau _
          rw [hf] at hu
          have hu2 := Option.some.inj hu
          subst hu2
          exact ha hau

/-- The witness of C29 (amended): the token issued to `root` while it was an
administrator, presented at 2000 after the stored role has become `user`, and
the token of `alice` presented after her stored role has become `admin`. -/
theorem adminAuth_passes_iff_witness :
    (verifyAccessToken sampleEnv 2000 rootAdminToken).toOption = some rootAdminToken.payload ∧
    ((∃ req : AdminRequest,
        adminAuth sampleEnv 2000 (some rootAdminToken) [alice, demotedRoot] = .ok req) ↔
      ∃ user : User, isObjectIdHex rootAdminToken.payload.userId = true ∧
        findById [alice, demotedRoot] (.str rootAdminToken.payload.userId) = some user ∧
        user.isActive = true ∧
        (rootAdminToken.payload.isSystemAdmin = some true ∨
          rootAdminToken.payload.role = some "admin" ∨ user.role = "admin")) ∧
    (adminAuth sampleEnv 2000 (some rootAdminToken) [alice, demotedRoot]).toOption
      = some { userId := root._id, isSystemAdmin := false, userRole := "user" } ∧
    (adminAuth sampleEnv 2000
      (some (generateAccessToken sampleEnv [alice, root] 1000 (.str alice._id) "user" {}))
      [{ alice with role := "admin" }, root]).toOption
      = some { userId := alice._id, isSystemAdmin := false, userRole := "admin" } :=
  ⟨by decide,
   (adminAuth_passes_iff sampleEnv 2000 rootAdminToken [alice, demotedRoot]
      rootAdminToken.payload (by rfl) (by decide)).1,
   by decide, by decide⟩

/-- C30, the code at the failing input. With the store `[alice, bob]`, where
`bob` is registered but not verified, `forgotPassword` answers an email that
belongs to no account with 200 and the neutral message; it answers the email
of `bob` with 400 `Please verify your email first before resetting password`,
so the two responses differ in status and message.  For the verified account
`alice` the response equals the one for an unknown email when the mail is
handed over, and is 500 when the transporter refuses it. -/
theorem forgotPassword_reveals_unverified :
    findByEmail [alice, bob] "nobody@example.com" = none ∧
    findByEmail [alice, bob] "bob@example.com" = some bob ∧
    (forgotPassword sampleEnv 1000 1000 true {} "nobody@example.com"
      { users := [alice, bob] }).response
      = { status := 200,
          message := "If an account exists with this email, you will receive a password reset link" } ∧
    (forgotPassword sampleEnv 1000 1000 true {} "bob@example.com"
      { users := [alice, bob] }).response
      = { status := 400,
          message := "Please verify your email first before resetting password" } ∧
    (forgotPassword sampleEnv 1000 1000 true {} "alice@example.com"
      { users := [alice, bob] }).response
      = (forgotPassword sampleEnv 1000 1000 true {} "nobody@example.com"
          { users := [alice, bob] }).response ∧
    (forgotPassword sampleEnv 1000 1000 false {} "alice@example.com"
      { users := [alice, bob] }).response
      = { status := 500, message := "Error processing password reset request" } := by
  decide


/-! ## The idle sweep of the session tracker -/

/-- The state of the loop of `removeExpiredSessions` after it has visited the
entries `l`, started with the collected keys `ids` and the map `acc`. -/
theorem removeExpired_fold (now h : Nat) (l : List (String × Session)) :
    ∀ (ids : List String) (acc : SessionMap),
      l.foldl
        (fun (st : List String × SessionMap) (e : String × Session) =>
          if sessionExpired now h e.2 then
            (st.1 ++ [e.1], st.2.filter (fun x => !(x.1 == e.1)))
          else st)
        (ids, acc)
      = (ids ++ (l.filter (fun e => sessionExpired now h e.2)).map Prod.fst,
         acc.filter (fun x =>
           !decide (x.1 ∈ (l.filter (fun e => sessionExpired now h e.2)).map Prod.fst))) := by
  induction l with
  | nil => intro ids acc; simp
  | cons e rest ih =>
    intro ids acc
    rw [List.foldl_cons]
    by_cases he : sessionExpired now h e.2 = true
    · have hf : (e :: rest).filter (fun e => sessionExpired now h e.2)
          = e :: rest.filter (fun e => sessionExpired now h e.2) := by simp [he]
      rw [if_pos he, ih, hf]
      simp only [List.map_cons, List.append_assoc, List.singleton_append, List.filter_filter,
        List.mem_cons, Prod.mk.injEq, true_and]
      congr 1
      funext x
      by_cases hx : x.1 = e.1
      · simp [hx]
      · simp [hx]
    · have hf : (e :: rest).filter (fun e => sessionExpired now h e.2)
          = rest.filter (fun e => sessionExpired now h e.2) := by simp [he]
      rw [if_neg he, ih, hf]

/-- In a map (distinct keys), the key of an entry is the key of an expired
entry only if the entry itself is expired. -/
theorem key_expired_iff (now h : Nat) (m : SessionMap) (hk : (m.map Prod.fst).Nodup)
    (x : String × Session) (hx : x ∈ m) :
    x.1 ∈ (m.filter (fun e => sessionExpired now h e.2)).map Prod.fst ↔
      sessionExpired now h x.2 = true := by
  constructor
  · intro hmem
    rw [List.mem_map] at hmem
    obtain ⟨y, hy, hyx⟩ := hmem
    rw [List.mem_filter] at hy
    have hxy : y = x := by
      have hinj := List.inj_on_of_nodup_map hk
      exact hinj hy.1 hx hyx
    rw [← hxy]
    exact hy.2
  · intro hexp
    rw [List.mem_map]
    exact ⟨x, List.mem_filter.mpr ⟨hx, hexp⟩, rfl⟩

/-- C25. On a tracker (a `Map`, so its keys are distinct),
`removeExpiredSessions(h)` at clock value `now` returns the keys of exactly
the entries whose `lastActivity` is earlier than `now` minus `h` hours, in
insertion order, and leaves in the tracker exactly the other entries,
unchanged and in their order. -/
theorem removeExpiredSessions_spec (m : SessionMap) (now h : Nat)
    (hk : (m.map Prod.fst).Nodup) :
    (removeExpiredSessions m now h).1
      = (m.filter (fun e =>
          decide ((e.2.lastActivity : Int) < (now : Int) - (h : Int) * 3600000))).map Prod.fst ∧
    (removeExpiredSessions m now h).2
      = m.filter (fun e =>
          !decide ((e.2.lastActivity : Int) < (now : Int) - (h : Int) * 3600000)) ∧
    (∀ id : String, id ∈ (removeExpiredSessions m now h).1 ↔
      ∃ session : Session, (id, session) ∈ m ∧
        (session.lastActivity : Int) < (now : Int) - (h : Int) * 3600000) ∧
    (∀ e : String × Session, e ∈ (removeExpiredSessions m now h).2 ↔
      e ∈ m ∧ ¬ (e.2.lastActivity : Int) < (now : Int) - (h : Int) * 3600000) := by
  have hfold := removeExpired_fold now h m [] m
  have h1 : (removeExpiredSessions m now h).1
      = (m.filter (fun e => sessionExpired now h e.2)).map Prod.fst := by
    unfold removeExpiredSessions
    rw [hfold]
    rfl
  have h2 : (removeExpiredSessions m now h).2
      = m.filter (fun e => !sessionExpired now h e.2) := by
    unfold removeExpiredSessions
    rw [hfold]
    apply List.filter_congr
    intro x hx
    have hiff := key_expired_iff now h m hk x hx
    by_cases hexp : sessionExpired now h x.2 = true
    · simp [hexp, hiff.mpr hexp]
    · have hnot : ¬ x.1 ∈ (m.filter (fun e => sessionExpired now h e.2)).map Prod.fst :=
        fun hmem => hexp (hiff.mp hmem)
      simp only [Bool.not_eq_true] at hexp
      simp [hexp, hnot]
  refine ⟨h1, h2, ?_, ?_⟩
  · intro id
    rw [h1, List.mem_map]
    constructor
    · rintro ⟨e, he, rfl⟩
      rw [List.mem_filter] at he
      exact ⟨e.2, he.1, by simpa [sessionExpired] using he.2⟩
    · rintro ⟨session, hmem, hlt⟩
      exact ⟨(id, session), List.mem_filter.mpr ⟨hmem, by simpa [sessionExpired] using hlt⟩, rfl⟩
  · intro e
    rw [h2, List.mem_filter]
    simp [sessionExpired]

/-- The witness of C25: a tracker with the session of `alice`, last active
at 1000, and a session last active at 90000000, swept at 90000000 with the
default of 24 hours (cutoff 3600000): the first is evicted and returned, the
second stays. -/
theorem removeExpiredSessions_spec_witness :
    (removeExpiredSessions
        (addSession afterOtp.sessions 90000000 "session_64b7f0c2a1d3e4f5a6b7c8da_90000000"
          { userId := .str root._id, user := none, ipAddress := "Unknown",
            loginTime := 90000000, lastActivity := 90000000, status := "active",
            userAgent := "Unknown" })
        90000000 24).1 = ["session_64b7f0c2a1d3e4f5a6b7c8d9_1000"] ∧
    (removeExpiredSessions
        (addSession afterOtp.sessions 90000000 "session_64b7f0c2a1d3e4f5a6b7c8da_90000000"
          { userId := .str root._id, user := none, ipAddress := "Unknown",
            loginTime := 90000000, lastActivity := 90000000, status := "active",
            userAgent := "Unknown" })
        90000000 24).2.map Prod.fst = ["session_64b7f0c2a1d3e4f5a6b7c8da_90000000"] ∧
    ∀ id : String, id ∈ (removeExpiredSessions
        (addSession afterOtp.sessions 90000000 "session_64b7f0c2a1d3e4f5a6b7c8da_90000000"
          { userId := .str root._id, user := none, ipAddress := "Unknown",
            loginTime := 90000000, lastActivity := 90000000, status := "active",
            userAgent := "Unknown" })
        90000000 24).1 ↔
      ∃ session : Session, (id, session) ∈
        (addSession afterOtp.sessions 90000000 "session_64b7f0c2a1d3e4f5a6b7c8da_90000000"
          { userId := .str root._id, user := none, ipAddress := "Unknown",
            loginTime := 90000000, lastActivity := 90000000, status := "active",
            userAgent := "Unknown" }) ∧
        (session.lastActivity : Int) < ((90000000 : Nat) : Int) - ((24 : Nat) : Int) * 3600000 :=
  ⟨by decide, by decide,
   (removeExpiredSessions_spec _ 90000000 24 (by decide)).2.2.1⟩


/-! ## The response to a wrong password -/

/-- The response of one wrong-password login through the regular branch. -/
theorem login_wrong_password_reply (env : Env) (io : LoginIO) (m : ReqMeta)
    (username password captchaToken : String) (s : Server) (user : User)
    (hu : username ≠ "") (hp : password ≠ "") (hsys : username ≠ env.adminEmail)
    (hc : passesChallenge env captchaToken = true)
    (hadm : findAdminByEmail s.users username = none)
    (hf : findByUsername s.users username = some user)
    (hver : user.isVerified = true) (hlock : lockedAt user io.tCheck = false)
    (hpw : bcryptCompare env password user.password = some false)
    (hmail : user.failedLoginAttempts + 1 < 3 ∨ io.mailOk = true) :
    (login env io m username password captchaToken s).1.status = 401 ∧
    (login env io m username password captchaToken s).1.attemptsRemaining
      = some (3 - (user.failedLoginAttempts + 1)) ∧
    (login env io m username password captchaToken s).1.isLocked
      = some (decide (3 ≤ user.failedLoginAttempts + 1)) := by
  rw [login_regular env io m username password captchaToken s user hu hp hsys hc hadm hf]
  have hflag : user.isLocked = false := by
    unfold lockedAt at hlock
    rw [Bool.or_eq_false_iff] at hlock
    exact hlock.1
  by_cases hthr : 3 ≤ user.failedLoginAttempts + 1
  · have hm : io.mailOk = true := by
      rcases hmail with h | h
      · omega
      · exact h
    simp [loginRegular, hver, hlock, hpw, hthr, hm]
  · simp [loginRegular, hver, hlock, hpw, hthr, hflag]

/-- C26, counterexample. The stored role-admin account `root` (verified,
unlocked, `failedLoginAttempts = 0`) receives a login with a wrong password
and a passing captcha under its email: the response is 401 without
`attemptsRemaining` and without `isLocked`, and the stored
`failedLoginAttempts` is still 0.  A login with a wrong password for `alice`
that carries no captcha token stops at the captcha gate (400), with the same
effect. -/
theorem wrong_password_response_counterexample :
    (bcryptCompare sampleEnv "guess" root.password = some false ∧
     root.isVerified = true ∧ lockedAt root 1000 = false ∧ root.failedLoginAttempts = 0 ∧
     (login sampleEnv (loginAt 1000) {} "root@example.com" "guess" "valid-captcha"
        { users := [alice, root] }).1.status = 401 ∧
     (login sampleEnv (loginAt 1000) {} "root@example.com" "guess" "valid-captcha"
        { users := [alice, root] }).1.attemptsRemaining = none ∧
     (login sampleEnv (loginAt 1000) {} "root@example.com" "guess" "valid-captcha"
        { users := [alice, root] }).1.isLocked = none ∧
     (login sampleEnv (loginAt 1000) {} "root@example.com" "guess" "valid-captcha"
        { users := [alice, root] }).2.users.map (fun u => u.failedLoginAttempts) = [0, 0]) ∧
    (bcryptCompare sampleEnv "guess" alice.password = some false ∧
     alice.isVerified = true ∧ lockedAt alice 1000 = false ∧ alice.failedLoginAttempts = 0 ∧
     (login sampleEnv (loginAt 1000) {} "alice" "guess" ""
        { users := [alice, root] }).1.status = 400 ∧
     (login sampleEnv (loginAt 1000) {} "alice" "guess" ""
        { users := [alice, root] }).1.attemptsRemaining = none ∧
     (login sampleEnv (loginAt 1000) {} "alice" "guess" ""
        { users := [alice, root] }).2.users.map (fun u => u.failedLoginAttempts) = [0, 0]) := by
  decide

/-- C26 (amended). For every login that passes the challenge and is handled
by the regular branch (the username is neither the system-admin email nor the
email of a stored role-admin account), with a password that `bcrypt.compare`
finds not to match the stored hash (the comparison resolves to `false`; a
record without a stored hash makes it reject instead), on an unlocked,
verified account whose `failedLoginAttempts` was `n`, and with the unlock mail
handed over when `n + 1` reaches 3: the response is 401 and carries
`attemptsRemaining = max(0, 3 - (n + 1))` and `isLocked`, which is `true`
exactly when `n + 1 >= 3`, and the stored `failedLoginAttempts` becomes
`n + 1`. -/
theorem wrong_password_response (env : Env) (io : LoginIO) (m : ReqMeta)
    (username password captchaToken : String) (s : Server) (user : User) (n : Nat)
    (hu : username ≠ "") (hp : password ≠ "") (hsys : username ≠ env.adminEmail)
    (hc : passesChallenge env captchaToken = true)
    (hadm : findAdminByEmail s.users username = none)
    (hf : findByUsername s.users username = some user)
    (hver : user.isVerified = true) (hlock : lockedAt user io.tCheck = false)
    (hn : user.failedLoginAttempts = n)
    (hpw : bcryptCompare env password user.password = some false)
    (hmail : n + 1 < 3 ∨ io.mailOk = true) :
    (login env io m username password captchaToken s).1.status = 401 ∧
    (∃ k : Nat, (login env io m username password captchaToken s).1.attemptsRemaining = some k ∧
      (k : Int) = max 0 (3 - ((n : Int) + 1))) ∧
    (∃ b : Bool, (login env io m username password captchaToken s).1.isLocked = some b ∧
      (b = true ↔ n + 1 ≥ 3)) ∧
    ∃ next : User,
      findByUsername (login env io m username password captchaToken s).2.users username
        = some next ∧
      next._id = user._id ∧ next.failedLoginAttempts = n + 1 := by
  subst hn
  obtain ⟨hst, hrem, hlk⟩ := login_wrong_password_reply env io m username password
    captchaToken s user hu hp hsys hc hadm hf hver hlock hpw hmail
  obtain ⟨next, hnext, -, hid, -, -, hcount, -, -⟩ := login_wrong_password_step env io m username
    password captchaToken s user hu hp hsys hc hadm hf hver hlock hpw hmail
  refine ⟨hst, ⟨_, hrem, ?_⟩, ⟨_, hlk, ?_⟩, next, hnext, hid, hcount⟩
  · omega
  · simp

/-- The witness of C26 (amended): the first and the third wrong password for
`alice`. -/
theorem wrong_password_response_witness :
    (findByUsername [alice, root] "alice" = some alice ∧
     bcryptCompare sampleEnv "guess" alice.password = some false) ∧
    ((login sampleEnv (loginAt 1000) {} "alice" "guess" "valid-captcha"
        { users := [alice, root] }).1.status = 401 ∧
     (∃ k : Nat, (login sampleEnv (loginAt 1000) {} "alice" "guess" "valid-captcha"
        { users := [alice, root] }).1.attemptsRemaining = some k ∧
        (k : Int) = max 0 (3 - (((0 : Nat) : Int) + 1))) ∧
     (∃ b : Bool, (login sampleEnv (loginAt 1000) {} "alice" "guess" "valid-captcha"
        { users := [alice, root] }).1.isLocked = some b ∧ (b = true ↔ 0 + 1 ≥ 3)) ∧
     ∃ next : User,
       findByUsername (login sampleEnv (loginAt 1000) {} "alice" "guess" "valid-captcha"
         { users := [alice, root] }).2.users "alice" = some next ∧
       next._id = alice._id ∧ next.failedLoginAttempts = 0 + 1) ∧
    ((login sampleEnv (loginAt 1000) {} "alice" "guess" "valid-captcha"
        { users := [alice, root] }).1.attemptsRemaining = some 2 ∧
     (login sampleEnv (loginAt 1000) {} "alice" "guess" "valid-captcha"
        { users := [alice, root] }).1.isLocked = some false ∧
     (login sampleEnv (loginAt 4000) {} "alice" "guess" "valid-captcha"
        (login sampleEnv (loginAt 3000) {} "alice" "guess" "valid-captcha"
          (login sampleEnv (loginAt 2000) {} "alice" "guess" "valid-captcha"
            { users := [alice, root] }).2).2).1.attemptsRemaining = some 0 ∧
     (login sampleEnv (loginAt 4000) {} "alice" "guess" "valid-captcha"
        (login sampleEnv (loginAt 3000) {} "alice" "guess" "valid-captcha"
          (login sampleEnv (loginAt 2000) {} "alice" "guess" "valid-captcha"
            { users := [alice, root] }).2).2).1.isLocked = some true) :=
  ⟨⟨by decide, by decide⟩,
   wrong_password_response sampleEnv (loginAt 1000) {} "alice" "guess" "valid-captcha"
     { users := [alice, root] } alice 0 (by decide) (by decide) (by decide) (by decide)
     (by decide) (by decide) (by decide) (by decide) (by decide) (by decide) (by decide),
   by decide⟩


/-! ## The one-time password -/

theorem toDigitsCore_six (g n : Nat) (h1 : 100000 ≤ n) (h2 : n < 1000000) :
    Nat.toDigitsCore 10 (g + 6) n [] =
      [Nat.digitChar (n / 10 / 10 / 10 / 10 / 10 % 10),
       Nat.digitChar (n / 10 / 10 / 10 / 10 % 10),
       Nat.digitChar (n / 10 / 10 / 10 % 10),
       Nat.digitChar (n / 10 / 10 % 10),
       Nat.digitChar (n / 10 % 10),
       Nat.digitChar (n % 10)] := by
  have e1 : n / 10 ≠ 0 := by omega
  have e2 : n / 10 / 10 ≠ 0 := by omega
  have e3 : n / 10 / 10 / 10 ≠ 0 := by omega
  have e4 : n / 10 / 10 / 10 / 10 ≠ 0 := by omega
  have e5 : n / 10 / 10 / 10 / 10 / 10 ≠ 0 := by omega
  have e6 : n / 10 / 10 / 10 / 10 / 10 / 10 = 0 := by omega
  simp only [Nat.toDigitsCore, e1, e2, e3, e4, e5, e6, if_true, if_false]

theorem digitChar_isDigit (d : Nat) (h : d < 10) : (Nat.digitChar d).isDigit = true := by
  interval_cases d <;> decide

theorem digitChar_value (d : Nat) (h : d < 10) :
    (Nat.digitChar d).toNat - '0'.toNat = d := by
  interval_cases d <;> decide

/-- The decimal rendering of a number between 100000 and 999999: six digit
characters that denote the number. -/
theorem toString_six_digits (n : Nat) (h1 : 100000 ≤ n) (h2 : n ≤ 999999) :
    (toString n).length = 6 ∧ (toString n).toList.all Char.isDigit = true ∧
    decimalValue (toString n) = n := by
  have hs : (toString n).toList =
      [Nat.digitChar (n / 10 / 10 / 10 / 10 / 10 % 10),
       Nat.digitChar (n / 10 / 10 / 10 / 10 % 10),
       Nat.digitChar (n / 10 / 10 / 10 % 10),
       Nat.digitChar (n / 10 / 10 % 10),
       Nat.digitChar (n / 10 % 10),
       Nat.digitChar (n % 10)] := by
    obtain ⟨g, hg⟩ : ∃ g, n + 1 = g + 6 := ⟨n - 5, by omega⟩
    show Nat.toDigitsCore 10 (n + 1) n [] = _
    rw [hg]
    exact toDigitsCore_six g n h1 (by omega)
  refine ⟨?_, ?_, ?_⟩
  · show (toString n).toList.length = 6
    rw [hs]
    rfl
  · rw [hs]
    simp only [List.all_cons, List.all_nil, Bool.and_true, Bool.and_eq_true]
    refine ⟨?_, ?_, ?_, ?_, ?_, ?_⟩ <;> exact digitChar_isDigit _ (Nat.mod_lt _ (by decide))
  · unfold decimalValue
    rw [hs]
    simp only [List.foldl_cons, List.foldl_nil]
    rw [digitChar_value _ (Nat.mod_lt _ (by decide)), digitChar_value _ (Nat.mod_lt _ (by decide)),
      digitChar_value _ (Nat.mod_lt _ (by decide)), digitChar_value _ (Nat.mod_lt _ (by decide)),
      digitChar_value _ (Nat.mod_lt _ (by decide)), digitChar_value _ (Nat.mod_lt _ (by decide))]
    omega


theorem generateOTPFrom_eq (r : ℚ) (h0 : 0 ≤ r) (h1 : r < 1) :
    ⌊r * 900000⌋₊ < 900000 ∧ generateOTPFrom r = generateOTP ⌊r * 900000⌋₊ := by
  have hpos : (0 : ℚ) ≤ r * 900000 := by positivity
  have hlt : r * 900000 < ((900000 : ℕ) : ℚ) := by
    push_cast
    linarith
  refine ⟨(Nat.floor_lt hpos).mpr hlt, ?_⟩
  unfold generateOTPFrom generateOTP
  have hcast : (100000 : ℚ) + r * 900000 = r * 900000 + ((100000 : ℕ) : ℚ) := by
    push_cast
    ring
  rw [hcast, Nat.floor_add_nat hpos, Nat.add_comm]

/-- One login with the correct password through the regular branch: the
record found afterwards holds the generated OTP and an expiry 600000 ms after
the clock value of the write. -/
theorem login_correct_password_step (env : Env) (io : LoginIO) (m : ReqMeta)
    (username password captchaToken : String) (s : Server) (user : User)
    (hu : username ≠ "") (hp : password ≠ "") (hsys : username ≠ env.adminEmail)
    (hc : passesChallenge env captchaToken = true)
    (hadm : findAdminByEmail s.users username = none)
    (hf : findByUsername s.users username = some user)
    (hver : user.isVerified = true) (hlock : lockedAt user io.tCheck = false)
    (hpw : bcryptCompare env password user.password = some true) :
    ∃ next : User,
      findByUsername (login env io m username password captchaToken s).2.users username = some next ∧
      next._id = user._id ∧ next.loginOTP = some (generateOTP io.rand) ∧
      next.loginOTPExpires = some (io.tStamp + 600000) := by
  obtain ⟨hname, hdereg⟩ := findByUsername_some hf
  rw [login_regular env io m username password captchaToken s user hu hp hsys hc hadm hf]
  have hus : (loginRegular env io m password s user).2.users = saveUser s.users
      { user with loginAttempts := 0, failedLoginAttempts := 0, lockUntil := none,
                  isLocked := false, loginOTP := some (generateOTP io.rand),
                  loginOTPExpires := some (io.tStamp + 600000) } := by
    unfold loginRegular
    simp only [hver, hlock, hpw, Bool.not_true, Bool.false_eq_true, if_false, if_true]
    split_ifs <;> rfl
  rw [hus]
  have hk := find?_saveUser_some (fun u => u.username == username && !u.isDeregistered)
    ({ user with loginAttempts := 0, failedLoginAttempts := 0, lockUntil := none,
                 isLocked := false, loginOTP := some (generateOTP io.rand),
                 loginOTPExpires := some (io.tStamp + 600000) } : User) user rfl
    (by simp [hname, hdereg]) _ hf
  exact ⟨_, hk, rfl, rfl, rfl⟩

/-- C27. For every value `r` in `[0, 1)` returned by the random source (with
exact arithmetic), `generateOTP` returns the decimal rendering of an integer
between 100000 and 999999: a string of exactly 6 characters, all decimal
digits, that denotes that integer.  A login with the correct password that
passes the challenge and reaches the regular branch on a verified, unlocked
account stores this string as `loginOTP` together with
`loginOTPExpires = Date.now() + 600000`. -/
theorem generateOTP_six_digits (r : ℚ) (env : Env) (io : LoginIO) (m : ReqMeta)
    (username password captchaToken : String) (s : Server) (user : User)
    (h0 : 0 ≤ r) (h1 : r < 1) (hrand : io.rand = ⌊r * 900000⌋₊)
    (hu : username ≠ "") (hp : password ≠ "") (hsys : username ≠ env.adminEmail)
    (hc : passesChallenge env captchaToken = true)
    (hadm : findAdminByEmail s.users username = none)
    (hf : findByUsername s.users username = some user)
    (hver : user.isVerified = true) (hlock : lockedAt user io.tCheck = false)
    (hpw : bcryptCompare env password user.password = some true) :
    (∃ n : Nat, 100000 ≤ n ∧ n ≤ 999999 ∧ generateOTPFrom r = toString n ∧
      decimalValue (generateOTPFrom r) = n) ∧
    (generateOTPFrom r).length = 6 ∧
    (generateOTPFrom r).toList.all Char.isDigit = true ∧
    ∃ next : User,
      findByUsername (login env io m username password captchaToken s).2.users username
        = some next ∧
      next._id = user._id ∧ next.loginOTP = some (generateOTPFrom r) ∧
      next.loginOTPExpires = some (io.tStamp + 600000) := by
  obtain ⟨hk, heq⟩ := generateOTPFrom_eq r h0 h1
  have hstr : generateOTPFrom r = toString (100000 + ⌊r * 900000⌋₊) := heq
  obtain ⟨hlen, hdig, hval⟩ := toString_six_digits (100000 + ⌊r * 900000⌋₊) (by omega) (by omega)
  obtain ⟨next, hnext, hid, hotp, hexp⟩ := login_correct_password_step env io m username password
    captchaToken s user hu hp hsys hc hadm hf hver hlock hpw
  refine ⟨⟨100000 + ⌊r * 900000⌋₊, by omega, by omega, hstr, ?_⟩, ?_, ?_, next, hnext, hid, ?_, hexp⟩
  · rw [hstr]; exact hval
  · rw [hstr]; exact hlen
  · rw [hstr]; exact hdig
  · rw [hotp, hrand, heq]

/-- The witness of C27: `Math.random()` returns 0.02606 and `alice` logs in
with her password at 1000; the OTP is `123454`, stored until 601000. -/
theorem generateOTP_six_digits_witness :
    ⌊(1303 / 50000 : ℚ) * 900000⌋₊ = 23454 ∧
    ((∃ n : Nat, 100000 ≤ n ∧ n ≤ 999999 ∧ generateOTPFrom (1303 / 50000) = toString n ∧
      decimalValue (generateOTPFrom (1303 / 50000)) = n) ∧
     (generateOTPFrom (1303 / 50000)).length = 6 ∧
     (generateOTPFrom (1303 / 50000)).toList.all Char.isDigit = true ∧
     ∃ next : User,
       findByUsername
         (login sampleEnv { tCheck := 1000, tStamp := 1000, tSession := 1000, tLog := 1000,
                            rand := 23454, mailOk := true }
            {} "alice" "wonderland" "valid-captcha" { users := [alice, root] }).2.users "alice"
         = some next ∧
       next._id = alice._id ∧ next.loginOTP = some (generateOTPFrom (1303 / 50000)) ∧
       next.loginOTPExpires = some (1000 + 600000)) :=
  have hfloor : ⌊(1303 / 50000 : ℚ) * 900000⌋₊ = 23454 := by
    have hval : (1303 / 50000 : ℚ) * 900000 = ((23454 : ℕ) : ℚ) := by norm_num
    rw [hval, Nat.floor_natCast]
  ⟨hfloor,
   generateOTP_six_digits (1303 / 50000)
     sampleEnv { tCheck := 1000, tStamp := 1000, tSession := 1000, tLog := 1000,
                 rand := 23454, mailOk := true }
     {} "alice" "wonderland" "valid-captcha" { users := [alice, root] } alice
     (by norm_num) (by norm_num) hfloor.symm (by decide) (by decide) (by decide) (by decide)
     (by decide) (by decide) (by decide) (by decide) (by decide)⟩


/-! ## The OTP pair invariant -/

theorem paired_saveUser {users : List User} {saved : User}
    (h : ∀ u ∈ users, otpPaired u = true) (hs : otpPaired saved = true) :
    ∀ u ∈ saveUser users saved, otpPaired u = true := by
  intro u hu
  unfold saveUser at hu
  rw [List.mem_map] at hu
  obtain ⟨v, hv, rfl⟩ := hu
  split_ifs
  · exact hs
  · exact h v hv

theorem paired_of_fields {users : List User} {saved user : User}
    (h : ∀ u ∈ users, otpPaired u = true) (hmem : user ∈ users)
    (h1 : saved.loginOTP = user.loginOTP) (h2 : saved.loginOTPExpires = user.loginOTPExpires) :
    ∀ u ∈ saveUser users saved, otpPaired u = true := by
  apply paired_saveUser h
  have hp := h user hmem
  unfold otpPaired at hp ⊢
  rw [h1, h2]
  exact hp

theorem loginRegular_paired (env : Env) (io : LoginIO) (m : ReqMeta) (password : String)
    (s : Server) (user : User) (hmem : user ∈ s.users)
    (h : ∀ u ∈ s.users, otpPaired u = true) :
    ∀ u ∈ (loginRegular env io m password s user).2.users, otpPaired u = true := by
  unfold loginRegular
  simp only
  repeat' split
  all_goals
    first
    | exact h
    | exact paired_of_fields h hmem rfl rfl
    | exact paired_saveUser h (by rfl)

theorem loginAdminUser_paired (env : Env) (io : LoginIO) (m : ReqMeta) (password : String)
    (s : Server) (user : User) (hmem : user ∈ s.users)
    (h : ∀ u ∈ s.users, otpPaired u = true) :
    ∀ u ∈ (loginAdminUser env io m password s user).2.users, otpPaired u = true := by
  unfold loginAdminUser
  simp only
  repeat' split
  all_goals
    first
    | exact h
    | exact paired_of_fields h hmem rfl rfl

theorem login_paired (env : Env) (io : LoginIO) (m : ReqMeta)
    (username password captchaToken : String) (s : Server)
    (h : ∀ u ∈ s.users, otpPaired u = true) :
    ∀ u ∈ (login env io m username password captchaToken s).2.users, otpPaired u = true := by
  unfold login
  split_ifs
  · exact h
  · exact h
  · exact h
  · unfold loginSystemAdmin
    split_ifs <;> exact h
  · cases hadm : findAdminByEmail s.users username with
    | some adminUser =>
      exact loginAdminUser_paired env io m password s adminUser
        (List.mem_of_find?_eq_some hadm) h
    | none =>
      cases hf : findByUsername s.users username with
      | none => exact h
      | some user =>
        exact loginRegular_paired env io m password s user (List.mem_of_find?_eq_some hf) h

theorem verifyLoginOTP_paired (env : Env) (io : OtpIO) (m : ReqMeta) (username otp : String)
    (s : Server) (h : ∀ u ∈ s.users, otpPaired u = true) :
    ∀ u ∈ (verifyLoginOTP env io m username otp s).2.users, otpPaired u = true := by
  unfold verifyLoginOTP
  split_ifs
  · exact h
  · cases hf : findByUsername s.users username with
    | none => exact h
    | some user =>
      simp only
      split_ifs <;>
        first
        | exact h
        | exact paired_saveUser h (by rfl)

theorem mem_of_findLockedByToken {users : List User} {userId : String} {email : Option String}
    {token : Jwt} {user : User} (hf : findLockedByToken users userId email token = some user) :
    user ∈ users :=
  List.mem_of_find?_eq_some hf

theorem mem_of_findByIdAndEmail {users : List User} {userId : String} {email : Option String}
    {user : User} (hf : findByIdAndEmail users userId email = some user) : user ∈ users :=
  List.mem_of_find?_eq_some hf

theorem unlockAccount_paired (env : Env) (io : RedeemIO) (m : ReqMeta) (token : Option Jwt)
    (newPassword : String) (s : Server) (h : ∀ u ∈ s.users, otpPaired u = true) :
    ∀ u ∈ (unlockAccount env io m token newPassword s).2.users, otpPaired u = true := by
  unfold unlockAccount
  repeat' split
  all_goals
    first
    | exact h
    | (have hm := mem_of_findLockedByToken ‹_›
       exact paired_of_fields h hm rfl rfl)

theorem resetPassword_paired (env : Env) (io : RedeemIO) (m : ReqMeta) (token : Option Jwt)
    (newPassword : String) (s : Server) (h : ∀ u ∈ s.users, otpPaired u = true) :
    ∀ u ∈ (resetPassword env io m token newPassword s).2.users, otpPaired u = true := by
  unfold resetPassword
  repeat' split
  all_goals
    first
    | exact h
    | (have hm := mem_of_findByIdAndEmail ‹_›
       exact paired_of_fields h hm rfl rfl)

theorem deregisterAccount_paired (env : Env) (tStamp tLog : Nat) (m : ReqMeta) (userId : JsId)
    (password : String) (s : Server) (h : ∀ u ∈ s.users, otpPaired u = true) :
    ∀ u ∈ (deregisterAccount env tStamp tLog m userId password s).2.users,
      otpPaired u = true := by
  unfold deregisterAccount
  split_ifs
  · exact h
  · cases hc : castObjectId userId with
    | none => exact h
    | some hex =>
      cases hf : findById s.users userId with
      | none => exact h
      | some user =>
        simp only
        repeat' split
        all_goals
          first
          | exact h
          | exact paired_saveUser h (by rfl)

theorem runOps_paired (env : Env) (ops : List CredentialOp) :
    ∀ s : Server, (∀ u ∈ s.users, otpPaired u = true) →
      ∀ u ∈ (runOps env ops s).users, otpPaired u = true := by
  induction ops with
  | nil => intro s h; exact h
  | cons op rest ih =>
    intro s h
    unfold runOps
    rw [List.foldl_cons]
    apply ih
    cases op with
    | login io m username password captchaToken =>
      exact login_paired env io m username password captchaToken s h
    | verifyLoginOTP io m username otp => exact verifyLoginOTP_paired env io m username otp s h
    | resetPassword io m token newPassword =>
      exact resetPassword_paired env io m token newPassword s h
    | unlockAccount io m token newPassword =>
      exact unlockAccount_paired env io m token newPassword s h
    | deregisterAccount tStamp tLog m userId password =>
      exact deregisterAccount_paired env tStamp tLog m userId password s h


theorem otpPaired_iff (u : User) :
    otpPaired u = true ↔ (u.loginOTP ≠ none ↔ u.loginOTPExpires ≠ none) := by
  unfold otpPaired
  cases u.loginOTP <;> cases u.loginOTPExpires <;> simp

/-- C28. The record that `register` saves has neither `loginOTP` nor
`loginOTPExpires`.  Starting from a credential store in which every record has
`loginOTP` set exactly when `loginOTPExpires` is set (newly registered records
among them), after any sequence of `login`, `verifyLoginOTP`, `resetPassword`,
`unlockAccount` and `deregisterAccount` requests, with any inputs, clock
values and mail outcomes, every stored record has `loginOTP` set if and only
if `loginOTPExpires` is set. -/
theorem otp_pair_invariant (env : Env) (ops : List CredentialOp) (s : Server)
    (h0 : ∀ u ∈ s.users, (u.loginOTP ≠ none ↔ u.loginOTPExpires ≠ none)) :
    (∀ id email username hashedPassword : String,
      (registered id email username hashedPassword).loginOTP = none ∧
      (registered id email username hashedPassword).loginOTPExpires = none) ∧
    ∀ u ∈ (runOps env ops s).users, (u.loginOTP ≠ none ↔ u.loginOTPExpires ≠ none) := by
  refine ⟨fun _ _ _ _ => ⟨rfl, rfl⟩, ?_⟩
  intro u hu
  exact (otpPaired_iff u).mp
    (runOps_paired env ops s (fun v hv => (otpPaired_iff v).mpr (h0 v hv)) u hu)

/-- The witness of C28: from the store `[bob, alice, root]` (`bob` newly
registered), `alice` logs in at 1000, redeems her OTP at 2000, logs in again
at 3000, `root` logs in with its email, and `alice` deregisters at 5000.
After the first request her record holds the OTP `123456` with its expiry;
at the end of the run no record holds either field. -/
theorem otp_pair_invariant_witness :
    (∀ u ∈ ({ users := [bob, alice, root] } : Server).users,
      (u.loginOTP ≠ none ↔ u.loginOTPExpires ≠ none)) ∧
    ((∀ id email username hashedPassword : String,
       (registered id email username hashedPassword).loginOTP = none ∧
       (registered id email username hashedPassword).loginOTPExpires = none) ∧
     ∀ u ∈ (runOps sampleEnv
        [.login (loginAt 1000) {} "alice" "wonderland" "valid-captcha",
         .verifyLoginOTP (otpAt 2000) {} "alice" "123456",
         .login (loginAt 3000) {} "alice" "wonderland" "valid-captcha",
         .login (loginAt 4000) {} "root@example.com" "toor" "valid-captcha",
         .deregisterAccount 5000 5000 {} (.oid 7 alice._id) "wonderland"]
        { users := [bob, alice, root] }).users,
       (u.loginOTP ≠ none ↔ u.loginOTPExpires ≠ none)) ∧
    (runOps sampleEnv [.login (loginAt 1000) {} "alice" "wonderland" "valid-captcha"]
        { users := [bob, alice, root] }).users.map (fun u => (u.loginOTP, u.loginOTPExpires))
      = [(none, none), (some "123456", some 601000), (none, none)] ∧
    (runOps sampleEnv
        [.login (loginAt 1000) {} "alice" "wonderland" "valid-captcha",
         .verifyLoginOTP (otpAt 2000) {} "alice" "123456",
         .login (loginAt 3000) {} "alice" "wonderland" "valid-captcha",
         .login (loginAt 4000) {} "root@example.com" "toor" "valid-captcha",
         .deregisterAccount 5000 5000 {} (.oid 7 alice._id) "wonderland"]
        { users := [bob, alice, root] }).users.map
          (fun u => (u.username, u.isDeregistered, u.loginOTP, u.loginOTPExpires))
      = [("bob", false, none, none), ("deleted_user_5000", true, none, none),
         ("root", false, none, none)] :=
  ⟨by decide,
   otp_pair_invariant sampleEnv
     [.login (loginAt 1000) {} "alice" "wonderland" "valid-captcha",
      .verifyLoginOTP (otpAt 2000) {} "alice" "123456",
      .login (loginAt 3000) {} "alice" "wonderland" "valid-captcha",
      .login (loginAt 4000) {} "root@example.com" "toor" "valid-captcha",
      .deregisterAccount 5000 5000 {} (.oid 7 alice._id) "wonderland"]
     { users := [bob, alice, root] } (by decide),
   by decide, by decide⟩

end AuthSystem
